import Mathlib

/-!
# Phone book: a verification development

A shallow embedding of the phone-book CRUD layer (`phonebook.cpp`, the cursor
implementation; `phonebook_sql.cpp`, the SQL implementation) and of the console
application that drives it (`phonebook_console.cpp`), together with the
properties proved about them.

The database engine is an external collaborator of the program.  Its state is
modelled by `Database`: the two tables the program declares, the `contact_id`
sequence, and whether the `picture` BLOB field exists.  The engine calls the
program makes (`post`, `remove`, filters, `write_blob`, SQL statements) are
modelled as total functions on that state; they enforce exactly the constraints
the program declares in `create_table_contact` and `create_table_phone_number`
(primary key `by_id`, foreign key `contact_ref` with RESTRICT actions).
-/

namespace PhoneBook

/-! ## Data model -/

/-- Contents of a picture file or of a BLOB: a sequence of `char` values. -/
abbrev Bytes := List Nat

/-- A row of table `contact` (`create_table_contact`): `id`, `name`, the
nullable `ring_id` and `picture_name`, and the `picture` BLOB (empty when
nothing was written; always empty when the table has no `picture` field). -/
structure Contact where
  id : Nat
  name : String
  ring_id : Option Nat
  picture_name : Option String
  picture : Bytes
  deriving DecidableEq, Repr

/-- A row of table `phone_number` (`create_table_phone_number`); `type` holds
the code of a `PhoneNumberType`. -/
structure PhoneNumber where
  contact_id : Nat
  number : String
  type : Nat
  speed_dial : Option Int
  deriving DecidableEq, Repr

/-- Enumerator of `PhoneNumberType`: `HOME = 0`. -/
def HOME : Nat := 0

/-- Enumerator of `PhoneNumberType`: `MOBILE`. -/
def MOBILE : Nat := 1

/-- Enumerator of `PhoneNumberType`: `WORK`. -/
def WORK : Nat := 2

/-- Enumerator of `PhoneNumberType`: `FAX`. -/
def FAX : Nat := 3

/-- Enumerator of `PhoneNumberType`: `PAGER`. -/
def PAGER : Nat := 4

/-- State of the engine behind `PhoneBook::db`: the rows of the two tables in
insertion order, the next value of sequence `contact_id` (`none` when the
sequence object cannot be read), and whether `contact` has the `picture`
field. -/
structure Database where
  contact : List Contact
  phone_number : List PhoneNumber
  contact_id : Option Nat
  with_picture : Bool
  deriving DecidableEq, Repr

/-- Modelled from the spec: the engine's status codes (declared in the engine
header, which is not part of the sources).  `DB_NOERROR`, `DB_ETABLE`,
`DB_ESEQ`, `DB_ENOENT` and `DB_ESOCKETOPEN` are named in the sources; the
others follow the error taxonomy of the specification: not found, uniqueness
violation, foreign-key violation, and any other named engine failure. -/
inductive Status where
  | DB_NOERROR
  | DB_ETABLE
  | DB_ESEQ
  | DB_ENOENT
  | DB_ESOCKETOPEN
  | DB_ENOTFOUND
  | DB_EDUPLICATE
  | DB_EFOREIGNKEY
  | DB_FAILURE (code : Nat)
  deriving DecidableEq, Repr

open Status

/-- Modelled from the spec: the engine macro `DB_SUCCESS`. -/
def DB_SUCCESS (rc : Status) : Bool :=
  match rc with
  | DB_NOERROR => true
  | _ => false

/-- Modelled from the spec: the engine macro `DB_FAILED`. -/
def DB_FAILED (rc : Status) : Bool := !DB_SUCCESS rc

/-- What the program writes to `cerr`. -/
inductive Msg where
  | error (rc : Status)
  | text (s : String)
  deriving DecidableEq, Repr

/-- Helper `print_error`: reports a failed status on `cerr`, nothing otherwise;
the status itself is handed back to the caller. -/
def print_error (rc : Status) : List Msg :=
  if DB_FAILED rc then [Msg.error rc] else []

/-! ## Schema constraints -/

/-- Primary key `by_id` of table `contact`: no two rows share an `id`. -/
def Database.PrimaryKey (db : Database) : Prop :=
  (db.contact.map Contact.id).Nodup

/-- Foreign key `contact_ref`: every `phone_number.contact_id` is the `id` of
a row of `contact`. -/
def Database.ForeignKey (db : Database) : Prop :=
  ∀ p ∈ db.phone_number, ∃ c ∈ db.contact, c.id = p.contact_id

instance (db : Database) : Decidable db.PrimaryKey := by
  unfold Database.PrimaryKey; infer_instance

instance (db : Database) : Decidable db.ForeignKey := by
  unfold Database.ForeignKey; infer_instance

/-! ## Engine calls on tables -/

/-- Engine: an equality filter on `contact.id` followed by `apply_filters`
(or an equality seek): the first matching row, `none` when no row matches and
the call reports not-found. -/
def Table.seek_contact (db : Database) (id : Nat) : Option Contact :=
  db.contact.find? (fun c => c.id == id)

/-- Engine: the loop `for (seek_first(); !is_eof(); seek_next()) remove()` over
`phone_number` filtered by `contact_id = id`: every row of the filtered view is
visited once and removed; rows outside the view are not visited. -/
def Table.remove_filtered (id : Nat) : List PhoneNumber → List PhoneNumber
  | [] => []
  | p :: rows =>
    if p.contact_id = id then Table.remove_filtered id rows
    else p :: Table.remove_filtered id rows

/-- Engine: `Table::remove` on `contact` with the cursor on the first row whose
`id` is the filter value.  The RESTRICT delete action of `contact_ref` rejects
the removal while a `phone_number` row still references the row. -/
def Table.remove_contact (db : Database) (id : Nat) : Status × Database :=
  if db.phone_number.any (fun p => p.contact_id == id) then (DB_EFOREIGNKEY, db)
  else (DB_NOERROR, { db with contact := db.contact.eraseP (fun c => c.id == id) })

/-- Engine: `delete from phone_number where contact_id = $0`. -/
def Query.delete_phone_number (db : Database) (id : Nat) : Status × Database :=
  (DB_NOERROR,
    { db with phone_number := db.phone_number.filter (fun p => !(p.contact_id == id)) })

/-- Engine: `delete from contact where id = $0`, rejected by the RESTRICT
action of `contact_ref` while a `phone_number` row references that id. -/
def Query.delete_contact (db : Database) (id : Nat) : Status × Database :=
  if db.phone_number.any (fun p => p.contact_id == id) then (DB_EFOREIGNKEY, db)
  else (DB_NOERROR, { db with contact := db.contact.filter (fun c => !(c.id == id)) })

/-! ## `remove_contact` -/

namespace Cursor

/-- Function `PhoneBook::remove_contact` of `phonebook.cpp`: seek the contact by primary
key; when found, remove the phone numbers filtered by `contact_id`, then remove
the contact row; otherwise report that the contact was not found.  The row
lock taken in between changes no row. -/
def remove_contact (db : Database) (id : Nat) : Database × List Msg :=
  match Table.seek_contact db id with
  | some row =>
    let id := row.id
    let db := { db with phone_number := Table.remove_filtered id db.phone_number }
    let db := (Table.remove_contact db id).2
    (db, [])
  | none =>
    (db, print_error DB_ENOTFOUND ++
      [Msg.text ("Could not find contact with id " ++ toString id)])

end Cursor

namespace Sql

/-- Function `PhoneBook::remove_contact` of `phonebook_sql.cpp`: delete the phone
numbers of the id, and when that statement succeeds delete the contact. -/
def remove_contact (db : Database) (id : Nat) : Database × List Msg :=
  let (rc, db) := Query.delete_phone_number db id
  if DB_SUCCESS rc then
    let (rc, db) := Query.delete_contact db id
    (db, print_error rc)
  else (db, print_error rc)

end Sql

/-! ## Files -/

/-- The part of the file system the program can observe: `content path` is
what `fopen(path, "rb")` followed by reads to end of file delivers (`none` when
the file cannot be opened), `writable path` tells whether `fopen(path, "wb")`
succeeds. -/
structure FileSystem where
  content : String → Option Bytes
  writable : String → Bool

/-- Effect of `fopen(path, "wb")`, writing `bytes`, and `fclose`: the file is
created or truncated and then holds exactly `bytes`. -/
def FileSystem.write (fs : FileSystem) (path : String) (bytes : Bytes) : FileSystem :=
  { fs with content := fun q => if q = path then some bytes else fs.content q }

/-! ## Engine calls used by the insert and update operations -/

/-- Engine: `Sequence::get_next_value(id)`.  On success `id` receives the
current value and the sequence advances by one; when the sequence cannot be
read the call fails and `id` keeps the value it had. -/
def Sequence.get_next_value (db : Database) (id : Nat) : Status × Nat × Database :=
  match db.contact_id with
  | some n => (DB_NOERROR, n, { db with contact_id := some (n + 1) })
  | none => (DB_ENOTFOUND, id, db)

/-- Engine: `Table::post` in insert mode on `contact` (also the SQL
`insert into contact`): rejected by the primary key when a row with that `id`
exists, otherwise the row is appended. -/
def Table.post_contact (db : Database) (row : Contact) : Status × Database :=
  if db.contact.any (fun c => c.id == row.id) then (DB_EDUPLICATE, db)
  else (DB_NOERROR, { db with contact := db.contact ++ [row] })

/-- Engine: `Table::post` in insert mode on `phone_number` (also the SQL
`insert into phone_number`): rejected by foreign key `contact_ref` when no
`contact` row has the given `contact_id`, otherwise the row is appended. -/
def Table.post_phone_number (db : Database) (row : PhoneNumber) : Status × Database :=
  if db.contact.any (fun c => c.id == row.contact_id) then
    (DB_NOERROR, { db with phone_number := db.phone_number ++ [row] })
  else (DB_EFOREIGNKEY, db)

/-- Engine: a change applied to the current row of a cursor positioned on the
first row that satisfies `p`. -/
def Table.edit_first (p : Contact → Bool) (f : Contact → Contact) :
    List Contact → List Contact
  | [] => []
  | c :: rows => if p c then f c :: rows else c :: Table.edit_first p f rows

/-- Engine: the contents of a BLOB after `write(offset, data, length)`: the
bytes at `offset ..` are replaced by `data`, the BLOB growing as needed. -/
def blob_write (blob : Bytes) (offset : Nat) (data : Bytes) : Bytes :=
  blob.take offset ++ List.replicate (offset - blob.length) 0 ++ data
    ++ blob.drop (offset + data.length)

/-- Engine: `Table::write_blob` on field `picture` of the current row.  `cur`
is the id the cursor is positioned on (`none` when it is on no row).  The call
has no effect when the table has no `picture` field or there is no current
row. -/
def Table.write_blob (db : Database) (cur : Option Nat) (offset : Nat) (data : Bytes) :
    Database :=
  match cur with
  | some id =>
    if db.with_picture then
      let rows := Table.edit_first (fun c => c.id == id)
        (fun c => { c with picture := blob_write c.picture offset data }) db.contact
      { db with contact := rows }
    else db
  | none => db

/-- Engine: `read_blob(offset, data, data_size)`: the bytes delivered. -/
def blob_read (blob : Bytes) (offset : Nat) (data_size : Nat) : Bytes :=
  (blob.drop offset).take data_size

/-- Engine: `update contact set name = $1 where id = $0`. -/
def Query.update_contact_name (db : Database) (id : Nat) (newname : String) :
    Status × Database :=
  (DB_NOERROR,
    { db with contact :=
        db.contact.map (fun c => if c.id == id then { c with name := newname } else c) })

/-! ## Picture transfer loops -/

/-- The loop `while ((bytes_read = fread(data, 1, data_size, picture_file)) > 0)`
of `insert_contact` and `update_contact_picture`, with `data_size = 256`: the
`write_blob(picture_field, data_size * num_chunks, data, bytes_read)` calls it
issues, in order, as pairs of offset and data.  `file` is what remains to be
read from the stream. -/
def write_blob_calls (file : Bytes) (num_chunks : Nat) : List (Nat × Bytes) :=
  if h : 0 < (file.take 256).length then
    (256 * num_chunks, file.take 256) :: write_blob_calls (file.drop 256) (num_chunks + 1)
  else []
termination_by file.length
decreasing_by
  simp only [List.length_take, List.length_drop] at h ⊢
  omega

/-- The engine applying the `write_blob` calls of the loop in order (the loop
reads nothing back from the engine between calls). -/
def store_picture (db : Database) (cur : Option Nat) (file : Bytes) : Database :=
  (write_blob_calls file 0).foldl (fun db w => Table.write_blob db cur w.1 w.2) db

/-- The loop `for (offset = 0; offset < blob_size; offset += data_size)` of
`export_picture`, with `data_size = 256`: each round reads up to 256 bytes at
`offset` and hands the bytes read to `fwrite`; the result is everything
written to the output file. -/
def export_loop (blob : Bytes) (offset : Nat) : Bytes :=
  if _h : offset < blob.length then
    blob_read blob offset 256 ++ export_loop blob (offset + 256)
  else []
termination_by blob.length - offset
decreasing_by omega

/-! ## Insert and update operations, export -/

namespace Cursor

/-- Function `PhoneBook::insert_contact` of `phonebook.cpp`.  `id₀` is the indeterminate
value of the local `id` before the sequence is read.  After a successful
`post` the cursor of `t` is on the new row, which is where `write_blob`
writes; after a failed `post` it is on no row.  The result is the id returned,
the database, and what was written to `cerr`. -/
def insert_contact (db : Database) (fs : FileSystem) (id₀ : Nat)
    (name : String) (ring_id : Nat) (picture_name : String) :
    Nat × Database × List Msg :=
  let (rc, id, db) := Sequence.get_next_value db id₀
  let err₁ := print_error rc
  let (rc, db) := Table.post_contact db
    { id := id, name := name, ring_id := some ring_id,
      picture_name := some picture_name, picture := [] }
  let err₂ := print_error rc
  let cur := if DB_FAILED rc then none else some id
  let id := if DB_FAILED rc then 0 else id
  match fs.content picture_name with
  | some file => (id, store_picture db cur file, err₁ ++ err₂)
  | none => (id, db, err₁ ++ err₂ ++ [Msg.text ("Cannot open " ++ picture_name)])

/-- Function `PhoneBook::insert_phone_number` of `phonebook.cpp`.  The second component
lists the status of every `post` the function issues. -/
def insert_phone_number (db : Database) (contact_id : Nat) (number : String)
    (type : Nat) (speed_dial : Int) : Database × List Status × List Msg :=
  let (rc, db) := Table.post_phone_number db
    { contact_id := contact_id, number := number, type := type,
      speed_dial := some speed_dial }
  if DB_FAILED rc then
    (db, [rc], print_error rc ++ [Msg.text "Could not enter new phone number"])
  else (db, [rc], print_error rc)

/-- Function `PhoneBook::update_contact_name` of `phonebook.cpp`: seek by primary key;
when found, edit the current row, set `name`, post. -/
def update_contact_name (db : Database) (id : Nat) (newname : String) :
    Database × List Msg :=
  match Table.seek_contact db id with
  | some _ =>
    let rows := Table.edit_first (fun c => c.id == id)
      (fun c => { c with name := newname }) db.contact
    ({ db with contact := rows }, [])
  | none =>
    (db, print_error DB_ENOTFOUND ++
      [Msg.text ("Could not find contact with id " ++ toString id)])

/-- Function `PhoneBook::export_picture` of `phonebook.cpp`: filter by id; when
`seek_first` succeeds, open the output file and copy the BLOB to it. -/
def export_picture (db : Database) (fs : FileSystem) (id : Nat) (file_name : String) :
    FileSystem × List Msg :=
  match Table.seek_contact db id with
  | some row =>
    if fs.writable file_name then
      let blob := if db.with_picture then row.picture else []
      (fs.write file_name (export_loop blob 0), [])
    else (fs, [Msg.text ("Cannot open " ++ file_name)])
  | none =>
    (fs, print_error DB_ENOTFOUND ++
      [Msg.text ("Could not find contact with id " ++ toString id)])

end Cursor

namespace Sql

/-- Function `PhoneBook::update_contact_picture` of `phonebook_sql.cpp`: seek the
contact by primary key; when found and the file opens, store the file in the
BLOB chunk by chunk. -/
def update_contact_picture (db : Database) (fs : FileSystem) (contact_id : Nat)
    (picture_name : String) : Database × List Msg :=
  match Table.seek_contact db contact_id with
  | some _ =>
    match fs.content picture_name with
    | some file => (store_picture db (some contact_id) file, [])
    | none => (db, [Msg.text ("Cannot open " ++ picture_name)])
  | none =>
    (db, [Msg.text ("Could not find contact with id " ++ toString contact_id)])

/-- Function `PhoneBook::insert_contact` of `phonebook_sql.cpp`.  `id₀` is the
indeterminate value of the local `id` before the sequence is read. -/
def insert_contact (db : Database) (fs : FileSystem) (id₀ : Nat)
    (name : String) (ring_id : Nat) (picture_name : String) :
    Nat × Database × List Msg :=
  let (_, id, db) := Sequence.get_next_value db id₀
  let (rc, db) := Table.post_contact db
    { id := id, name := name, ring_id := some ring_id,
      picture_name := some picture_name, picture := [] }
  if DB_SUCCESS rc then
    let (db, err) := update_contact_picture db fs id picture_name
    (id, db, print_error rc ++ err)
  else (0, db, print_error rc)

/-- Function `PhoneBook::insert_phone_number` of `phonebook_sql.cpp`.  The second
component lists the status of every `execute` the function issues. -/
def insert_phone_number (db : Database) (contact_id : Nat) (number : String)
    (type : Nat) (speed_dial : Int) : Database × List Status × List Msg :=
  let (rc, db) := Table.post_phone_number db
    { contact_id := contact_id, number := number, type := type,
      speed_dial := some speed_dial }
  (db, [rc], print_error rc)

/-- Function `PhoneBook::update_contact_name` of `phonebook_sql.cpp`. -/
def update_contact_name (db : Database) (id : Nat) (newname : String) :
    Database × List Msg :=
  let (rc, db) := Query.update_contact_name db id newname
  (db, print_error rc)

/-- Function `PhoneBook::export_picture` of `phonebook_sql.cpp`: select the picture of
the id; when `seek_first` finds the row, open the output file and copy the BLOB
to it.  Without a `picture` column the statement is rejected by `prepare` and
by `execute`, and nothing else happens. -/
def export_picture (db : Database) (fs : FileSystem) (id : Nat) (file_name : String) :
    FileSystem × List Msg :=
  if db.with_picture then
    match Table.seek_contact db id with
    | some row =>
      if fs.writable file_name then (fs.write file_name (export_loop row.picture 0), [])
      else (fs, [Msg.text ("Cannot open " ++ file_name)])
    | none => (fs, [Msg.text ("Could not find contact with id " ++ toString id)])
  else (fs, print_error (DB_FAILURE 0) ++ print_error (DB_FAILURE 0))

end Sql

/-! ## Listing -/

/-- What `list_contacts` writes to `cout`, block by block: the header of a
contact (the `Id:` and `Name:` lines, and the `Ring tone id:` and
`Picture name:` lines for the fields that are not null), a `Phone number:`
line, and the empty line that closes a contact. -/
inductive Out where
  | contact (id : Nat) (name : String) (ring_id : Option Nat)
      (picture_name : Option String)
  | phone_number (number : String) (type : Nat) (speed_dial : Option Int)
  | endl
  deriving DecidableEq, Repr

/-- The fields of a contact header found in the output. -/
structure Header where
  id : Nat
  name : String
  ring_id : Option Nat
  picture_name : Option String
  deriving DecidableEq, Repr

/-- The contacts emitted by a listing, in output order. -/
def emitted_contacts : List Out → List Header
  | [] => []
  | Out.contact id name ring_id picture_name :: out =>
    { id := id, name := name, ring_id := ring_id, picture_name := picture_name }
      :: emitted_contacts out
  | _ :: out => emitted_contacts out

/-- Engine: collation of a nullable unsigned field; null sorts first. -/
def compare_nullable (a b : Option Nat) : Ordering :=
  match a, b with
  | none, none => Ordering.eq
  | none, some _ => Ordering.lt
  | some _, none => Ordering.gt
  | some x, some y => compare x y

/-- Engine: comparison of two rows on a list of fields, the first field that
differs deciding. -/
def compare_fields {α : Type} (cmp : String → α → α → Ordering) :
    List String → α → α → Ordering
  | [], _, _ => Ordering.eq
  | f :: fs, a, b => (cmp f a b).then (compare_fields cmp fs a b)

/-- Engine: rows put in ascending order of a comparison, rows that compare
equal keeping their relative order. -/
def order_by {α : Type} (cmp : α → α → Ordering) (rows : List α) : List α :=
  rows.insertionSort (fun a b => cmp a b ≠ Ordering.gt)

/-- Engine: comparison of two `contact` rows on one field. -/
def Contact.compare_field (field : String) (a b : Contact) : Ordering :=
  if field = "id" then compare a.id b.id
  else if field = "name" then compare a.name b.name
  else if field = "ring_id" then compare_nullable a.ring_id b.ring_id
  else Ordering.eq

/-- A row of the join `from contact A, phone_number B where A.id = B.contact_id`. -/
structure JoinRow where
  A : Contact
  B : PhoneNumber
  deriving DecidableEq, Repr

/-- Engine: the rows of the join, before ordering. -/
def Query.join (db : Database) : List JoinRow :=
  db.contact.flatMap (fun a =>
    (db.phone_number.filter (fun b => a.id == b.contact_id)).map (fun b => ⟨a, b⟩))

/-- Engine: comparison of two join rows on one `order by` column. -/
def JoinRow.compare_field (field : String) (x y : JoinRow) : Ordering :=
  if field = "A.id" then compare x.A.id y.A.id
  else if field = "A.name" then compare x.A.name y.A.name
  else if field = "A.ring_id" then compare_nullable x.A.ring_id y.A.ring_id
  else if field = "B.type" then compare x.B.type y.B.type
  else Ordering.eq

namespace Cursor

/-- The `switch (sort)` of `list_contacts`: the fields handed to `contact.sort`. -/
def sort_fields (sort : Int) : List String :=
  if sort = 0 then ["id"]
  else if sort = 1 then ["name"]
  else if sort = 2 then ["ring_id", "name"]
  else []

/-- The inner loop of `list_contacts`: the phone numbers of one contact, in the
order of index `by_contact_id` under the equality filter. -/
def list_phone_numbers (db : Database) (id : Nat) : List Out :=
  (db.phone_number.filter (fun p => p.contact_id == id)).map
    (fun p => Out.phone_number p.number p.type p.speed_dial)

/-- The outer loop of `list_contacts` over the sorted cursor. -/
def list_loop (db : Database) : List Contact → List Out
  | [] => []
  | c :: rows =>
    Out.contact c.id c.name c.ring_id c.picture_name
      :: (list_phone_numbers db c.id ++ Out.endl :: list_loop db rows)

/-- Function `PhoneBook::list_contacts` of `phonebook.cpp`: what is written to `cout`. -/
def list_contacts (db : Database) (sort : Int) : List Out :=
  let contact := order_by (compare_fields Contact.compare_field ["name"]) db.contact
  let contact := order_by (compare_fields Contact.compare_field (sort_fields sort)) contact
  list_loop db contact

end Cursor

namespace Sql

/-- The `switch (sort)` of `list_contacts`: the `order by` columns of the
query chosen, `none` for the `default:` case, which returns at once. -/
def order_columns (sort : Int) : Option (List String) :=
  if sort = 0 then some ["A.id", "B.type"]
  else if sort = 1 then some ["A.name", "B.type"]
  else if sort = 2 then some ["A.ring_id", "A.name", "B.type"]
  else none

/-- The loop of `list_contacts` over the result rows; `prev_id` is the id of
the contact whose header was printed last. -/
def print_rows (prev_id : Nat) : List JoinRow → List Out
  | [] => []
  | r :: rows =>
    if r.A.id ≠ prev_id then
      Out.contact r.A.id r.A.name r.A.ring_id r.A.picture_name
        :: Out.phone_number r.B.number r.B.type r.B.speed_dial
        :: print_rows r.A.id rows
    else
      Out.phone_number r.B.number r.B.type r.B.speed_dial :: print_rows prev_id rows

/-- Function `PhoneBook::list_contacts` of `phonebook_sql.cpp`: what is written to
`cout`. -/
def list_contacts (db : Database) (sort : Int) : List Out :=
  match order_columns sort with
  | some columns =>
    print_rows 0 (order_by (compare_fields JoinRow.compare_field columns) (Query.join db))
  | none => []

end Sql

/-! ## Creating the database -/

/-- Modelled from the spec: the storage modes the program chooses between
(engine constants `db::DB_FILE_STORAGE` and `db::DB_MEMORY_STORAGE`). -/
inductive FileMode where
  | DB_FILE_STORAGE
  | DB_MEMORY_STORAGE
  deriving DecidableEq, Repr

/-- The status the engine reports for each schema call of `create_database`. -/
structure SchemaReplies where
  create : Status
  table_contact : Status
  index_by_name : Status
  table_phone_number : Status
  index_by_contact_id : Status
  sequence : Status
  deriving DecidableEq, Repr

/-- The database the engine holds once every schema call has succeeded: both
tables empty, sequence `contact_id` at its start value, and the `picture`
field present when it was among the fields submitted. -/
def Database.created (contact_fields : List String) (start : Nat) : Database :=
  { contact := [], phone_number := [], contact_id := some start,
    with_picture := contact_fields.contains "picture" }

namespace Cursor

/-- Function `PhoneBook::create_table_contact` of `phonebook.cpp`: the status of
`db.create_table` and the fields submitted. -/
def create_table_contact (e : SchemaReplies) (with_picture : Bool) :
    Status × List String :=
  let fields := ["id", "name", "ring_id", "picture_name"]
  let fields := if with_picture then fields ++ ["picture"] else fields
  (e.table_contact, fields)

/-- Function `PhoneBook::create_table_phone_number` of `phonebook.cpp`. -/
def create_table_phone_number (e : SchemaReplies) : Status :=
  e.table_phone_number

/-- Function `PhoneBook::create_tables` of `phonebook.cpp`. -/
def create_tables (e : SchemaReplies) (with_picture : Bool) : Status × List String :=
  let (rc, fields) := create_table_contact e with_picture
  if DB_SUCCESS rc && DB_SUCCESS (create_table_phone_number e) then (DB_NOERROR, fields)
  else (DB_ETABLE, fields)

/-- Function `PhoneBook::create_sequences` of `phonebook.cpp`: the status returned and
the start value passed to `db.create_sequence("contact_id", 1)`. -/
def create_sequences (e : SchemaReplies) : Status × Nat :=
  if DB_SUCCESS e.sequence then (DB_NOERROR, 1) else (DB_ESEQ, 1)

/-- Function `PhoneBook::create_database` of `phonebook.cpp`: the status returned, and
the database created when every step succeeded. -/
def create_database (e : SchemaReplies) (file_mode : FileMode) :
    Status × Option Database :=
  let rc := e.create
  if DB_FAILED rc then (rc, none)
  else
    let (rc, fields) := create_tables e (file_mode != FileMode.DB_MEMORY_STORAGE)
    if DB_FAILED rc then (rc, none)
    else
      let (rc, start) := create_sequences e
      if DB_FAILED rc then (rc, none)
      else (rc, some (Database.created fields start))

end Cursor

namespace Sql

/-- Function `PhoneBook::create_table_contact` of `phonebook_sql.cpp`: the status
returned and the columns of the `create table contact` statement. -/
def create_table_contact (e : SchemaReplies) (with_picture : Bool) :
    Status × List String :=
  let fields :=
    if with_picture then ["id", "name", "ring_id", "picture_name", "picture"]
    else ["id", "name", "ring_id", "picture_name"]
  let rc := e.table_contact
  let rc := if DB_SUCCESS rc then e.index_by_name else rc
  (rc, fields)

/-- Function `PhoneBook::create_table_phone_number` of `phonebook_sql.cpp`. -/
def create_table_phone_number (e : SchemaReplies) : Status :=
  let rc := e.table_phone_number
  if DB_SUCCESS rc then e.index_by_contact_id else rc

/-- Function `PhoneBook::create_tables` of `phonebook_sql.cpp`. -/
def create_tables (e : SchemaReplies) (with_picture : Bool) : Status × List String :=
  let (rc, fields) := create_table_contact e with_picture
  if DB_SUCCESS rc && DB_SUCCESS (create_table_phone_number e) then (DB_NOERROR, fields)
  else (DB_ETABLE, fields)

/-- Function `PhoneBook::create_sequences` of `phonebook_sql.cpp`: the status of
`create sequence contact_id start with 1` and the start value. -/
def create_sequences (e : SchemaReplies) : Status × Nat :=
  (e.sequence, 1)

/-- Function `PhoneBook::create_database` of `phonebook_sql.cpp`. -/
def create_database (e : SchemaReplies) (file_mode : FileMode) :
    Status × Option Database :=
  let rc := e.create
  if DB_FAILED rc then (rc, none)
  else
    let (rc, fields) := create_tables e (file_mode != FileMode.DB_MEMORY_STORAGE)
    if DB_FAILED rc then (rc, none)
    else
      let (rc, start) := create_sequences e
      if DB_FAILED rc then (rc, none)
      else (rc, some (Database.created fields start))

end Sql

/-! ## Sessions -/

/-- The two implementations of class `PhoneBook`. -/
inductive Impl where
  | cursor
  | sql
  deriving DecidableEq, Repr

/-- A call of one of the operations of `PhoneBook` that write to the database,
with its arguments; `insert_contact` also carries the file system it reads the
picture from and the indeterminate initial value of its local `id`. -/
inductive Call where
  | insert_contact (fs : FileSystem) (id₀ : Nat) (name : String) (ring_id : Nat)
      (picture_name : String)
  | insert_phone_number (contact_id : Nat) (number : String) (type : Nat)
      (speed_dial : Int)
  | update_contact_name (id : Nat) (newname : String)
  | remove_contact (id : Nat)

/-- One call executed by the given implementation: the database afterwards
and, for `insert_contact`, the id returned. -/
def Call.exec (impl : Impl) (db : Database) : Call → Database × Option Nat
  | Call.insert_contact fs id₀ name ring_id picture_name =>
    match impl with
    | Impl.cursor =>
      let r := Cursor.insert_contact db fs id₀ name ring_id picture_name
      (r.2.1, some r.1)
    | Impl.sql =>
      let r := Sql.insert_contact db fs id₀ name ring_id picture_name
      (r.2.1, some r.1)
  | Call.insert_phone_number contact_id number type speed_dial =>
    match impl with
    | Impl.cursor => ((Cursor.insert_phone_number db contact_id number type speed_dial).1, none)
    | Impl.sql => ((Sql.insert_phone_number db contact_id number type speed_dial).1, none)
  | Call.update_contact_name id newname =>
    match impl with
    | Impl.cursor => ((Cursor.update_contact_name db id newname).1, none)
    | Impl.sql => ((Sql.update_contact_name db id newname).1, none)
  | Call.remove_contact id =>
    match impl with
    | Impl.cursor => ((Cursor.remove_contact db id).1, none)
    | Impl.sql => ((Sql.remove_contact db id).1, none)

/-- A session: calls executed one after the other, each by either
implementation.  The result is the final database and the ids returned by the
`insert_contact` calls, in call order. -/
def run (db : Database) : List (Impl × Call) → Database × List Nat
  | [] => (db, [])
  | (impl, call) :: calls =>
    let (db, id) := call.exec impl db
    let (db, ids) := run db calls
    (db, id.toList ++ ids)

/-- The databases `create_database` of either implementation can deliver. -/
def fresh (db : Database) : Prop :=
  ∃ (e : SchemaReplies) (file_mode : FileMode),
    (Cursor.create_database e file_mode).2 = some db ∨
    (Sql.create_database e file_mode).2 = some db

/-! ## Names and numbers on `cout` -/

/-- Library function `wcstombs(dst, src, n)` in the "C" locale, which the
program never leaves (it does not call `setlocale`).  The characters of `src`
before its terminating null are stored in `dst` one byte each, as long as they
are below 128 and fewer than `n` bytes are stored; the terminating null is
stored when it is reached while fewer than `n` bytes are stored.  A character
from 128 on ends the conversion (the function returns -1) with no terminating
null stored.  The result is the bytes stored before any terminating null, and
whether the terminating null was stored. -/
def wcstombs : List Char → Nat → List Char × Bool
  | _, 0 => ([], false)
  | [], _ + 1 => ([], true)
  | c :: src, n + 1 =>
    if c.toNat = 0 then ([], true)
    else if c.toNat < 128 then
      let r := wcstombs src n
      (c :: r.1, r.2)
    else ([], false)

/-- The statements `char name_mbs[50]; wcstombs(name_mbs, name.c_str(), sizeof
name_mbs/sizeof name_mbs[0]); cout << name_mbs` of the listing functions: the
text written for a name.  The array is not initialised, so when `wcstombs`
stored no terminating null, `cout` reads on through bytes the program never
wrote, up to the first null byte in or after the array; the text written is
then not determined by the program (`none`). -/
def print_name_mbs (name : String) : Option String :=
  let r := wcstombs name.toList 50
  if r.2 then some (String.mk r.1) else none

/-- The conversion `(int) ring_id` of an unsigned value to `int`: the value
modulo 2^32, read as a signed number of 32 bits. -/
def int_of_uint (n : Nat) : Int :=
  if n % 4294967296 < 2147483648 then ((n % 4294967296 : Nat) : Int)
  else ((n % 4294967296 : Nat) : Int) - 4294967296

/-! ## Brief listing and picture name -/

/-- Engine: `as_string` of a nullable string field; a null field, and a field
read while the cursor is on no row, reads as the empty string. -/
def as_string (v : Option String) : String := v.getD ""

/-- Engine: `as_int` of a nullable signed field; a null field reads as 0. -/
def as_int (v : Option Int) : Int := v.getD 0

namespace Cursor

/-- Function `PhoneBook::list_contacts_brief` of `phonebook.cpp`: the lines
written to `cout`, for the rows in the order of index `by_name`: each line is
the id and the text written for the name through the buffer `name_mbs`
(`none` where that text is not determined by the program). -/
def list_contacts_brief (db : Database) : List (Nat × Option String) :=
  (order_by (compare_fields Contact.compare_field ["name"]) db.contact).map
    (fun c => (c.id, print_name_mbs c.name))

/-- Function `PhoneBook::get_picture_name` of `phonebook.cpp`: the string
returned and what is written to `cerr`. -/
def get_picture_name (db : Database) (id : Nat) : String × List Msg :=
  let picture_name := ""
  match Table.seek_contact db id with
  | some row => (as_string row.picture_name, [])
  | none =>
    (picture_name, print_error DB_ENOTFOUND ++
      [Msg.text ("Could not find contact with id " ++ toString id)])

/-- The `write_blob` calls `insert_contact` of `phonebook.cpp` issues, as pairs
of offset and data: those of the loop when the picture file opens, none when
it does not. -/
def insert_contact_writes (fs : FileSystem) (picture_name : String) : List (Nat × Bytes) :=
  match fs.content picture_name with
  | some file => write_blob_calls file 0
  | none => []

end Cursor

namespace Sql

/-- Function `PhoneBook::list_contacts_brief` of `phonebook_sql.cpp`: the
lines written to `cout` for the rows of `select id, name from contact order by
name`: each line is the id and the text written for the name through the
buffer `name_mbs` (`none` where that text is not determined by the
program). -/
def list_contacts_brief (db : Database) : List (Nat × Option String) :=
  (order_by (compare_fields Contact.compare_field ["name"]) db.contact).map
    (fun c => (c.id, print_name_mbs c.name))

/-- Function `PhoneBook::get_picture_name` of `phonebook_sql.cpp`: the select
succeeds whether or not a row has the id, `seek_first` moves to the first
result row if there is one, and column 0 is read as a string. -/
def get_picture_name (db : Database) (id : Nat) : String × List Msg :=
  match Table.seek_contact db id with
  | some row => (as_string row.picture_name, [])
  | none => (as_string none, [])

/-- The `write_blob` calls `update_contact_picture` issues: those of the loop
when the contact is found and the picture file opens, none otherwise. -/
def update_contact_picture_writes (db : Database) (fs : FileSystem) (contact_id : Nat)
    (picture_name : String) : List (Nat × Bytes) :=
  match Table.seek_contact db contact_id with
  | some _ =>
    match fs.content picture_name with
    | some file => write_blob_calls file 0
    | none => []
  | none => []

/-- The `write_blob` calls `insert_contact` of `phonebook_sql.cpp` issues:
those of `update_contact_picture` when the row was written, none otherwise. -/
def insert_contact_writes (db : Database) (fs : FileSystem) (id₀ : Nat)
    (name : String) (ring_id : Nat) (picture_name : String) : List (Nat × Bytes) :=
  let (_, id, db) := Sequence.get_next_value db id₀
  let (rc, db) := Table.post_contact db
    { id := id, name := name, ring_id := some ring_id,
      picture_name := some picture_name, picture := [] }
  if DB_SUCCESS rc then update_contact_picture_writes db fs id picture_name
  else []

end Sql

/-! ## Text of a listing -/

/-- The `switch (type)` of `list_contacts`: the name printed for a type code,
nothing for a code that is no enumerator. -/
def type_name (type : Nat) : String :=
  if type = HOME then "Home"
  else if type = MOBILE then "Mobile"
  else if type = WORK then "Work"
  else if type = FAX then "Fax"
  else if type = PAGER then "Pager"
  else ""

/-- The statements of `list_contacts` that print one phone number: the line
written to `cout`. -/
def phone_number_line (number : String) (type : Nat) (speed_dial : Int) : String :=
  let line := "Phone number: " ++ number ++ " ("
  let line := line ++ type_name type
  let line := if speed_dial ≥ 0 then line ++ ", speed dial " ++ toString speed_dial else line
  line ++ ")"

/-- The lines `list_contacts` writes to `cout` for one block of its output:
for the header of a contact, `Id:` with the id, `Name:` with the text written
through the buffer `name_mbs`, `Ring tone id:` with `(int) ring_id` and
`Picture name:` for the fields that are not null.  The result is `none` when
the text is not determined by the program, which is the case for a header whose
name leaves `name_mbs` without a terminating null. -/
def Out.render : Out → Option (List String)
  | Out.contact id name ring_id picture_name =>
    match print_name_mbs name with
    | some name_mbs =>
      some (["Id: " ++ toString id, "Name: " ++ name_mbs]
        ++ (match ring_id with
            | some r => ["Ring tone id: " ++ toString (int_of_uint r)]
            | none => [])
        ++ (match picture_name with
            | some p => ["Picture name: " ++ p]
            | none => []))
    | none => none
  | Out.phone_number number type speed_dial =>
    some [phone_number_line number type (as_int speed_dial)]
  | Out.endl => some [""]

/-- Modelled from the spec: the basename of a path, the path with any leading
directory components removed, `/` separating the components. -/
def basename (path : String) : String :=
  String.mk (path.toList.reverse.takeWhile (fun c => c ≠ '/')).reverse

/-! ## The table definition `create_database` submits -/

namespace Cursor

/-- The definition of table `contact` that `create_database` of `phonebook.cpp`
submits to the engine: the fields `create_table_contact` hands to
`db.create_table` when called through `create_tables(file_mode !=
db::DB_MEMORY_STORAGE)`; `none` when `db.create` fails, since the function then
returns before `create_tables`. -/
def create_database_fields (e : SchemaReplies) (file_mode : FileMode) :
    Option (List String) :=
  let rc := e.create
  if DB_FAILED rc then none
  else some (create_tables e (file_mode != FileMode.DB_MEMORY_STORAGE)).2

end Cursor

namespace Sql

/-- The columns of the `create table contact` statement that `create_database`
of `phonebook_sql.cpp` submits to the engine; `none` when `db.create` fails. -/
def create_database_fields (e : SchemaReplies) (file_mode : FileMode) :
    Option (List String) :=
  let rc := e.create
  if DB_FAILED rc then none
  else some (create_tables e (file_mode != FileMode.DB_MEMORY_STORAGE)).2

end Sql

/-! ## The console application -/

/-- Macro `DATABASE_NAME_LOCAL` of `phonebook.h`. -/
def DATABASE_NAME_LOCAL : String := "phone_book.db"

/-- Macro `DATABASE_NAME_SERVER` of `phonebook.h`. -/
def DATABASE_NAME_SERVER : String := "idb+tcp://localhost/phone_book.db"

/-- Macro `DEFAULT_PICTURE` of `phonebook_console.cpp`. -/
def DEFAULT_PICTURE : String := "unknown.png"

/-- A call the console application makes on its `pbook` object, with the
arguments passed, or the call of `db_server_start`. -/
inductive Event where
  | open_database (file_mode : FileMode) (database_name : String)
  | create_database (file_mode : FileMode) (database_name : String)
  | db_server_start
  | tx_start
  | tx_commit
  | insert_contact (name : String) (ring_id : Nat) (picture_name : String)
  | insert_phone_number (contact_id : Nat) (number : String) (type : Nat)
      (speed_dial : Int)
  | update_contact_name (id : Nat) (newname : String)
  | remove_contact (id : Nat)
  | list_contacts (sort : Int)
  | list_contacts_brief
  | get_picture_name (id : Nat)
  | export_picture (id : Nat) (file_name : String)
  deriving DecidableEq, Repr

/-- State of a run of `PhoneBookConsoleApp`: which implementation of class
`PhoneBook` the program is linked with, the database behind `pbook`, the file
system, the indeterminate value an uninitialised `db_uint id` of
`insert_contact` holds, and the calls made on `pbook` so far, in call order.
What the program writes to `cout` and `cerr` is left out. -/
structure Console where
  impl : Impl
  db : Database
  fs : FileSystem
  id₀ : Nat
  calls : List Event

/-- What the user enters at the prompts of one menu command.  Each prompt is
shown at most once per command, and an answer is read only when its prompt is
shown: `name` (`Name:` and `New name:`), `ring_id` (`Ring tone id number:`),
`picture_name` (`Picture file`), `id` (`Enter id number:`), `number`
(`Phone number:`), `type` (`Phone number type`), `speed_dial` (`Speed dial
number`), `file_name` (`Choose a filename for picture`).  The numbers are the
values `cin >>` extracts into the `unsigned int` and `int` variables; the texts
are lines shorter than the buffers they are read into. -/
structure Answers where
  name : String
  ring_id : Nat
  picture_name : String
  id : Nat
  number : String
  type : Int
  speed_dial : Int
  file_name : String
  deriving DecidableEq, Repr

/-- What `connect` meets outside the program: whether the engine library is a
stand-alone build, the status of `db.open` at the first and at the second
`open_database`, the database that is opened when `db.open` succeeds, and the
replies of the engine to the schema calls of `create_database`. -/
structure Host where
  standalone : Bool
  open_reply : Status
  reopen_reply : Status
  existing : Database
  schema : SchemaReplies

namespace Cursor

/-- Function `PhoneBook::open_database` of `phonebook.cpp`, `rc` being the
status of `db.open`. -/
def open_database (rc : Status) : Status :=
  if DB_FAILED rc then rc else DB_NOERROR

end Cursor

namespace Sql

/-- Function `PhoneBook::open_database` of `phonebook_sql.cpp`, `rc` being the
status of `db.open`. -/
def open_database (rc : Status) : Status := rc

end Sql

/-- The conversion `(PhoneBook::PhoneNumberType) type` of `add_phone_number`
and the assignment of the enumeration value to the unsigned field `type`: the
value of the `int` read as an unsigned number of 32 bits, so that a value from
0 on is kept as it is. -/
def PhoneNumberType.cast (type : Int) : Nat := (type % 4294967296).toNat

/-! The calls of the console on `pbook`: each is logged and has the effect of
the function of the implementation the program is linked with. -/

namespace Pbook

/-- A call added to the log. -/
def log (s : Console) (e : Event) : Console := { s with calls := s.calls ++ [e] }

/-- Call `pbook.tx_start()`: the engine begins a transaction; no row changes. -/
def tx_start (s : Console) : Console := log s Event.tx_start

/-- Call `pbook.tx_commit()`: the engine commits; no row changes. -/
def tx_commit (s : Console) : Console := log s Event.tx_commit

/-- Call `pbook.open_database(file_mode, database_name)`, `rc` being the status
of `db.open` and `existing` the database opened when it succeeds. -/
def open_database (s : Console) (rc : Status) (existing : Database)
    (file_mode : FileMode) (database_name : String) : Status × Console :=
  let s := log s (Event.open_database file_mode database_name)
  let s := if DB_SUCCESS rc then { s with db := existing } else s
  match s.impl with
  | Impl.cursor => (Cursor.open_database rc, s)
  | Impl.sql => (Sql.open_database rc, s)

/-- Call `pbook.create_database(file_mode, database_name)`. -/
def create_database (s : Console) (e : SchemaReplies) (file_mode : FileMode)
    (database_name : String) : Status × Console :=
  let s := log s (Event.create_database file_mode database_name)
  let r := match s.impl with
    | Impl.cursor => Cursor.create_database e file_mode
    | Impl.sql => Sql.create_database e file_mode
  match r.2 with
  | some db => (r.1, { s with db := db })
  | none => (r.1, s)

/-- Call `pbook.insert_contact(name, ring_id, picture_name)`: the id returned
and the state afterwards. -/
def insert_contact (s : Console) (name : String) (ring_id : Nat)
    (picture_name : String) : Nat × Console :=
  let s := log s (Event.insert_contact name ring_id picture_name)
  let r := match s.impl with
    | Impl.cursor => Cursor.insert_contact s.db s.fs s.id₀ name ring_id picture_name
    | Impl.sql => Sql.insert_contact s.db s.fs s.id₀ name ring_id picture_name
  (r.1, { s with db := r.2.1 })

/-- Call `pbook.insert_phone_number(contact_id, number, type, speed_dial)`. -/
def insert_phone_number (s : Console) (contact_id : Nat) (number : String)
    (type : Nat) (speed_dial : Int) : Console :=
  let s := log s (Event.insert_phone_number contact_id number type speed_dial)
  match s.impl with
  | Impl.cursor =>
    { s with db := (Cursor.insert_phone_number s.db contact_id number type speed_dial).1 }
  | Impl.sql =>
    { s with db := (Sql.insert_phone_number s.db contact_id number type speed_dial).1 }

/-- Call `pbook.update_contact_name(id, newname)`. -/
def update_contact_name (s : Console) (id : Nat) (newname : String) : Console :=
  let s := log s (Event.update_contact_name id newname)
  match s.impl with
  | Impl.cursor => { s with db := (Cursor.update_contact_name s.db id newname).1 }
  | Impl.sql => { s with db := (Sql.update_contact_name s.db id newname).1 }

/-- Call `pbook.remove_contact(id)`. -/
def remove_contact (s : Console) (id : Nat) : Console :=
  let s := log s (Event.remove_contact id)
  match s.impl with
  | Impl.cursor => { s with db := (Cursor.remove_contact s.db id).1 }
  | Impl.sql => { s with db := (Sql.remove_contact s.db id).1 }

/-- Call `pbook.list_contacts(sort)`: it reads and prints, no row changes. -/
def list_contacts (s : Console) (sort : Int) : Console :=
  log s (Event.list_contacts sort)

/-- Call `pbook.list_contacts_brief()`: it reads and prints, no row changes. -/
def list_contacts_brief (s : Console) : Console :=
  log s Event.list_contacts_brief

/-- Call `pbook.get_picture_name(id)`: the string returned. -/
def get_picture_name (s : Console) (id : Nat) : String × Console :=
  let s := log s (Event.get_picture_name id)
  match s.impl with
  | Impl.cursor => ((Cursor.get_picture_name s.db id).1, s)
  | Impl.sql => ((Sql.get_picture_name s.db id).1, s)

/-- Call `pbook.export_picture(id, file_name)`. -/
def export_picture (s : Console) (id : Nat) (file_name : String) : Console :=
  let s := log s (Event.export_picture id file_name)
  match s.impl with
  | Impl.cursor => { s with fs := (Cursor.export_picture s.db s.fs id file_name).1 }
  | Impl.sql => { s with fs := (Sql.export_picture s.db s.fs id file_name).1 }

end Pbook

namespace PhoneBookConsoleApp

/-- The `do ... while` loop of `connect` over the choices entered at the
connection menu: `some 0` when the user quits, `some m` for the connection
method `m` the loop ends with, `none` when the choices end before that.  A
choice of 3 or 4 is reset to 0 on a stand-alone build and the menu is shown
again. -/
def connection_loop (standalone : Bool) : List Int → Option Int
  | [] => none
  | choice :: choices =>
    let connection_method := choice
    if connection_method = 0 then some 0
    else
      let connection_method :=
        if (connection_method = 3 ∨ connection_method = 4) ∧ standalone = true then 0
        else connection_method
      if connection_method < 1 ∨ connection_method > 4 then
        connection_loop standalone choices
      else some connection_method

/-- The statement `storage_mode = (connection_method - 1) & 0x1 ?
db::DB_MEMORY_STORAGE : db::DB_FILE_STORAGE` of `connect`. -/
def storage_mode (connection_method : Int) : FileMode :=
  if Int.land (connection_method - 1) 1 ≠ 0 then FileMode.DB_MEMORY_STORAGE
  else FileMode.DB_FILE_STORAGE

/-- The statement `database_name = (connection_method - 1) & 0x2 ?
DATABASE_NAME_SERVER : DATABASE_NAME_LOCAL` of `connect`. -/
def database_name (connection_method : Int) : String :=
  if Int.land (connection_method - 1) 2 ≠ 0 then DATABASE_NAME_SERVER
  else DATABASE_NAME_LOCAL

/-- Function `populate_tables`. -/
def populate_tables (s : Console) : Console :=
  let s := Pbook.tx_start s
  let (id, s) := Pbook.insert_contact s "Bob" 0 DEFAULT_PICTURE
  let s := Pbook.insert_phone_number s id "206-555-1000" MOBILE (-1)
  let (id, s) := Pbook.insert_contact s "Sue" 7 DEFAULT_PICTURE
  let s := Pbook.insert_phone_number s id "206-555-3890" HOME 0
  let (id, s) := Pbook.insert_contact s "Fred" 7 DEFAULT_PICTURE
  let s := Pbook.insert_phone_number s id "206-555-1308" HOME 5
  let s := Pbook.insert_phone_number s id "206-555-2335" MOBILE (-1)
  let s := Pbook.insert_phone_number s id "206-555-5361" PAGER (-1)
  Pbook.tx_commit s

/-- Function `connect`: the value returned (`none` when the choices end inside
the menu loop) and the state afterwards. -/
def connect (s : Console) (h : Host) (choices : List Int) : Option Int × Console :=
  match connection_loop h.standalone choices with
  | none => (none, s)
  | some connection_method =>
    if connection_method = 0 then (some 1, s)
    else
      let storage_mode := storage_mode connection_method
      let database_name := database_name connection_method
      let (result, s) :=
        Pbook.open_database s h.open_reply h.existing storage_mode database_name
      let (result, s) :=
        if result = DB_ESOCKETOPEN then
          let s := Pbook.log s Event.db_server_start
          Pbook.open_database s h.reopen_reply h.existing storage_mode database_name
        else (result, s)
      if result = DB_ENOENT then
        let (rc, s) := Pbook.create_database s h.schema storage_mode database_name
        if DB_SUCCESS rc then (some 0, populate_tables s)
        else (some 1, s)
      else if !DB_SUCCESS result then (some 1, s)
      else (some 0, s)

/-- Function `select_contact`; `id` is the number entered at `Enter id
number:`. -/
def select_contact (s : Console) (id : Nat) : Nat × Console :=
  let s := Pbook.tx_start s
  let s := Pbook.list_contacts_brief s
  let s := Pbook.tx_commit s
  (id, s)

/-- Function `add_phone_number(contact_id)`; menu choice 3 calls it with the
default argument 0. -/
def add_phone_number (s : Console) (a : Answers) (contact_id : Nat) : Console :=
  let (contact_id, s) :=
    if contact_id = 0 then select_contact s a.id else (contact_id, s)
  let number := a.number
  let type := a.type
  let speed_dial := a.speed_dial
  let s := Pbook.tx_start s
  let s := Pbook.insert_phone_number s contact_id number (PhoneNumberType.cast type)
    speed_dial
  Pbook.tx_commit s

/-- Function `add_contact`; `mbstowcs` leaves the text of the name as it is. -/
def add_contact (s : Console) (a : Answers) : Console :=
  let name := a.name
  let ring_id := a.ring_id
  let picture_name := if a.picture_name = "" then DEFAULT_PICTURE else a.picture_name
  let s := Pbook.tx_start s
  let (contact_id, s) := Pbook.insert_contact s name ring_id picture_name
  let s := Pbook.tx_commit s
  add_phone_number s a contact_id

/-- Function `remove_contact` of the console. -/
def remove_contact (s : Console) (a : Answers) : Console :=
  let (id, s) := select_contact s a.id
  let s := Pbook.tx_start s
  let s := Pbook.remove_contact s id
  Pbook.tx_commit s

/-- Function `rename_contact`. -/
def rename_contact (s : Console) (a : Answers) : Console :=
  let (id, s) := select_contact s a.id
  let name := a.name
  let s := Pbook.tx_start s
  let s := Pbook.update_contact_name s id name
  Pbook.tx_commit s

/-- Function `export_picture` of the console. -/
def export_picture (s : Console) (a : Answers) : Console :=
  let (id, s) := select_contact s a.id
  let s := Pbook.tx_start s
  let (file_name, s) := Pbook.get_picture_name s id
  let s := Pbook.tx_commit s
  let file_name := if a.file_name ≠ "" then a.file_name else file_name
  let s := Pbook.tx_start s
  let s := Pbook.export_picture s id file_name
  Pbook.tx_commit s

/-- The body of the `switch (choice)` of `run`: one menu command. -/
def command (s : Console) (choice : Int) (a : Answers) : Console :=
  if choice = 1 then add_contact s a
  else if choice = 2 then remove_contact s a
  else if choice = 3 then add_phone_number s a 0
  else if choice = 4 then rename_contact s a
  else if choice = 5 then Pbook.tx_commit (Pbook.list_contacts (Pbook.tx_start s) 1)
  else if choice = 6 then Pbook.tx_commit (Pbook.list_contacts (Pbook.tx_start s) 0)
  else if choice = 7 then Pbook.tx_commit (Pbook.list_contacts (Pbook.tx_start s) 2)
  else if choice = 8 then export_picture s a
  else s

/-- Function `run`: the menu loop over the choices entered, each with the
answers to the prompts of its command; it ends at choice 0, and the run is
followed as far as the choices go. -/
def run (s : Console) : List (Int × Answers) → Console
  | [] => s
  | (choice, a) :: commands =>
    if choice = 0 then s
    else run (command s choice a) commands

/-- Function `main`: `connect`, and `run` when `connect` returns 0. -/
def main (s : Console) (h : Host) (choices : List Int)
    (commands : List (Int × Answers)) : Console :=
  let (r, s) := connect s h choices
  if r = some 0 then run s commands else s

end PhoneBookConsoleApp

/-! ## Notions used in the statements -/

/-- The ids of the rows of `contact`, in row order. -/
def Database.ids (db : Database) : List Nat := db.contact.map Contact.id

/-- The row `update_contact_name` leaves in place of row `c`. -/
def renamed (id : Nat) (newname : String) (c : Contact) : Contact :=
  if c.id = id then { c with name := newname } else c

/-- The ids of the rows of `contact` after a call, given the ids before and
the next value `n` of the sequence, when no id changes in place: a new row is
appended with id `n`, the rows of a removed id disappear, every other row
keeps its position and its id. -/
def ids_after (call : Call) (before : List Nat) (n : Nat) : List Nat :=
  match call with
  | Call.insert_contact _ _ _ _ _ => before ++ [n]
  | Call.remove_contact id => before.filter (fun i => i ≠ id)
  | _ => before

/-- The next value of the sequence after a call, `n` being the value before. -/
def next_after (call : Call) (n : Nat) : Nat :=
  match call with
  | Call.insert_contact _ _ _ _ _ => n + 1
  | _ => n

/-- The id a call returns, `n` being the next value of the sequence, when the
call succeeds. -/
def id_returned (call : Call) (n : Nat) : Option Nat :=
  match call with
  | Call.insert_contact _ _ _ _ _ => some n
  | _ => none

/-- The header `list_contacts` prints for a row of `contact`. -/
def Contact.header (c : Contact) : Header :=
  { id := c.id, name := c.name, ring_id := c.ring_id, picture_name := c.picture_name }

/-- Ascending order of the emitted contacts for the three sort modes:
`id` for 0, `name` for 1, `(ring_id, name)` for 2 (a null `ring_id` first). -/
def ascending (sort : Int) (a b : Header) : Prop :=
  if sort = 0 then a.id ≤ b.id
  else if sort = 1 then a.name ≤ b.name
  else if sort = 2 then a.ring_id < b.ring_id ∨ (a.ring_id = b.ring_id ∧ a.name ≤ b.name)
  else True

/-- A phone number line of the output: number, type code and speed dial. -/
structure PhoneLine where
  number : String
  type : Nat
  speed_dial : Option Int
  deriving DecidableEq, Repr

/-- The phone number lines at the start of an output, up to the next contact
header. -/
def leading_phones : List Out → List PhoneLine
  | Out.phone_number number type speed_dial :: out =>
    { number := number, type := type, speed_dial := speed_dial } :: leading_phones out
  | Out.endl :: out => leading_phones out
  | _ => []

/-- The contacts emitted by a listing, each with the phone numbers emitted
after its header and before the next header, in output order. -/
def emitted_entries : List Out → List (Header × List PhoneLine)
  | [] => []
  | Out.contact id name ring_id picture_name :: out =>
    ({ id := id, name := name, ring_id := ring_id, picture_name := picture_name },
      leading_phones out) :: emitted_entries out
  | _ :: out => emitted_entries out

/-- The phone number line `list_contacts` prints for a row of `phone_number`. -/
def PhoneNumber.line (p : PhoneNumber) : PhoneLine :=
  { number := p.number, type := p.type, speed_dial := p.speed_dial }

/-- The phone numbers of a contact: the rows of `phone_number` whose
`contact_id` is the id, in row order. -/
def Database.phones_of (db : Database) (id : Nat) : List PhoneNumber :=
  db.phone_number.filter (fun p => p.contact_id == id)

/-- Whether a call is one of the data operations of `PhoneBook`. -/
def Event.is_data_operation : Event → Bool
  | Event.insert_contact _ _ _ => true
  | Event.insert_phone_number _ _ _ _ => true
  | Event.update_contact_name _ _ => true
  | Event.remove_contact _ => true
  | Event.list_contacts _ => true
  | Event.list_contacts_brief => true
  | Event.get_picture_name _ => true
  | Event.export_picture _ _ => true
  | _ => false

/-- The transaction discipline checked along a sequence of calls, `opened`
telling whether a transaction is open before the first call: `tx_start` is
called only when no transaction is open, `tx_commit` only when one is open,
and a data operation only while one is open.  The result is whether a
transaction is open after the last call, `none` when a call breaks the
discipline. -/
def bracket : Bool → List Event → Option Bool
  | opened, [] => some opened
  | opened, Event.tx_start :: calls => if opened then none else bracket true calls
  | opened, Event.tx_commit :: calls => if opened then bracket false calls else none
  | opened, e :: calls =>
    if e.is_data_operation && !opened then none else bracket opened calls

/-- What the text of the connection menu promises for the choices 1 to 4:
`1) Open file storage`, `2) Open memory storage`, `3) Connect to ITTIA DB
Server on localhost, open file storage`, `4) Connect to ITTIA DB Server on
localhost, open memory storage`. -/
def menu_promise (m : Int) : Option (FileMode × String) :=
  if m = 1 then some (FileMode.DB_FILE_STORAGE, DATABASE_NAME_LOCAL)
  else if m = 2 then some (FileMode.DB_MEMORY_STORAGE, DATABASE_NAME_LOCAL)
  else if m = 3 then some (FileMode.DB_FILE_STORAGE, DATABASE_NAME_SERVER)
  else if m = 4 then some (FileMode.DB_MEMORY_STORAGE, DATABASE_NAME_SERVER)
  else none

/-- The picture file `add_contact` passes on: the line entered, or
`DEFAULT_PICTURE` for an empty line. -/
def Answers.picture (a : Answers) : String :=
  if a.picture_name = "" then DEFAULT_PICTURE else a.picture_name

/-- The row `insert_contact` hands to the engine when its variable `id` holds
the given value: `id`, `name`, `ring_id` and `picture_name` are set, and the
`picture` is written afterwards. -/
def Contact.entered (id : Nat) (name : String) (ring_id : Nat) (picture_name : String) :
    Contact :=
  { id := id, name := name, ring_id := some ring_id, picture_name := some picture_name,
    picture := [] }

/-! ## Example data -/

/-- The rows `populate_tables` enters into a new database with picture
support when `unknown.png` cannot be opened: Bob, Sue and Fred with their
phone numbers. -/
def sample : Database :=
  { contact :=
      [ { id := 1, name := "Bob", ring_id := some 0,
          picture_name := some DEFAULT_PICTURE, picture := [] },
        { id := 2, name := "Sue", ring_id := some 7,
          picture_name := some DEFAULT_PICTURE, picture := [] },
        { id := 3, name := "Fred", ring_id := some 7,
          picture_name := some DEFAULT_PICTURE, picture := [] } ]
    phone_number :=
      [ { contact_id := 1, number := "206-555-1000", type := MOBILE, speed_dial := some (-1) },
        { contact_id := 2, number := "206-555-3890", type := HOME, speed_dial := some 0 },
        { contact_id := 3, number := "206-555-1308", type := HOME, speed_dial := some 5 },
        { contact_id := 3, number := "206-555-2335", type := MOBILE, speed_dial := some (-1) },
        { contact_id := 3, number := "206-555-5361", type := PAGER, speed_dial := some (-1) } ]
    contact_id := some 4
    with_picture := true }

/-- A file system in which `unknown.png` is a readable file of 257 bytes and
every path can be opened for writing. -/
def sample_files : FileSystem :=
  { content := fun path => if path = DEFAULT_PICTURE then some (List.range 257) else none
    writable := fun _ => true }

/-- A file system without any readable file. -/
def no_files : FileSystem :=
  { content := fun _ => none, writable := fun _ => true }

/-- The calls `populate_tables` makes on a new database (there the ids passed
to `insert_phone_number` are the ids 1, 2 and 3 returned by `insert_contact`),
here executed by the cursor implementation, followed by the removal of Sue and
one more insertion by the SQL implementation. -/
def sample_session : List (Impl × Call) :=
  [ (Impl.cursor, Call.insert_contact no_files 0 "Bob" 0 DEFAULT_PICTURE),
    (Impl.cursor, Call.insert_phone_number 1 "206-555-1000" MOBILE (-1)),
    (Impl.cursor, Call.insert_contact no_files 0 "Sue" 7 DEFAULT_PICTURE),
    (Impl.cursor, Call.insert_phone_number 2 "206-555-3890" HOME 0),
    (Impl.cursor, Call.insert_contact no_files 0 "Fred" 7 DEFAULT_PICTURE),
    (Impl.cursor, Call.insert_phone_number 3 "206-555-1308" HOME 5),
    (Impl.cursor, Call.insert_phone_number 3 "206-555-2335" MOBILE (-1)),
    (Impl.cursor, Call.insert_phone_number 3 "206-555-5361" PAGER (-1)),
    (Impl.sql, Call.remove_contact 2),
    (Impl.sql, Call.insert_contact no_files 0 "Ann" 1 DEFAULT_PICTURE) ]

/-- The engine accepting every schema call. -/
def all_succeed : SchemaReplies :=
  { create := DB_NOERROR, table_contact := DB_NOERROR, index_by_name := DB_NOERROR,
    table_phone_number := DB_NOERROR, index_by_contact_id := DB_NOERROR,
    sequence := DB_NOERROR }

/-- The database `create_database` delivers for file storage when the engine
accepts every schema call. -/
def new_database : Database :=
  Database.created ["id", "name", "ring_id", "picture_name", "picture"] 1

/-- The sample database with the sequence set back to 3, the id of Fred: the
next row written by `insert_contact` is rejected by the primary key. -/
def stale_sequence : Database := { sample with contact_id := some 3 }

/-- A session on a new database: Bob is entered, then a mobile number for
him, then a home number, all by the cursor implementation. -/
def mobile_first_session : List (Impl × Call) :=
  [ (Impl.cursor, Call.insert_contact no_files 0 "Bob" 0 DEFAULT_PICTURE),
    (Impl.cursor, Call.insert_phone_number 1 "206-555-1000" MOBILE (-1)),
    (Impl.cursor, Call.insert_phone_number 1 "206-555-2000" HOME 0) ]

/-- The database at the end of `mobile_first_session`. -/
def mobile_first : Database := (run new_database mobile_first_session).1

/-- A session on a new database: Bob is entered by the SQL implementation and
no phone number is entered for him. -/
def no_phone_session : List (Impl × Call) :=
  [ (Impl.sql, Call.insert_contact no_files 0 "Bob" 0 DEFAULT_PICTURE) ]

/-- The database at the end of `no_phone_session`. -/
def no_phone : Database := (run new_database no_phone_session).1

/-- The database `create_database` delivers for memory storage when the engine
accepts every schema call: table `contact` has no `picture` field. -/
def memory_database : Database :=
  Database.created ["id", "name", "ring_id", "picture_name"] 1

/-- The sample database as `populate_tables` leaves it under memory storage:
the same rows in a `contact` table without `picture` field. -/
def memory_sample : Database := { sample with with_picture := false }

/-- Replies of the engine in which the creation of table `contact` fails with
some engine code and every other schema call succeeds. -/
def contact_table_fails : SchemaReplies :=
  { all_succeed with table_contact := DB_FAILURE 7 }

/-- Replies of the engine in which the creation of index `by_contact_id` fails
with the not-found code and every other schema call succeeds. -/
def phone_index_fails : SchemaReplies :=
  { all_succeed with index_by_contact_id := DB_ENOTFOUND }

/-- Replies of the engine in which every schema call succeeds except the
creation of the sequence, for which the engine reports the code `DB_ETABLE`. -/
def sequence_fails_as_table : SchemaReplies :=
  { all_succeed with sequence := DB_ETABLE }

/-- Replies of the engine in which every schema call succeeds except the
creation of the sequence, which fails with some engine code. -/
def sequence_fails : SchemaReplies :=
  { all_succeed with sequence := DB_FAILURE 3 }

/-- A session on a new database: two contacts named Bob are entered (ids 1
and 2, same ring tone), then a home number for the first, a mobile number for
the second and a work number for the first. -/
def same_name_session : List (Impl × Call) :=
  [ (Impl.sql, Call.insert_contact no_files 0 "Bob" 7 DEFAULT_PICTURE),
    (Impl.sql, Call.insert_contact no_files 0 "Bob" 7 DEFAULT_PICTURE),
    (Impl.sql, Call.insert_phone_number 1 "206-555-1000" HOME (-1)),
    (Impl.sql, Call.insert_phone_number 2 "206-555-2000" MOBILE (-1)),
    (Impl.sql, Call.insert_phone_number 1 "206-555-3000" WORK (-1)) ]

/-- The database at the end of `same_name_session`. -/
def same_name : Database := (run new_database same_name_session).1

/-- The sample database with a sequence that cannot be read. -/
def unreadable_sequence : Database := { sample with contact_id := none }

/-- A console linked with the given implementation, on the given database,
without readable files, before any call. -/
def console_on (impl : Impl) (db : Database) : Console :=
  { impl := impl, db := db, fs := no_files, id₀ := 0, calls := [] }

/-- Answers in which the phone number type entered is 7 and the contact
selected is Bob (id 1). -/
def type_seven : Answers :=
  { name := "Ann", ring_id := 1, picture_name := "", id := 1,
    number := "206-555-7000", type := 7, speed_dial := -1, file_name := "" }

/-- A host on which no database exists yet: `db.open` reports `DB_ENOENT`, and
the engine accepts every schema call. -/
def new_host : Host :=
  { standalone := false, open_reply := DB_ENOENT, reopen_reply := DB_ENOENT,
    existing := new_database, schema := all_succeed }

/-- A stand-alone build of the engine library on a host where no database
exists yet. -/
def standalone_host : Host := { new_host with standalone := true }

/-- A name of 50 characters, the length declared for field `name`
(`add_wstring("name", 50)`, `MAX_CONTACT_NAME`). -/
def long_name : String := String.mk (List.replicate 50 'a')

/-- A session on a new database: one contact with the name of 50 characters
is entered. -/
def long_name_session : List (Impl × Call) :=
  [ (Impl.cursor, Call.insert_contact no_files 0 long_name 0 DEFAULT_PICTURE) ]

/-- The database at the end of `long_name_session`. -/
def long_name_database : Database := (run new_database long_name_session).1

/-! ## Lemmas on the engine calls -/

theorem remove_filtered_eq_filter (id : Nat) (rows : List PhoneNumber) :
    Table.remove_filtered id rows = rows.filter (fun p => !(p.contact_id == id)) := by
  induction rows with
  | nil => rfl
  | cons p rows ih =>
    by_cases h : p.contact_id = id <;> simp [Table.remove_filtered, h, ih]

theorem any_filter_ne (id : Nat) (rows : List PhoneNumber) :
    (rows.filter (fun p => !(p.contact_id == id))).any (fun p => p.contact_id == id)
      = false := by
  induction rows with
  | nil => rfl
  | cons p rows ih =>
    by_cases h : p.contact_id = id <;> simp_all [List.filter_cons]

theorem eraseP_eq_filter_of_nodup (id : Nat) (rows : List Contact)
    (h : (rows.map Contact.id).Nodup) :
    rows.eraseP (fun c => c.id == id) = rows.filter (fun c => !(c.id == id)) := by
  induction rows with
  | nil => rfl
  | cons c rows ih =>
    simp only [List.map_cons, List.nodup_cons] at h
    by_cases hc : c.id = id
    · have hnot : ∀ x ∈ rows, ¬ x.id = id := by
        intro x hx hxid
        exact h.1 (List.mem_map.2 ⟨x, hx, by rw [hxid, hc]⟩)
      have : rows.filter (fun c => !(c.id == id)) = rows :=
        List.filter_eq_self.2 (fun x hx => by simpa using hnot x hx)
      simp [List.eraseP_cons, List.filter_cons, hc, this]
    · simp [List.eraseP_cons, List.filter_cons, hc, ih h.2]

theorem seek_contact_some_id {db : Database} {id : Nat} {row : Contact}
    (h : Table.seek_contact db id = some row) : row.id = id := by
  have := List.find?_some h
  simpa using this

theorem seek_contact_eq_none {db : Database} {id : Nat} :
    Table.seek_contact db id = none ↔ ∀ c ∈ db.contact, c.id ≠ id := by
  simp [Table.seek_contact]

theorem cursor_remove_contact_found {db : Database} {id : Nat} (hpk : db.PrimaryKey)
    (hid : ∃ c ∈ db.contact, c.id = id) :
    (Cursor.remove_contact db id).1 =
      { db with
        contact := db.contact.filter (fun c => !(c.id == id))
        phone_number := db.phone_number.filter (fun p => !(p.contact_id == id)) } := by
  obtain ⟨c, hc, hcid⟩ := hid
  cases hs : Table.seek_contact db id with
  | none => exact absurd hcid (seek_contact_eq_none.1 hs c hc)
  | some row =>
    have hrow := seek_contact_some_id hs
    simp only [Cursor.remove_contact, hs, hrow, Table.remove_contact,
      remove_filtered_eq_filter, any_filter_ne]
    simp [eraseP_eq_filter_of_nodup id db.contact hpk]

theorem cursor_remove_contact_absent {db : Database} {id : Nat}
    (hid : ∀ c ∈ db.contact, c.id ≠ id) : (Cursor.remove_contact db id).1 = db := by
  simp [Cursor.remove_contact, seek_contact_eq_none.2 hid]

theorem sql_remove_contact_eq (db : Database) (id : Nat) :
    (Sql.remove_contact db id).1 =
      { db with
        contact := db.contact.filter (fun c => !(c.id == id))
        phone_number := db.phone_number.filter (fun p => !(p.contact_id == id)) } := by
  simp [Sql.remove_contact, Query.delete_phone_number, Query.delete_contact, DB_SUCCESS,
    any_filter_ne]

theorem sql_remove_contact_absent {db : Database} {id : Nat} (hfk : db.ForeignKey)
    (hid : ∀ c ∈ db.contact, c.id ≠ id) : (Sql.remove_contact db id).1 = db := by
  rw [sql_remove_contact_eq]
  have hc : db.contact.filter (fun c => !(c.id == id)) = db.contact :=
    List.filter_eq_self.2 (fun c hc => by simpa using hid c hc)
  have hp : db.phone_number.filter (fun p => !(p.contact_id == id)) = db.phone_number :=
    List.filter_eq_self.2 (fun p hp => by
      obtain ⟨c, hc, hcp⟩ := hfk p hp
      have := hid c hc
      simpa [← hcp] using this)
  rw [hc, hp]

/-! ## Lemmas on the picture loops and on `insert_contact` -/

theorem blob_write_at_end (blob data : Bytes) :
    blob_write blob blob.length data = blob ++ data := by
  simp [blob_write]

theorem foldl_write_blob_calls (n : Nat) :
    ∀ (file : Bytes) (k : Nat) (blob : Bytes), file.length = n → blob.length = 256 * k →
      (write_blob_calls file k).foldl (fun b w => blob_write b w.1 w.2) blob
        = blob ++ file := by
  induction n using Nat.strong_induction_on with
  | _ n ih =>
    intro file k blob hn hb
    rw [write_blob_calls]
    split
    · rename_i h
      simp only [List.foldl_cons]
      rw [← hb, blob_write_at_end]
      have hlt : (file.drop 256).length < n := by
        simp only [List.length_take, List.length_drop] at h ⊢
        omega
      by_cases hlen : file.length ≤ 256
      · have hd : file.drop 256 = [] := List.drop_eq_nil_of_le hlen
        have ht : file.take 256 = file := List.take_of_length_le hlen
        rw [hd, ht, write_blob_calls]
        simp
      · have hl : (blob ++ file.take 256).length = 256 * (k + 1) := by
          simp only [List.length_append, List.length_take]
          omega
        rw [ih _ hlt (file.drop 256) (k + 1) (blob ++ file.take 256) rfl hl]
        simp
    · rename_i h
      have : file = [] := by
        simp only [List.length_take, not_lt, Nat.le_zero] at h
        apply List.eq_nil_of_length_eq_zero
        omega
      simp [this]

theorem export_loop_eq_drop (n : Nat) :
    ∀ (blob : Bytes) (offset : Nat), blob.length - offset = n →
      export_loop blob offset = blob.drop offset := by
  induction n using Nat.strong_induction_on with
  | _ n ih =>
    intro blob offset hn
    rw [export_loop]
    split
    · rename_i h
      rw [ih (blob.length - (offset + 256)) (by omega) blob (offset + 256) rfl]
      simp only [blob_read]
      rw [← List.drop_drop, List.take_append_drop]
    · rename_i h
      exact (List.drop_eq_nil_of_le (by omega)).symm

theorem export_loop_zero (blob : Bytes) : export_loop blob 0 = blob := by
  rw [export_loop_eq_drop _ blob 0 rfl]; rfl

theorem edit_first_edit_first (p : Contact → Bool) (f g : Contact → Contact)
    (hg : ∀ c, p (g c) = p c) (rows : List Contact) :
    Table.edit_first p f (Table.edit_first p g rows)
      = Table.edit_first p (fun c => f (g c)) rows := by
  induction rows with
  | nil => rfl
  | cons c rows ih =>
    by_cases h : p c
    · simp [Table.edit_first, h, hg]
    · simp [Table.edit_first, h, ih]

theorem edit_first_id (p : Contact → Bool) (rows : List Contact) :
    Table.edit_first p (fun c => c) rows = rows := by
  induction rows with
  | nil => rfl
  | cons c rows ih => by_cases h : p c <;> simp [Table.edit_first, h, ih]

theorem edit_first_append_new (p : Contact → Bool) (f : Contact → Contact)
    (rows : List Contact) (row : Contact) (hrows : ∀ c ∈ rows, p c = false)
    (hrow : p row = true) :
    Table.edit_first p f (rows ++ [row]) = rows ++ [f row] := by
  induction rows with
  | nil => simp [Table.edit_first, hrow]
  | cons c rows ih =>
    have hc : p c = false := hrows c (List.mem_cons_self _ _)
    simp [Table.edit_first, hc, ih (fun x hx => hrows x (List.mem_cons_of_mem _ hx))]

theorem foldl_write_blob (db : Database) (id : Nat) (hpic : db.with_picture = true)
    (calls : List (Nat × Bytes)) :
    calls.foldl (fun db w => Table.write_blob db (some id) w.1 w.2) db =
      { db with
        contact :=
          Table.edit_first (fun c => c.id == id)
            (fun c =>
              { c with picture := calls.foldl (fun b w => blob_write b w.1 w.2) c.picture })
            db.contact } := by
  induction calls generalizing db with
  | nil => simp [edit_first_id]
  | cons w calls ih =>
    simp only [List.foldl_cons]
    rw [ih (Table.write_blob db (some id) w.1 w.2) (by simp [Table.write_blob, hpic])]
    simp only [Table.write_blob, hpic, if_true]
    rw [edit_first_edit_first]
    intro c
    rfl

theorem store_picture_eq (db : Database) (id : Nat) (hpic : db.with_picture = true)
    (file : Bytes) :
    store_picture db (some id) file =
      { db with
        contact :=
          Table.edit_first (fun c => c.id == id)
            (fun c =>
              { c with picture :=
                  (write_blob_calls file 0).foldl (fun b w => blob_write b w.1 w.2) c.picture })
            db.contact } := by
  rw [store_picture, foldl_write_blob db id hpic]

theorem find_append_new (rows : List Contact) (row : Contact) (id : Nat)
    (hrows : ∀ c ∈ rows, c.id ≠ id) (hrow : row.id = id) :
    (rows ++ [row]).find? (fun c => c.id == id) = some row := by
  induction rows with
  | nil => simp [hrow]
  | cons c rows ih =>
    have hc : c.id ≠ id := hrows c (List.mem_cons_self _ _)
    simp only [List.cons_append, List.find?_cons]
    have : (c.id == id) = false := by simpa using hc
    rw [this]
    exact ih (fun x hx => hrows x (List.mem_cons_of_mem _ hx))

theorem store_picture_no_field (db : Database) (cur : Option Nat) (file : Bytes)
    (hpic : db.with_picture = false) : store_picture db cur file = db := by
  unfold store_picture
  generalize write_blob_calls file 0 = calls
  induction calls with
  | nil => rfl
  | cons w calls ih =>
    have : Table.write_blob db cur w.1 w.2 = db := by
      cases cur <;> simp [Table.write_blob, hpic]
    simpa [List.foldl_cons, this] using ih

theorem store_picture_no_row (db : Database) (file : Bytes) :
    store_picture db none file = db := by
  unfold store_picture
  generalize write_blob_calls file 0 = calls
  induction calls with
  | nil => rfl
  | cons w calls ih => simp [List.foldl_cons, Table.write_blob]

theorem any_id_eq_false {rows : List Contact} {n : Nat} (h : ∀ c ∈ rows, c.id ≠ n) :
    rows.any (fun c => c.id == n) = false := by
  simp only [List.any_eq_false, beq_iff_eq]
  exact h

/-- The row `insert_contact` leaves in the table once the picture is stored. -/
theorem store_picture_new_row (db : Database) (rows : List Contact) (row : Contact)
    (file : Bytes) (hrows : ∀ c ∈ rows, c.id ≠ row.id) (hc : db.contact = rows ++ [row])
    (hempty : row.picture = []) :
    store_picture db (some row.id) file =
      { db with
        contact := rows ++ [{ row with picture := if db.with_picture then file else [] }] } := by
  cases hpic : db.with_picture with
  | false =>
    rw [store_picture_no_field db _ file hpic]
    cases db
    cases row
    simp_all
  | true =>
    rw [store_picture_eq db row.id hpic, hc,
      edit_first_append_new _ _ rows row (fun c h => by simpa using hrows c h) (by simp)]
    have := foldl_write_blob_calls file.length file 0 [] rfl rfl
    simp only [List.nil_append] at this
    simp [hempty, this, hpic]

theorem get_next_value_contact (db : Database) (id₀ : Nat) :
    (Sequence.get_next_value db id₀).2.2.contact = db.contact ∧
    (Sequence.get_next_value db id₀).2.2.phone_number = db.phone_number ∧
    (Sequence.get_next_value db id₀).2.2.with_picture = db.with_picture := by
  cases h : db.contact_id <;> simp [Sequence.get_next_value, h]

/-- Function `insert_contact` of `phonebook.cpp` when no row has the id obtained from
the sequence: the id returned and the database afterwards. -/
theorem cursor_insert_contact_ok (db : Database) (fs : FileSystem) (id₀ : Nat)
    (name : String) (ring_id : Nat) (picture_name : String)
    (hnew : ∀ c ∈ db.contact, c.id ≠ (Sequence.get_next_value db id₀).2.1) :
    (Cursor.insert_contact db fs id₀ name ring_id picture_name).1
      = (Sequence.get_next_value db id₀).2.1 ∧
    (Cursor.insert_contact db fs id₀ name ring_id picture_name).2.1 =
      { (Sequence.get_next_value db id₀).2.2 with
        contact := db.contact ++
          [{ id := (Sequence.get_next_value db id₀).2.1, name := name,
             ring_id := some ring_id, picture_name := some picture_name,
             picture := if db.with_picture then (fs.content picture_name).getD [] else [] }] } := by
  obtain ⟨hc, -, hp⟩ := get_next_value_contact db id₀
  simp only [Cursor.insert_contact]
  generalize Sequence.get_next_value db id₀ = r at hnew hc hp ⊢
  obtain ⟨rc, n, db₁⟩ := r
  simp only at hnew hc hp ⊢
  simp only [Cursor.insert_contact, Table.post_contact, hc,
    any_id_eq_false hnew, DB_FAILED, DB_SUCCESS]
  cases hf : fs.content picture_name with
  | none => simp [hc]
  | some file =>
    refine ⟨by simp, ?_⟩
    simp only [Bool.false_eq_true, if_false, Bool.not_true]
    rw [store_picture_new_row _ db.contact
      { id := n, name := name, ring_id := some ring_id,
        picture_name := some picture_name, picture := [] } file hnew rfl rfl]
    simp [hp]

/-- Function `insert_contact` of `phonebook.cpp` when a row with the id obtained from
the sequence exists: 0 is returned and the tables are as before. -/
theorem cursor_insert_contact_dup (db : Database) (fs : FileSystem) (id₀ : Nat)
    (name : String) (ring_id : Nat) (picture_name : String)
    (hdup : ∃ c ∈ db.contact, c.id = (Sequence.get_next_value db id₀).2.1) :
    (Cursor.insert_contact db fs id₀ name ring_id picture_name).1 = 0 ∧
    (Cursor.insert_contact db fs id₀ name ring_id picture_name).2.1 =
      (Sequence.get_next_value db id₀).2.2 := by
  obtain ⟨hc, -, -⟩ := get_next_value_contact db id₀
  simp only [Cursor.insert_contact]
  generalize Sequence.get_next_value db id₀ = r at hdup hc ⊢
  obtain ⟨rc, n, db₁⟩ := r
  simp only at hdup hc ⊢
  have hany : db₁.contact.any (fun c => c.id == n) = true := by
    rw [hc]; simpa using hdup
  simp only [Cursor.insert_contact, Table.post_contact, hany, DB_FAILED, DB_SUCCESS]
  cases hf : fs.content picture_name with
  | none => simp
  | some file => simp [store_picture_no_row]

theorem sql_insert_contact_ok (db : Database) (fs : FileSystem) (id₀ : Nat)
    (name : String) (ring_id : Nat) (picture_name : String)
    (hnew : ∀ c ∈ db.contact, c.id ≠ (Sequence.get_next_value db id₀).2.1) :
    (Sql.insert_contact db fs id₀ name ring_id picture_name).1
      = (Sequence.get_next_value db id₀).2.1 ∧
    (Sql.insert_contact db fs id₀ name ring_id picture_name).2.1 =
      { (Sequence.get_next_value db id₀).2.2 with
        contact := db.contact ++
          [{ id := (Sequence.get_next_value db id₀).2.1, name := name,
             ring_id := some ring_id, picture_name := some picture_name,
             picture := if db.with_picture then (fs.content picture_name).getD [] else [] }] } := by
  obtain ⟨hc, -, hp⟩ := get_next_value_contact db id₀
  simp only [Sql.insert_contact]
  generalize Sequence.get_next_value db id₀ = r at hnew hc hp ⊢
  obtain ⟨rc, n, db₁⟩ := r
  simp only at hnew hc hp ⊢
  have hfind : ∀ (row : Contact), row.id = n →
      (db.contact ++ [row]).find? (fun c => c.id == n) = some row :=
    fun row hrow => find_append_new db.contact row n hnew hrow
  simp only [Sql.insert_contact, Table.post_contact, hc,
    any_id_eq_false hnew, DB_SUCCESS, Sql.update_contact_picture, Table.seek_contact,
    Bool.false_eq_true, if_false]
  rw [hfind _ rfl]
  cases hf : fs.content picture_name with
  | none => simp [hc]
  | some file =>
    refine ⟨by simp, ?_⟩
    simp only [Bool.false_eq_true, if_false, if_true]
    rw [store_picture_new_row _ db.contact
      { id := n, name := name, ring_id := some ring_id,
        picture_name := some picture_name, picture := [] } file hnew rfl rfl]
    simp [hp]

theorem sql_insert_contact_dup (db : Database) (fs : FileSystem) (id₀ : Nat)
    (name : String) (ring_id : Nat) (picture_name : String)
    (hdup : ∃ c ∈ db.contact, c.id = (Sequence.get_next_value db id₀).2.1) :
    (Sql.insert_contact db fs id₀ name ring_id picture_name).1 = 0 ∧
    (Sql.insert_contact db fs id₀ name ring_id picture_name).2.1 =
      (Sequence.get_next_value db id₀).2.2 := by
  obtain ⟨hc, -, -⟩ := get_next_value_contact db id₀
  simp only [Sql.insert_contact]
  generalize Sequence.get_next_value db id₀ = r at hdup hc ⊢
  obtain ⟨rc, n, db₁⟩ := r
  simp only at hdup hc ⊢
  have hany : db₁.contact.any (fun c => c.id == n) = true := by
    rw [hc]; simpa using hdup
  simp [Sql.insert_contact, Table.post_contact, hany, DB_SUCCESS]

/-! ## C1, C2: `remove_contact` -/

theorem cascade_of_eq {db db' : Database} {id : Nat}
    (h : db' = { db with
      contact := db.contact.filter (fun c => !(c.id == id))
      phone_number := db.phone_number.filter (fun p => !(p.contact_id == id)) }) :
    (∀ c ∈ db'.contact, c.id ≠ id) ∧
    (∀ p ∈ db'.phone_number, p.contact_id ≠ id) ∧
    db'.contact = db.contact.filter (fun c => c.id ≠ id) ∧
    db'.phone_number = db.phone_number.filter (fun p => p.contact_id ≠ id) := by
  subst h
  refine ⟨?_, ?_, ?_, ?_⟩
  · intro c hc
    simpa using (List.mem_filter.1 hc).2
  · intro p hp
    simpa using (List.mem_filter.1 hp).2
  · exact List.filter_congr (fun c _ => by by_cases h : c.id = id <;> simp [h])
  · exact List.filter_congr (fun p _ => by by_cases h : p.contact_id = id <;> simp [h])

/-- C1: in a database that satisfies the primary key of `contact`, removing an
id that matches a contact row leaves no contact row with that id and no
phone-number row with that `contact_id`, and keeps exactly the rows of every
other id, unchanged and in their order; this holds for `remove_contact` of the
cursor implementation and for `remove_contact` of the SQL implementation. -/
theorem remove_contact_cascade (db : Database) (id : Nat) (hpk : db.PrimaryKey)
    (hid : ∃ c ∈ db.contact, c.id = id) :
    ((∀ c ∈ (Cursor.remove_contact db id).1.contact, c.id ≠ id) ∧
      (∀ p ∈ (Cursor.remove_contact db id).1.phone_number, p.contact_id ≠ id) ∧
      (Cursor.remove_contact db id).1.contact = db.contact.filter (fun c => c.id ≠ id) ∧
      (Cursor.remove_contact db id).1.phone_number
        = db.phone_number.filter (fun p => p.contact_id ≠ id)) ∧
    ((∀ c ∈ (Sql.remove_contact db id).1.contact, c.id ≠ id) ∧
      (∀ p ∈ (Sql.remove_contact db id).1.phone_number, p.contact_id ≠ id) ∧
      (Sql.remove_contact db id).1.contact = db.contact.filter (fun c => c.id ≠ id) ∧
      (Sql.remove_contact db id).1.phone_number
        = db.phone_number.filter (fun p => p.contact_id ≠ id)) :=
  ⟨cascade_of_eq (cursor_remove_contact_found hpk hid),
    cascade_of_eq (sql_remove_contact_eq db id)⟩

/-- Witness for C1 on the sample database: removing Fred (id 3). -/
theorem remove_contact_cascade_witness :
    sample.PrimaryKey ∧ (∃ c ∈ sample.contact, c.id = 3) ∧
    ((∀ c ∈ (Cursor.remove_contact sample 3).1.contact, c.id ≠ 3) ∧
      (∀ p ∈ (Cursor.remove_contact sample 3).1.phone_number, p.contact_id ≠ 3) ∧
      (Cursor.remove_contact sample 3).1.contact = sample.contact.filter (fun c => c.id ≠ 3) ∧
      (Cursor.remove_contact sample 3).1.phone_number
        = sample.phone_number.filter (fun p => p.contact_id ≠ 3)) ∧
    ((∀ c ∈ (Sql.remove_contact sample 3).1.contact, c.id ≠ 3) ∧
      (∀ p ∈ (Sql.remove_contact sample 3).1.phone_number, p.contact_id ≠ 3) ∧
      (Sql.remove_contact sample 3).1.contact = sample.contact.filter (fun c => c.id ≠ 3) ∧
      (Sql.remove_contact sample 3).1.phone_number
        = sample.phone_number.filter (fun p => p.contact_id ≠ 3)) :=
  ⟨by decide, by decide, remove_contact_cascade sample 3 (by decide) (by decide)⟩

/-- C2: in a database that satisfies foreign key `contact_ref`, removing an id
that matches no contact row leaves the database, and so the contact rows and
the phone-number rows, exactly as it was, in the cursor implementation and in
the SQL implementation. -/
theorem remove_contact_absent (db : Database) (id : Nat) (hfk : db.ForeignKey)
    (hid : ∀ c ∈ db.contact, c.id ≠ id) :
    (Cursor.remove_contact db id).1 = db ∧ (Sql.remove_contact db id).1 = db := by
  constructor
  · simp [Cursor.remove_contact, seek_contact_eq_none.2 hid]
  · rw [sql_remove_contact_eq]
    have hc : db.contact.filter (fun c => !(c.id == id)) = db.contact :=
      List.filter_eq_self.2 (fun c hc => by simpa using hid c hc)
    have hp : db.phone_number.filter (fun p => !(p.contact_id == id)) = db.phone_number :=
      List.filter_eq_self.2 (fun p hp => by
        obtain ⟨c, hc, hcp⟩ := hfk p hp
        have := hid c hc
        simpa [← hcp] using this)
    rw [hc, hp]

/-- Witness for C2 on the sample database: id 9 matches no contact. -/
theorem remove_contact_absent_witness :
    sample.ForeignKey ∧ (∀ c ∈ sample.contact, c.id ≠ 9) ∧
    (Cursor.remove_contact sample 9).1 = sample ∧ (Sql.remove_contact sample 9).1 = sample :=
  ⟨by decide, by decide, remove_contact_absent sample 9 (by decide) (by decide)⟩

/-! ## C3: picture round trip -/

theorem export_after_insert (db : Database) (fs : FileSystem) (n : Nat) (row : Contact)
    (db₁ : Database) (file_name : String) (hrow : row.id = n)
    (hnew : ∀ c ∈ db.contact, c.id ≠ n) (hpic : db₁.with_picture = true)
    (hw : fs.writable file_name = true) (hc : db₁.contact = db.contact ++ [row]) :
    (Cursor.export_picture db₁ fs n file_name).1.content file_name = some row.picture ∧
    (Sql.export_picture db₁ fs n file_name).1.content file_name = some row.picture := by
  have hfind := find_append_new db.contact row n hnew hrow
  simp [Cursor.export_picture, Sql.export_picture, Table.seek_contact, hc, hfind, hw, hpic,
    FileSystem.write, export_loop_zero]

/-- C3: on a database with picture support, when the picture file `F` can be
read and the output file can be opened for writing, `insert_contact` (which
in the SQL implementation stores the picture through `update_contact_picture`)
followed, if it returned a non-zero id, by `export_picture` for that id leaves
an output file whose bytes are exactly the bytes of `F`; this holds for `F` of
every size. -/
theorem picture_round_trip (db : Database) (fs : FileSystem) (id₀ : Nat) (name : String)
    (ring_id : Nat) (picture_name file_name : String) (F : Bytes)
    (hpic : db.with_picture = true) (hF : fs.content picture_name = some F)
    (hw : fs.writable file_name = true) :
    ((Cursor.insert_contact db fs id₀ name ring_id picture_name).1 ≠ 0 →
      (Cursor.export_picture (Cursor.insert_contact db fs id₀ name ring_id picture_name).2.1
        fs (Cursor.insert_contact db fs id₀ name ring_id picture_name).1 file_name).1.content
          file_name = some F) ∧
    ((Sql.insert_contact db fs id₀ name ring_id picture_name).1 ≠ 0 →
      (Sql.export_picture (Sql.insert_contact db fs id₀ name ring_id picture_name).2.1
        fs (Sql.insert_contact db fs id₀ name ring_id picture_name).1 file_name).1.content
          file_name = some F) := by
  obtain ⟨-, -, hp⟩ := get_next_value_contact db id₀
  by_cases hdup : ∃ c ∈ db.contact, c.id = (Sequence.get_next_value db id₀).2.1
  · constructor
    · intro h
      exact absurd (cursor_insert_contact_dup db fs id₀ name ring_id picture_name hdup).1 h
    · intro h
      exact absurd (sql_insert_contact_dup db fs id₀ name ring_id picture_name hdup).1 h
  · have hnew : ∀ c ∈ db.contact, c.id ≠ (Sequence.get_next_value db id₀).2.1 :=
      fun c hc h => hdup ⟨c, hc, h⟩
    obtain ⟨h₁, h₂⟩ := cursor_insert_contact_ok db fs id₀ name ring_id picture_name hnew
    obtain ⟨h₃, h₄⟩ := sql_insert_contact_ok db fs id₀ name ring_id picture_name hnew
    constructor
    · intro _
      have hcon := congrArg Database.contact h₂
      have hwp : (Cursor.insert_contact db fs id₀ name ring_id picture_name).2.1.with_picture
          = true := by rw [h₂]; simp [hp, hpic]
      have key := (export_after_insert db fs
        (Cursor.insert_contact db fs id₀ name ring_id picture_name).1 _ _ file_name
        (by rw [h₁]) (by rw [h₁]; exact hnew) hwp hw hcon).1
      rw [key]
      simp [hpic, hF]
    · intro _
      have hcon := congrArg Database.contact h₄
      have hwp : (Sql.insert_contact db fs id₀ name ring_id picture_name).2.1.with_picture
          = true := by rw [h₄]; simp [hp, hpic]
      have key := (export_after_insert db fs
        (Sql.insert_contact db fs id₀ name ring_id picture_name).1 _ _ file_name
        (by rw [h₃]) (by rw [h₃]; exact hnew) hwp hw hcon).2
      rw [key]
      simp [hpic, hF]

/-- Witness for C3: a picture of 257 bytes inserted into the sample database
with a new contact, which receives id 4, and exported again. -/
theorem picture_round_trip_witness :
    sample.with_picture = true ∧
    sample_files.content DEFAULT_PICTURE = some (List.range 257) ∧
    sample_files.writable "out.png" = true ∧
    (Cursor.insert_contact sample sample_files 0 "Ann" 3 DEFAULT_PICTURE).1 = 4 ∧
    (Sql.insert_contact sample sample_files 0 "Ann" 3 DEFAULT_PICTURE).1 = 4 ∧
    (((Cursor.insert_contact sample sample_files 0 "Ann" 3 DEFAULT_PICTURE).1 ≠ 0 →
      (Cursor.export_picture (Cursor.insert_contact sample sample_files 0 "Ann" 3 DEFAULT_PICTURE).2.1
        sample_files (Cursor.insert_contact sample sample_files 0 "Ann" 3 DEFAULT_PICTURE).1
        "out.png").1.content "out.png" = some (List.range 257)) ∧
    ((Sql.insert_contact sample sample_files 0 "Ann" 3 DEFAULT_PICTURE).1 ≠ 0 →
      (Sql.export_picture (Sql.insert_contact sample sample_files 0 "Ann" 3 DEFAULT_PICTURE).2.1
        sample_files (Sql.insert_contact sample sample_files 0 "Ann" 3 DEFAULT_PICTURE).1
        "out.png").1.content "out.png" = some (List.range 257))) :=
  ⟨rfl, by simp [sample_files], rfl, by decide, by decide,
    picture_round_trip sample sample_files 0 "Ann" 3 DEFAULT_PICTURE "out.png"
      (List.range 257) rfl (by simp [sample_files]) rfl⟩

/-! ## Effect of the other write operations -/

theorem insert_phone_number_eq (db : Database) (contact_id : Nat) (number : String)
    (type : Nat) (speed_dial : Int) :
    (Cursor.insert_phone_number db contact_id number type speed_dial).1 =
      (Table.post_phone_number db
        { contact_id := contact_id, number := number, type := type,
          speed_dial := some speed_dial }).2 ∧
    (Sql.insert_phone_number db contact_id number type speed_dial).1 =
      (Table.post_phone_number db
        { contact_id := contact_id, number := number, type := type,
          speed_dial := some speed_dial }).2 := by
  constructor
  · simp only [Cursor.insert_phone_number]
    split <;> rfl
  · rfl

theorem edit_first_rename (id : Nat) (newname : String) (rows : List Contact)
    (h : (rows.map Contact.id).Nodup) :
    Table.edit_first (fun c => c.id == id) (fun c => { c with name := newname }) rows
      = rows.map (renamed id newname) := by
  induction rows with
  | nil => rfl
  | cons c rows ih =>
    simp only [List.map_cons, List.nodup_cons] at h
    by_cases hc : c.id = id
    · have hrest : rows.map (renamed id newname) = rows := by
        conv_rhs => rw [← List.map_id rows]
        apply List.map_congr_left
        intro x hx
        have : x.id ≠ id := fun hx' => h.1 (List.mem_map.2 ⟨x, hx, by rw [hx', hc]⟩)
        simp [renamed, this]
      simp [Table.edit_first, hc, renamed, hrest]
    · simp [Table.edit_first, hc, renamed, ih h.2]

theorem map_renamed_absent (id : Nat) (newname : String) (rows : List Contact)
    (h : ∀ c ∈ rows, c.id ≠ id) : rows.map (renamed id newname) = rows := by
  conv_rhs => rw [← List.map_id rows]
  apply List.map_congr_left
  intro x hx
  simp [renamed, h x hx]

theorem renamed_id (id : Nat) (newname : String) (c : Contact) :
    (renamed id newname c).id = c.id := by
  unfold renamed
  split <;> rfl

theorem cursor_update_contact_name_eq (db : Database) (id : Nat) (newname : String)
    (hpk : db.PrimaryKey) :
    (Cursor.update_contact_name db id newname).1 =
      { db with contact := db.contact.map (renamed id newname) } := by
  cases hs : Table.seek_contact db id with
  | none =>
    simp [Cursor.update_contact_name, hs,
      map_renamed_absent id newname db.contact (seek_contact_eq_none.1 hs)]
  | some row =>
    simp [Cursor.update_contact_name, hs, edit_first_rename id newname db.contact hpk]

theorem sql_update_contact_name_eq (db : Database) (id : Nat) (newname : String) :
    (Sql.update_contact_name db id newname).1 =
      { db with contact := db.contact.map (renamed id newname) } := by
  simp only [Sql.update_contact_name, Query.update_contact_name]
  congr 1
  apply List.map_congr_left
  intro c _
  by_cases h : c.id = id <;> simp [renamed, h]

/-! ## C8: `insert_phone_number` for a contact that does not exist -/

/-- C8: when no contact row has the given `contact_id`, `insert_phone_number`
issues its single `post` (a single `execute` in the SQL implementation), the
engine rejects it with the foreign-key violation, which is reported on `cerr`,
and the database, so also the set of phone-number rows, is left unchanged. -/
theorem insert_phone_number_no_contact (db : Database) (contact_id : Nat)
    (number : String) (type : Nat) (speed_dial : Int)
    (hid : ∀ c ∈ db.contact, c.id ≠ contact_id) :
    Cursor.insert_phone_number db contact_id number type speed_dial =
      (db, [DB_EFOREIGNKEY],
        [Msg.error DB_EFOREIGNKEY, Msg.text "Could not enter new phone number"]) ∧
    Sql.insert_phone_number db contact_id number type speed_dial =
      (db, [DB_EFOREIGNKEY], [Msg.error DB_EFOREIGNKEY]) := by
  have h := any_id_eq_false hid
  simp [Cursor.insert_phone_number, Sql.insert_phone_number, Table.post_phone_number, h,
    DB_FAILED, DB_SUCCESS, print_error]

/-- Witness for C8 on the sample database: no contact has id 9. -/
theorem insert_phone_number_no_contact_witness :
    (∀ c ∈ sample.contact, c.id ≠ 9) ∧
    Cursor.insert_phone_number sample 9 "206-555-0000" WORK 2 =
      (sample, [DB_EFOREIGNKEY],
        [Msg.error DB_EFOREIGNKEY, Msg.text "Could not enter new phone number"]) ∧
    Sql.insert_phone_number sample 9 "206-555-0000" WORK 2 =
      (sample, [DB_EFOREIGNKEY], [Msg.error DB_EFOREIGNKEY]) :=
  ⟨by decide, insert_phone_number_no_contact sample 9 "206-555-0000" WORK 2 (by decide)⟩

/-! ## C9: `update_contact_name` -/

theorem rename_frame_of_eq {db db' : Database} {id : Nat} {newname : String}
    (h : db' = { db with contact := db.contact.map (renamed id newname) }) :
    db'.contact
      = db.contact.map (fun c => if c.id = id then { c with name := newname } else c) ∧
    db'.phone_number = db.phone_number ∧
    db'.contact_id = db.contact_id ∧
    db'.with_picture = db.with_picture ∧
    ((∀ c ∈ db.contact, c.id ≠ id) → db' = db) := by
  subst h
  refine ⟨rfl, rfl, rfl, rfl, ?_⟩
  intro habs
  simp [map_renamed_absent id newname db.contact habs]

/-- C9: in a database that satisfies the primary key of `contact`,
`update_contact_name` gives the row with the given id the new name and leaves
the other fields of that row (id, ring_id, picture_name, picture), every other
contact row, every phone-number row and the sequence as they were; when no row
has the id the database is unchanged.  This holds for the cursor
implementation and for the SQL implementation. -/
theorem update_contact_name_frame (db : Database) (id : Nat) (newname : String)
    (hpk : db.PrimaryKey) :
    ((Cursor.update_contact_name db id newname).1.contact
        = db.contact.map (fun c => if c.id = id then { c with name := newname } else c) ∧
      (Cursor.update_contact_name db id newname).1.phone_number = db.phone_number ∧
      (Cursor.update_contact_name db id newname).1.contact_id = db.contact_id ∧
      (Cursor.update_contact_name db id newname).1.with_picture = db.with_picture ∧
      ((∀ c ∈ db.contact, c.id ≠ id) → (Cursor.update_contact_name db id newname).1 = db)) ∧
    ((Sql.update_contact_name db id newname).1.contact
        = db.contact.map (fun c => if c.id = id then { c with name := newname } else c) ∧
      (Sql.update_contact_name db id newname).1.phone_number = db.phone_number ∧
      (Sql.update_contact_name db id newname).1.contact_id = db.contact_id ∧
      (Sql.update_contact_name db id newname).1.with_picture = db.with_picture ∧
      ((∀ c ∈ db.contact, c.id ≠ id) → (Sql.update_contact_name db id newname).1 = db)) :=
  ⟨rename_frame_of_eq (cursor_update_contact_name_eq db id newname hpk),
    rename_frame_of_eq (sql_update_contact_name_eq db id newname)⟩

/-- Witness for C9 on the sample database: renaming Sue (id 2). -/
theorem update_contact_name_frame_witness :
    sample.PrimaryKey ∧
    ((Cursor.update_contact_name sample 2 "Susan").1.contact
        = sample.contact.map (fun c => if c.id = 2 then { c with name := "Susan" } else c) ∧
      (Cursor.update_contact_name sample 2 "Susan").1.phone_number = sample.phone_number ∧
      (Cursor.update_contact_name sample 2 "Susan").1.contact_id = sample.contact_id ∧
      (Cursor.update_contact_name sample 2 "Susan").1.with_picture = sample.with_picture ∧
      ((∀ c ∈ sample.contact, c.id ≠ 2) →
        (Cursor.update_contact_name sample 2 "Susan").1 = sample)) ∧
    ((Sql.update_contact_name sample 2 "Susan").1.contact
        = sample.contact.map (fun c => if c.id = 2 then { c with name := "Susan" } else c) ∧
      (Sql.update_contact_name sample 2 "Susan").1.phone_number = sample.phone_number ∧
      (Sql.update_contact_name sample 2 "Susan").1.contact_id = sample.contact_id ∧
      (Sql.update_contact_name sample 2 "Susan").1.with_picture = sample.with_picture ∧
      ((∀ c ∈ sample.contact, c.id ≠ 2) →
        (Sql.update_contact_name sample 2 "Susan").1 = sample)) :=
  ⟨by decide, update_contact_name_frame sample 2 "Susan" (by decide)⟩

/-! ## Sessions: what every call preserves -/

theorem remove_contact_eq (impl : Impl) (db : Database) (id : Nat)
    (hpk : db.PrimaryKey) (hfk : db.ForeignKey) :
    ((Call.remove_contact id).exec impl db).1 =
      { db with
        contact := db.contact.filter (fun c => !(c.id == id))
        phone_number := db.phone_number.filter (fun p => !(p.contact_id == id)) } := by
  cases impl with
  | sql => exact sql_remove_contact_eq db id
  | cursor =>
    show (Cursor.remove_contact db id).1 = _
    by_cases hid : ∃ c ∈ db.contact, c.id = id
    · exact cursor_remove_contact_found hpk hid
    · have habs : ∀ c ∈ db.contact, c.id ≠ id := fun c hc h => hid ⟨c, hc, h⟩
      rw [cursor_remove_contact_absent habs, ← sql_remove_contact_eq,
        sql_remove_contact_absent hfk habs]

theorem update_contact_name_eq (impl : Impl) (db : Database) (id : Nat) (newname : String)
    (hpk : db.PrimaryKey) :
    ((Call.update_contact_name id newname).exec impl db).1 =
      { db with contact := db.contact.map (renamed id newname) } := by
  cases impl with
  | sql => exact sql_update_contact_name_eq db id newname
  | cursor => exact cursor_update_contact_name_eq db id newname hpk

theorem insert_phone_number_exec (impl : Impl) (db : Database) (contact_id : Nat)
    (number : String) (type : Nat) (speed_dial : Int) :
    ((Call.insert_phone_number contact_id number type speed_dial).exec impl db).1 =
      (Table.post_phone_number db
        { contact_id := contact_id, number := number, type := type,
          speed_dial := some speed_dial }).2 := by
  cases impl with
  | sql => exact (insert_phone_number_eq db contact_id number type speed_dial).2
  | cursor => exact (insert_phone_number_eq db contact_id number type speed_dial).1

theorem insert_contact_exec (impl : Impl) (db : Database) (fs : FileSystem) (id₀ n : Nat)
    (name : String) (ring_id : Nat) (picture_name : String)
    (hseq : db.contact_id = some n) (hnew : ∀ c ∈ db.contact, c.id ≠ n) :
    ((Call.insert_contact fs id₀ name ring_id picture_name).exec impl db).2 = some n ∧
    ((Call.insert_contact fs id₀ name ring_id picture_name).exec impl db).1 =
      { db with
        contact := db.contact ++
          [{ id := n, name := name, ring_id := some ring_id,
             picture_name := some picture_name,
             picture := if db.with_picture then (fs.content picture_name).getD [] else [] }]
        contact_id := some (n + 1) } := by
  have hv : (Sequence.get_next_value db id₀).2.1 = n := by
    simp [Sequence.get_next_value, hseq]
  have hd : (Sequence.get_next_value db id₀).2.2 = { db with contact_id := some (n + 1) } := by
    simp [Sequence.get_next_value, hseq]
  cases impl with
  | sql =>
    obtain ⟨h₁, h₂⟩ := sql_insert_contact_ok db fs id₀ name ring_id picture_name
      (by rw [hv]; exact hnew)
    simp [Call.exec, h₁, h₂, hv, hd]
  | cursor =>
    obtain ⟨h₁, h₂⟩ := cursor_insert_contact_ok db fs id₀ name ring_id picture_name
      (by rw [hv]; exact hnew)
    simp [Call.exec, h₁, h₂, hv, hd]

theorem exec_spec (impl : Impl) (db : Database) (call : Call) (n : Nat)
    (hpk : db.PrimaryKey) (hfk : db.ForeignKey) (hseq : db.contact_id = some n)
    (hlt : ∀ c ∈ db.contact, c.id < n) :
    (call.exec impl db).1.PrimaryKey ∧ (call.exec impl db).1.ForeignKey ∧
    (call.exec impl db).1.contact_id = some (next_after call n) ∧
    (call.exec impl db).1.ids = ids_after call db.ids n ∧
    (call.exec impl db).2 = id_returned call n := by
  cases call with
  | insert_contact fs id₀ name ring_id picture_name =>
    have hnew : ∀ c ∈ db.contact, c.id ≠ n := fun c hc => Nat.ne_of_lt (hlt c hc)
    obtain ⟨h₁, h₂⟩ := insert_contact_exec impl db fs id₀ n name ring_id picture_name hseq hnew
    rw [h₁, h₂]
    refine ⟨?_, ?_, rfl, ?_, rfl⟩
    · simp only [Database.PrimaryKey, List.map_append, List.map_cons, List.map_nil]
      refine List.Nodup.append hpk (List.nodup_singleton n) ?_
      simp only [List.disjoint_singleton, List.mem_map, not_exists, not_and]
      exact fun c hc => hnew c hc
    · intro p hp
      obtain ⟨c, hc, hcp⟩ := hfk p hp
      exact ⟨c, List.mem_append_left _ hc, hcp⟩
    · simp [Database.ids, ids_after]
  | insert_phone_number contact_id number type speed_dial =>
    rw [insert_phone_number_exec]
    simp only [Table.post_phone_number]
    split
    · rename_i hany
      refine ⟨hpk, ?_, hseq, rfl, ?_⟩
      · intro p hp
        simp only [List.mem_append, List.mem_singleton] at hp
        rcases hp with hp | hp
        · exact hfk p hp
        · subst hp
          simpa using hany
      · cases impl <;> rfl
    · refine ⟨hpk, hfk, hseq, rfl, ?_⟩
      cases impl <;> rfl
  | update_contact_name id newname =>
    rw [update_contact_name_eq impl db id newname hpk]
    have hids : (db.contact.map (renamed id newname)).map Contact.id = db.contact.map Contact.id := by
      rw [List.map_map]
      exact List.map_congr_left (fun c _ => renamed_id id newname c)
    refine ⟨?_, ?_, hseq, ?_, ?_⟩
    · simp only [Database.PrimaryKey, hids]
      exact hpk
    · intro p hp
      obtain ⟨c, hc, hcp⟩ := hfk p hp
      exact ⟨renamed id newname c, List.mem_map_of_mem _ hc, by rw [renamed_id, hcp]⟩
    · simp only [Database.ids, hids, ids_after]
    · cases impl <;> rfl
  | remove_contact id =>
    rw [remove_contact_eq impl db id hpk hfk]
    refine ⟨?_, ?_, hseq, ?_, ?_⟩
    · exact hpk.sublist ((List.filter_sublist _).map _)
    · intro p hp
      obtain ⟨hp₁, hp₂⟩ := List.mem_filter.1 hp
      obtain ⟨c, hc, hcp⟩ := hfk p hp₁
      refine ⟨c, List.mem_filter.2 ⟨hc, ?_⟩, hcp⟩
      rw [hcp]
      exact hp₂
    · simp only [Database.ids, ids_after, List.filter_map]
      congr 1
      apply List.filter_congr
      intro c _
      by_cases h : c.id = id <;> simp [h]
    · cases impl <;> rfl

theorem ids_after_lt (call : Call) (db db' : Database) (n : Nat)
    (hlt : ∀ c ∈ db.contact, c.id < n) (hids : db'.ids = ids_after call db.ids n) :
    ∀ c ∈ db'.contact, c.id < next_after call n := by
  intro c hc
  have hmem : c.id ∈ db'.ids := List.mem_map_of_mem _ hc
  rw [hids] at hmem
  have hold : ∀ i ∈ db.ids, i < n := by
    intro i hi
    obtain ⟨x, hx, rfl⟩ := List.mem_map.1 hi
    exact hlt x hx
  cases call with
  | insert_contact fs id₀ name ring_id picture_name =>
    simp only [ids_after, List.mem_append, List.mem_singleton] at hmem
    simp only [next_after]
    rcases hmem with h | h
    · exact Nat.lt_succ_of_lt (hold _ h)
    · omega
  | insert_phone_number contact_id number type speed_dial => exact hold _ hmem
  | update_contact_name id newname => exact hold _ hmem
  | remove_contact id => exact hold _ (List.mem_filter.1 hmem).1

theorem next_after_ge (call : Call) (n : Nat) : n ≤ next_after call n := by
  cases call <;> simp [next_after]

theorem id_returned_eq (call : Call) (n : Nat) :
    (id_returned call n).toList = List.range' n (next_after call n - n) := by
  cases call <;> simp [id_returned, next_after]

theorem run_spec (calls : List (Impl × Call)) :
    ∀ (db : Database) (n : Nat), db.PrimaryKey → db.ForeignKey → db.contact_id = some n →
      (∀ c ∈ db.contact, c.id < n) →
      (run db calls).1.PrimaryKey ∧ (run db calls).1.ForeignKey ∧
      ∃ m, n ≤ m ∧ (run db calls).1.contact_id = some m ∧
        (∀ c ∈ (run db calls).1.contact, c.id < m) ∧
        (run db calls).2 = List.range' n (m - n) := by
  induction calls with
  | nil =>
    intro db n hpk hfk hseq hlt
    exact ⟨hpk, hfk, n, Nat.le_refl n, hseq, hlt, by simp [run]⟩
  | cons ic calls ih =>
    intro db n hpk hfk hseq hlt
    obtain ⟨impl, call⟩ := ic
    obtain ⟨hpk', hfk', hseq', hids, hret⟩ := exec_spec impl db call n hpk hfk hseq hlt
    have hlt' := ids_after_lt call db (call.exec impl db).1 n hlt hids
    obtain ⟨hpk'', hfk'', m, hm, hseq'', hlt'', hrun⟩ :=
      ih (call.exec impl db).1 (next_after call n) hpk' hfk' hseq' hlt'
    have hge := next_after_ge call n
    refine ⟨hpk'', hfk'', m, Nat.le_trans hge hm, hseq'', hlt'', ?_⟩
    show (call.exec impl db).2.toList ++ (run (call.exec impl db).1 calls).2 = _
    rw [hrun, hret, id_returned_eq]
    obtain ⟨k, hk⟩ : ∃ k, next_after call n = n + k := ⟨next_after call n - n, by omega⟩
    obtain ⟨j, hj⟩ : ∃ j, m = n + k + j := ⟨m - (n + k), by omega⟩
    rw [hk, hj]
    have e₁ : n + k - n = k := by omega
    have e₂ : n + k + j - (n + k) = j := by omega
    have e₃ : n + k + j - n = k + j := by omega
    rw [e₁, e₂, e₃, List.range'_append_1, Nat.add_comm]

theorem fresh_spec {db : Database} (h : fresh db) :
    db.contact = [] ∧ db.phone_number = [] ∧ db.contact_id = some 1 := by
  obtain ⟨e, mode, h | h⟩ := h
  · simp only [Cursor.create_database, Cursor.create_tables, Cursor.create_table_contact,
      Cursor.create_sequences] at h
    repeat' split at h
    all_goals simp [Database.created] at h
    all_goals subst h
    all_goals exact ⟨rfl, rfl, rfl⟩
  · simp only [Sql.create_database, Sql.create_tables, Sql.create_table_contact,
      Sql.create_sequences] at h
    repeat' split at h
    all_goals simp [Database.created] at h
    all_goals subst h
    all_goals exact ⟨rfl, rfl, rfl⟩

theorem fresh_run {db : Database} (h : fresh db) (calls : List (Impl × Call)) :
    (run db calls).1.PrimaryKey ∧ (run db calls).1.ForeignKey ∧
    ∃ m, 1 ≤ m ∧ (run db calls).1.contact_id = some m ∧
      (∀ c ∈ (run db calls).1.contact, c.id < m) ∧
      (run db calls).2 = List.range' 1 (m - 1) := by
  obtain ⟨hc, hp, hs⟩ := fresh_spec h
  exact run_spec calls db 1 (by simp [Database.PrimaryKey, hc])
    (by simp [Database.ForeignKey, hp]) hs (by simp [hc])

theorem new_database_fresh : fresh new_database :=
  ⟨all_succeed, FileMode.DB_FILE_STORAGE, Or.inl rfl⟩

/-! ## C4: ids returned by `insert_contact` -/

/-- C4: in a session on a newly created database (any calls of
`insert_contact`, `insert_phone_number`, `update_contact_name` and
`remove_contact`, by either implementation, with any arguments) the ids
returned by the `insert_contact` calls are 1, 2, 3, ... in call order: none is
the failure value 0, the first is 1, and each is strictly greater than every
id returned before it. -/
theorem insert_contact_ids_increase (db : Database) (hdb : fresh db)
    (calls : List (Impl × Call)) :
    (run db calls).2 = List.range' 1 (run db calls).2.length ∧
    (∀ id ∈ (run db calls).2, id ≠ 0) ∧
    (∀ id, (run db calls).2.head? = some id → id = 1) ∧
    (run db calls).2.Pairwise (fun earlier later => earlier < later) := by
  obtain ⟨-, -, m, -, -, -, hids⟩ := fresh_run hdb calls
  rw [hids]
  refine ⟨by simp, ?_, ?_, ?_⟩
  · intro id hid
    have := (List.mem_range'_1.1 hid).1
    omega
  · intro id hid
    cases hm : m - 1 with
    | zero => simp [hm] at hid
    | succ k =>
      rw [hm] at hid
      simpa [List.range'_succ] using hid.symm
  · exact List.pairwise_lt_range' 1 (m - 1)

/-- Witness for C4: the sample session on the new database returns the ids
1, 2, 3 and 4. -/
theorem insert_contact_ids_increase_witness :
    fresh new_database ∧
    (run new_database sample_session).2 = [1, 2, 3, 4] ∧
    (run new_database sample_session).2
      = List.range' 1 (run new_database sample_session).2.length ∧
    (∀ id ∈ (run new_database sample_session).2, id ≠ 0) ∧
    (∀ id, (run new_database sample_session).2.head? = some id → id = 1) ∧
    (run new_database sample_session).2.Pairwise (fun earlier later => earlier < later) :=
  ⟨new_database_fresh, by decide,
    insert_contact_ids_increase new_database new_database_fresh sample_session⟩

/-! ## C5: the value returned by `insert_contact` -/

theorem post_contact_failed_iff (db : Database) (row : Contact) :
    DB_FAILED (Table.post_contact db row).1 = true ↔ ∃ c ∈ db.contact, c.id = row.id := by
  unfold Table.post_contact
  by_cases h : db.contact.any (fun c => c.id == row.id) = true
  · rw [if_pos h]
    simpa [DB_FAILED, DB_SUCCESS] using h
  · rw [if_neg h]
    simpa [DB_FAILED, DB_SUCCESS] using h

theorem db_success_iff (rc : Status) : DB_SUCCESS rc = true ↔ DB_FAILED rc = false := by
  cases rc <;> simp [DB_FAILED, DB_SUCCESS]

/-- Both outcomes occur: the write succeeds on the sample database and 4 is
returned; it is rejected when the sequence delivers the id of an existing row,
and 0 is returned. -/
theorem insert_contact_outcomes :
    (Cursor.insert_contact sample no_files 0 "Ann" 1 DEFAULT_PICTURE).1 = 4 ∧
    (Sql.insert_contact sample no_files 0 "Ann" 1 DEFAULT_PICTURE).1 = 4 ∧
    (Cursor.insert_contact stale_sequence no_files 0 "Ann" 1 DEFAULT_PICTURE).1 = 0 ∧
    (Sql.insert_contact stale_sequence no_files 0 "Ann" 1 DEFAULT_PICTURE).1 = 0 := by
  decide

/-! ## C6, C7: invariants of sessions -/

/-- C6: in every database reached from a newly created one by calls of
`insert_contact`, `insert_phone_number`, `update_contact_name` and
`remove_contact` (either implementation, any arguments), no two contact rows
have the same id, and a further call changes no id of a row in place: the ids
afterwards are the ids before, in row order, without those of a removed
contact and followed by the id of a newly inserted one. -/
theorem contact_id_unique_immutable (db : Database) (hdb : fresh db)
    (calls : List (Impl × Call)) :
    (run db calls).1.ids.Nodup ∧
    ∀ (impl : Impl) (call : Call), ∃ n, (run db calls).1.contact_id = some n ∧
      (call.exec impl (run db calls).1).1.ids = ids_after call (run db calls).1.ids n := by
  obtain ⟨hpk, hfk, m, -, hseq, hlt, -⟩ := fresh_run hdb calls
  refine ⟨hpk, fun impl call => ⟨m, hseq, ?_⟩⟩
  exact (exec_spec impl (run db calls).1 call m hpk hfk hseq hlt).2.2.2.1

/-- Witness for C6: the sample session on the new database, which ends with
the contacts 1, 3 and 4. -/
theorem contact_id_unique_immutable_witness :
    fresh new_database ∧
    (run new_database sample_session).1.ids = [1, 3, 4] ∧
    (run new_database sample_session).1.ids.Nodup ∧
    ∀ (impl : Impl) (call : Call), ∃ n,
      (run new_database sample_session).1.contact_id = some n ∧
      (call.exec impl (run new_database sample_session).1).1.ids
        = ids_after call (run new_database sample_session).1.ids n :=
  ⟨new_database_fresh, by decide,
    contact_id_unique_immutable new_database new_database_fresh sample_session⟩

/-- C7: in every database reached from a newly created one by calls of
`insert_contact`, `insert_phone_number`, `update_contact_name` and
`remove_contact` (either implementation, any arguments), the `contact_id` of
every phone-number row is the id of an existing contact row. -/
theorem referential_integrity (db : Database) (hdb : fresh db)
    (calls : List (Impl × Call)) :
    ∀ p ∈ (run db calls).1.phone_number,
      ∃ c ∈ (run db calls).1.contact, c.id = p.contact_id :=
  (fresh_run hdb calls).2.1

/-- Witness for C7: the sample session on the new database, which ends with
one phone number of contact 1 and three of contact 3. -/
theorem referential_integrity_witness :
    fresh new_database ∧
    (run new_database sample_session).1.phone_number.map PhoneNumber.contact_id
      = [1, 3, 3, 3] ∧
    ∀ p ∈ (run new_database sample_session).1.phone_number,
      ∃ c ∈ (run new_database sample_session).1.contact, c.id = p.contact_id :=
  ⟨new_database_fresh, by decide,
    referential_integrity new_database new_database_fresh sample_session⟩

/-! ## Ordering of the rows delivered by the engine -/

theorem compare_nullable_trans : Batteries.TransCmp compare_nullable where
  symm := by
    intro x y
    cases x <;> cases y <;> simp [compare_nullable, Ordering.swap]
    exact @Batteries.OrientedCmp.symm Nat compare _ _ _
  le_trans := by
    intro x y z hxy hyz
    cases x <;> cases y <;> cases z <;> simp_all [compare_nullable]
    exact @Batteries.TransCmp.le_trans Nat compare _ _ _ _ hxy hyz

theorem const_eq_trans {α : Type} : Batteries.TransCmp (fun (_ _ : α) => Ordering.eq) where
  symm := by intro x y; rfl
  le_trans := by intro x y z _ _; simp

theorem compare_fields_trans {α : Type} (cmp : String → α → α → Ordering)
    (h : ∀ f, Batteries.TransCmp (cmp f)) (fields : List String) :
    Batteries.TransCmp (compare_fields cmp fields) := by
  induction fields with
  | nil => exact const_eq_trans
  | cons f fs ih =>
    have := h f
    exact inferInstanceAs (Batteries.TransCmp (compareLex (cmp f) (compare_fields cmp fs)))

theorem contact_compare_field_trans (f : String) : Batteries.TransCmp (Contact.compare_field f) := by
  unfold Contact.compare_field
  split
  · exact inferInstanceAs (Batteries.TransCmp (compareOn Contact.id))
  · split
    · exact inferInstanceAs (Batteries.TransCmp (compareOn Contact.name))
    · split
      · have := compare_nullable_trans
        exact inferInstanceAs (Batteries.TransCmp (Ordering.byKey Contact.ring_id compare_nullable))
      · exact const_eq_trans

theorem join_compare_field_trans (f : String) : Batteries.TransCmp (JoinRow.compare_field f) := by
  unfold JoinRow.compare_field
  split
  · exact inferInstanceAs (Batteries.TransCmp (compareOn (fun r : JoinRow => r.A.id)))
  · split
    · exact inferInstanceAs (Batteries.TransCmp (compareOn (fun r : JoinRow => r.A.name)))
    · split
      · have := compare_nullable_trans
        exact inferInstanceAs
          (Batteries.TransCmp (Ordering.byKey (fun r : JoinRow => r.A.ring_id) compare_nullable))
      · split
        · exact inferInstanceAs (Batteries.TransCmp (compareOn (fun r : JoinRow => r.B.type)))
        · exact const_eq_trans

theorem order_by_sorted {α : Type} (cmp : α → α → Ordering) (h : Batteries.TransCmp cmp)
    (rows : List α) :
    (order_by cmp rows).Pairwise (fun a b => cmp a b ≠ Ordering.gt) := by
  have htotal : IsTotal α (fun a b => cmp a b ≠ Ordering.gt) :=
    ⟨fun a b => by
      by_cases hab : cmp a b = Ordering.gt
      · right
        rw [Batteries.OrientedCmp.cmp_eq_gt] at hab
        have := Batteries.TransCmp.lt_asymm hab
        rw [Ne, ← Batteries.OrientedCmp.cmp_eq_gt] at this
        exact this  
      · exact Or.inl hab⟩
  have htrans : IsTrans α (fun a b => cmp a b ≠ Ordering.gt) :=
    ⟨fun _ _ _ hab hbc => Batteries.TransCmp.le_trans hab hbc⟩
  exact List.sorted_insertionSort (fun a b => cmp a b ≠ Ordering.gt) rows

theorem order_by_perm {α : Type} (cmp : α → α → Ordering) (rows : List α) :
    (order_by cmp rows).Perm rows :=
  List.perm_insertionSort _ rows

theorem emitted_contacts_phone_numbers (db : Database) (id : Nat) (out : List Out) :
    emitted_contacts (Cursor.list_phone_numbers db id ++ out) = emitted_contacts out := by
  unfold Cursor.list_phone_numbers
  induction db.phone_number.filter (fun p => p.contact_id == id) with
  | nil => rfl
  | cons p rows ih => simpa [emitted_contacts] using ih

theorem emitted_contacts_list_loop (db : Database) (rows : List Contact) :
    emitted_contacts (Cursor.list_loop db rows) = rows.map Contact.header := by
  induction rows with
  | nil => rfl
  | cons c rows ih =>
    simp only [Cursor.list_loop, emitted_contacts, List.map_cons]
    rw [emitted_contacts_phone_numbers]
    simp only [emitted_contacts, ih]
    rfl

theorem emitted_contacts_print_rows (rows : List JoinRow) :
    ∀ prev_id, (emitted_contacts (Sql.print_rows prev_id rows)).Sublist
      (rows.map (fun r => r.A.header)) := by
  induction rows with
  | nil => intro _; exact List.Sublist.slnil
  | cons r rows ih =>
    intro prev_id
    simp only [Sql.print_rows]
    split
    · simp only [emitted_contacts, List.map_cons]
      exact (ih r.A.id).cons₂ _
    · simp only [emitted_contacts, List.map_cons]
      exact (ih prev_id).cons _

theorem compare_nullable_ne_gt {a b : Option Nat} (h : compare_nullable a b ≠ Ordering.gt) :
    (compare_nullable a b = Ordering.lt ∧ a < b) ∨
    (compare_nullable a b = Ordering.eq ∧ a = b) := by
  cases a with
  | none =>
    cases b with
    | none => exact Or.inr ⟨rfl, rfl⟩
    | some y => exact Or.inl ⟨rfl, trivial⟩
  | some x =>
    cases b with
    | none => exact absurd rfl h
    | some y =>
      simp only [compare_nullable] at h ⊢
      rcases lt_trichotomy x y with hlt | heq | hgt
      · exact Or.inl ⟨compare_lt_iff_lt.2 hlt, hlt⟩
      · exact Or.inr ⟨compare_eq_iff_eq.2 heq, by rw [heq]⟩
      · exact absurd (compare_gt_iff_gt.2 hgt) h

/-- A row that is not after another in the order of the fields chosen for a
sort mode is not after it in the order the mode stands for. -/
theorem cursor_sort_fields_ascending (sort : Int) (a b : Contact)
    (h : compare_fields Contact.compare_field (Cursor.sort_fields sort) a b ≠ Ordering.gt) :
    ascending sort a.header b.header := by
  unfold ascending Cursor.sort_fields at *
  by_cases h0 : sort = 0
  · simp only [h0, if_true, compare_fields, Contact.compare_field, Contact.header] at h ⊢
    rw [Ne, Ordering.then_eq_gt] at h
    exact compare_le_iff_le.1 (fun hgt => h (Or.inl hgt))
  · by_cases h1 : sort = 1
    · simp only [h1, if_true, compare_fields, Contact.compare_field, Contact.header] at h ⊢
      simp only [Ne, Ordering.then_eq_gt] at h
      simp only [show ¬ ((1 : Int) = 0) by decide, if_false]
      exact compare_le_iff_le.1 (fun hgt => h (Or.inl hgt))
    · by_cases h2 : sort = 2
      · simp only [h2, if_true, compare_fields, Contact.compare_field, Contact.header] at h ⊢
        simp only [Ne, Ordering.then_eq_gt] at h
        simp only [show ¬ ((2 : Int) = 0) by decide, show ¬ ((2 : Int) = 1) by decide, if_false]
        have hr : compare_nullable a.ring_id b.ring_id ≠ Ordering.gt :=
          fun hgt => h (Or.inl hgt)
        rcases compare_nullable_ne_gt hr with ⟨-, hlt⟩ | ⟨heq, hreq⟩
        · exact Or.inl hlt
        · refine Or.inr ⟨hreq, compare_le_iff_le.1 (fun hgt => ?_)⟩
          exact h (Or.inr ⟨heq, Or.inl hgt⟩)
      · simp [h0, h1, h2]

theorem sql_order_columns_ascending (sort : Int) (columns : List String) (x y : JoinRow)
    (hcol : Sql.order_columns sort = some columns)
    (h : compare_fields JoinRow.compare_field columns x y ≠ Ordering.gt) :
    ascending sort x.A.header y.A.header := by
  unfold ascending Sql.order_columns at *
  by_cases h0 : sort = 0
  · simp only [h0, if_true, Option.some.injEq] at hcol
    subst hcol
    simp only [h0, if_true, compare_fields, JoinRow.compare_field, Contact.header] at h ⊢
    simp only [Ne, Ordering.then_eq_gt] at h
    exact compare_le_iff_le.1 (fun hgt => h (Or.inl hgt))
  · by_cases h1 : sort = 1
    · simp only [h1, show ¬ ((1 : Int) = 0) by decide, if_true, if_false,
        Option.some.injEq] at hcol
      subst hcol
      simp only [h1, if_true, compare_fields, JoinRow.compare_field, Contact.header] at h ⊢
      simp only [Ne, Ordering.then_eq_gt] at h
      simp only [show ¬ ((1 : Int) = 0) by decide, if_false]
      exact compare_le_iff_le.1 (fun hgt => h (Or.inl hgt))
    · by_cases h2 : sort = 2
      · simp only [h2, show ¬ ((2 : Int) = 0) by decide, show ¬ ((2 : Int) = 1) by decide,
          if_true, if_false, Option.some.injEq] at hcol
        subst hcol
        simp only [h2, if_true, compare_fields, JoinRow.compare_field, Contact.header] at h ⊢
        simp only [Ne, Ordering.then_eq_gt] at h
        simp only [show ¬ ((2 : Int) = 0) by decide, show ¬ ((2 : Int) = 1) by decide, if_false]
        have hr : compare_nullable x.A.ring_id y.A.ring_id ≠ Ordering.gt :=
          fun hgt => h (Or.inl hgt)
        rcases compare_nullable_ne_gt hr with ⟨-, hlt⟩ | ⟨heq, hreq⟩
        · exact Or.inl hlt
        · refine Or.inr ⟨hreq, compare_le_iff_le.1 (fun hgt => ?_)⟩
          exact h (Or.inr ⟨heq, Or.inl hgt⟩)
      · simp [h0, h1, h2]

theorem cursor_list_contacts_ascending (db : Database) (sort : Int) :
    (emitted_contacts (Cursor.list_contacts db sort)).Pairwise (ascending sort) := by
  simp only [Cursor.list_contacts, emitted_contacts_list_loop]
  rw [List.pairwise_map]
  exact (order_by_sorted _
    (compare_fields_trans _ contact_compare_field_trans _) _).imp
    (fun {a b} h => cursor_sort_fields_ascending sort a b h)

theorem sql_list_contacts_ascending (db : Database) (sort : Int) :
    (emitted_contacts (Sql.list_contacts db sort)).Pairwise (ascending sort) := by
  unfold Sql.list_contacts
  cases hcol : Sql.order_columns sort with
  | none => exact List.Pairwise.nil
  | some columns =>
    simp only
    refine List.Pairwise.sublist (emitted_contacts_print_rows _ 0) ?_
    rw [List.pairwise_map]
    exact (order_by_sorted _
      (compare_fields_trans _ join_compare_field_trans _) _).imp
      (fun {x y} h => sql_order_columns_ascending sort columns x y hcol h)

/-! ## C10: order of the contacts listed -/

/-- C10: for every database, the contacts emitted by `list_contacts` appear in
ascending order of `id` for sort mode 0, of `name` for mode 1, and of
`(ring_id, name)` for mode 2 (a null `ring_id` first), in the cursor
implementation (first three parts) and in the SQL implementation (last
three). -/
theorem list_contacts_ascending (db : Database) :
    (emitted_contacts (Cursor.list_contacts db 0)).Pairwise (fun a b => a.id ≤ b.id) ∧
    (emitted_contacts (Cursor.list_contacts db 1)).Pairwise (fun a b => a.name ≤ b.name) ∧
    (emitted_contacts (Cursor.list_contacts db 2)).Pairwise
      (fun a b => a.ring_id < b.ring_id ∨ (a.ring_id = b.ring_id ∧ a.name ≤ b.name)) ∧
    (emitted_contacts (Sql.list_contacts db 0)).Pairwise (fun a b => a.id ≤ b.id) ∧
    (emitted_contacts (Sql.list_contacts db 1)).Pairwise (fun a b => a.name ≤ b.name) ∧
    (emitted_contacts (Sql.list_contacts db 2)).Pairwise
      (fun a b => a.ring_id < b.ring_id ∨ (a.ring_id = b.ring_id ∧ a.name ≤ b.name)) := by
  have hc := cursor_list_contacts_ascending db
  have hs := sql_list_contacts_ascending db
  refine ⟨(hc 0).imp ?_, (hc 1).imp ?_, (hc 2).imp ?_,
    (hs 0).imp ?_, (hs 1).imp ?_, (hs 2).imp ?_⟩
  all_goals
    intro a b hab
    simpa [ascending] using hab

/-- The listings of the sample database by name (mode 1): Bob, Fred, Sue in
both implementations. -/
theorem list_contacts_sample :
    (emitted_contacts (Cursor.list_contacts sample 1)).map Header.name = ["Bob", "Fred", "Sue"] ∧
    (emitted_contacts (Sql.list_contacts sample 1)).map Header.name = ["Bob", "Fred", "Sue"] ∧
    (emitted_contacts (Cursor.list_contacts sample 2)).map Header.name = ["Bob", "Fred", "Sue"] ∧
    (emitted_contacts (Sql.list_contacts sample 0)).map Header.name = ["Bob", "Sue", "Fred"] := by
  decide

/-! ## Entries of the listings -/

theorem leading_phones_list_loop (db : Database) (rows : List Contact) :
    leading_phones (Cursor.list_loop db rows) = [] := by
  cases rows <;> rfl

theorem leading_phones_phone_numbers (db : Database) (id : Nat) (out : List Out) :
    leading_phones (Cursor.list_phone_numbers db id ++ Out.endl :: out) =
      (db.phones_of id).map PhoneNumber.line ++ leading_phones out := by
  unfold Cursor.list_phone_numbers Database.phones_of
  induction db.phone_number.filter (fun p => p.contact_id == id) with
  | nil => rfl
  | cons p rows ih =>
    simp only [List.map_cons, List.cons_append, leading_phones, List.append_eq, ih,
      PhoneNumber.line]

theorem emitted_entries_phone_numbers (db : Database) (id : Nat) (out : List Out) :
    emitted_entries (Cursor.list_phone_numbers db id ++ Out.endl :: out)
      = emitted_entries out := by
  unfold Cursor.list_phone_numbers
  induction db.phone_number.filter (fun p => p.contact_id == id) with
  | nil => rfl
  | cons p rows ih => simpa [emitted_entries] using ih

theorem emitted_entries_list_loop (db : Database) (rows : List Contact) :
    emitted_entries (Cursor.list_loop db rows) =
      rows.map (fun c => (c.header, (db.phones_of c.id).map PhoneNumber.line)) := by
  induction rows with
  | nil => rfl
  | cons c rows ih =>
    simp only [Cursor.list_loop, emitted_entries, List.map_cons]
    rw [leading_phones_phone_numbers, emitted_entries_phone_numbers,
      leading_phones_list_loop, ih]
    simp [Contact.header]

/-- The cursor implementation lists every contact: the entries emitted by
`list_contacts` of `phonebook.cpp` are, for the contact rows in some order,
the header of the row and all of its phone numbers in row order. -/
theorem cursor_list_contacts_entries (db : Database) (sort : Int) :
    ∃ rows : List Contact, rows.Perm db.contact ∧
      emitted_entries (Cursor.list_contacts db sort) =
        rows.map (fun c => (c.header, (db.phones_of c.id).map PhoneNumber.line)) := by
  refine ⟨order_by (compare_fields Contact.compare_field (Cursor.sort_fields sort))
    (order_by (compare_fields Contact.compare_field ["name"]) db.contact), ?_, ?_⟩
  · exact (List.perm_insertionSort _ _).trans (List.perm_insertionSort _ _)
  · simp only [Cursor.list_contacts, emitted_entries_list_loop]

theorem leading_phones_print_rows (rows : List JoinRow) :
    ∀ prev_id, ∀ l ∈ leading_phones (Sql.print_rows prev_id rows),
      ∃ y ∈ rows, y.A.id = prev_id ∧ y.B.line = l := by
  induction rows with
  | nil => intro prev_id l hl; simp [Sql.print_rows, leading_phones] at hl
  | cons r rows ih =>
    intro prev_id l hl
    simp only [Sql.print_rows] at hl
    split at hl
    · simp [leading_phones] at hl
    · rename_i hid
      simp only [leading_phones, List.mem_cons] at hl
      rcases hl with hl | hl
      · exact ⟨r, List.mem_cons_self _ _, by simpa using hid, hl.symm⟩
      · obtain ⟨y, hy, hyid, hyl⟩ := ih prev_id l hl
        exact ⟨y, List.mem_cons_of_mem _ hy, hyid, hyl⟩

theorem leading_phones_print_rows_sorted (rows : List JoinRow) :
    ∀ prev_id, rows.Pairwise (fun x y => x.A.id = y.A.id → x.B.type ≤ y.B.type) →
      ((leading_phones (Sql.print_rows prev_id rows)).map PhoneLine.type).Pairwise
        (fun a b => a ≤ b) := by
  induction rows with
  | nil => intro _ _; simp [Sql.print_rows, leading_phones]
  | cons r rows ih =>
    intro prev_id hp
    obtain ⟨hr, hrest⟩ := List.pairwise_cons.1 hp
    simp only [Sql.print_rows]
    split
    · simp [leading_phones]
    · rename_i hid
      have hid' : r.A.id = prev_id := by simpa using hid
      simp only [leading_phones, List.map_cons]
      refine List.pairwise_cons.2 ⟨?_, ih prev_id hrest⟩
      intro t ht
      obtain ⟨l, hl, rfl⟩ := List.mem_map.1 ht
      obtain ⟨y, hy, hyid, rfl⟩ := leading_phones_print_rows rows prev_id l hl
      exact hr y hy (by rw [hid', hyid])

theorem emitted_entries_print_rows_sorted (rows : List JoinRow) :
    ∀ prev_id, rows.Pairwise (fun x y => x.A.id = y.A.id → x.B.type ≤ y.B.type) →
      ∀ e ∈ emitted_entries (Sql.print_rows prev_id rows),
        (e.2.map PhoneLine.type).Pairwise (fun a b => a ≤ b) := by
  induction rows with
  | nil => intro _ _ e he; simp [Sql.print_rows, emitted_entries] at he
  | cons r rows ih =>
    intro prev_id hp e he
    obtain ⟨hr, hrest⟩ := List.pairwise_cons.1 hp
    simp only [Sql.print_rows] at he
    split at he
    · simp only [emitted_entries, leading_phones, List.mem_cons] at he
      rcases he with he | he
      · subst he
        simp only [List.map_cons]
        refine List.pairwise_cons.2 ⟨?_, leading_phones_print_rows_sorted rows r.A.id hrest⟩
        intro t ht
        obtain ⟨l, hl, rfl⟩ := List.mem_map.1 ht
        obtain ⟨y, hy, hyid, rfl⟩ := leading_phones_print_rows rows r.A.id l hl
        exact hr y hy hyid.symm
      · exact ih r.A.id hrest e he
    · simp only [emitted_entries] at he
      exact ih prev_id hrest e he

theorem compare_nullable_self (a : Option Nat) : compare_nullable a a = Ordering.eq := by
  cases a with
  | none => rfl
  | some x => exact compare_eq_iff_eq.2 rfl

theorem order_columns_type (sort : Int) (columns : List String) (x y : JoinRow)
    (hcol : Sql.order_columns sort = some columns) (hA : x.A = y.A)
    (h : compare_fields JoinRow.compare_field columns x y ≠ Ordering.gt) :
    x.B.type ≤ y.B.type := by
  have hid : compare y.A.id y.A.id = Ordering.eq := compare_eq_iff_eq.2 rfl
  have hname : compare y.A.name y.A.name = Ordering.eq := compare_eq_iff_eq.2 rfl
  have hring := compare_nullable_self y.A.ring_id
  unfold Sql.order_columns at hcol
  split at hcol
  · simp only [Option.some.injEq] at hcol
    subst hcol
    simp only [compare_fields, JoinRow.compare_field, hA, hid] at h
    simp only [Ne, Ordering.then_eq_gt] at h
    exact compare_le_iff_le.1 (fun hgt => h (Or.inr ⟨rfl, Or.inl hgt⟩))
  · split at hcol
    · simp only [Option.some.injEq] at hcol
      subst hcol
      simp only [compare_fields, JoinRow.compare_field, hA, hname] at h
      simp only [Ne, Ordering.then_eq_gt] at h
      exact compare_le_iff_le.1 (fun hgt => h (Or.inr ⟨rfl, Or.inl hgt⟩))
    · split at hcol
      · simp only [Option.some.injEq] at hcol
        subst hcol
        simp only [compare_fields, JoinRow.compare_field, hA, hname, hring] at h
        simp only [Ne, Ordering.then_eq_gt] at h
        exact compare_le_iff_le.1
          (fun hgt => h (Or.inr ⟨rfl, Or.inr ⟨rfl, Or.inl hgt⟩⟩))
      · exact absurd hcol (by simp)

theorem mem_join {db : Database} {x : JoinRow} (h : x ∈ Query.join db) :
    x.A ∈ db.contact := by
  simp only [Query.join, List.mem_flatMap, List.mem_map, List.mem_filter] at h
  obtain ⟨a, ha, b, _, rfl⟩ := h
  exact ha

/-- The SQL implementation emits the phone numbers of each entry in ascending
order of type, in a database that satisfies the primary key of `contact`. -/
theorem sql_list_contacts_types_sorted (db : Database) (sort : Int) (hpk : db.PrimaryKey) :
    ∀ e ∈ emitted_entries (Sql.list_contacts db sort),
      (e.2.map PhoneLine.type).Pairwise (fun a b => a ≤ b) := by
  unfold Sql.list_contacts
  cases hcol : Sql.order_columns sort with
  | none => intro e he; simp [emitted_entries] at he
  | some columns =>
    simp only
    apply emitted_entries_print_rows_sorted
    have hsorted := order_by_sorted (compare_fields JoinRow.compare_field columns)
      (compare_fields_trans _ join_compare_field_trans _) (Query.join db)
    have hperm := order_by_perm (compare_fields JoinRow.compare_field columns) (Query.join db)
    refine hsorted.imp_of_mem ?_
    intro x y hx hy hxy hid
    have hxA := mem_join (hperm.mem_iff.1 hx)
    have hyA := mem_join (hperm.mem_iff.1 hy)
    have hA : x.A = y.A := List.inj_on_of_nodup_map hpk hxA hyA hid
    exact order_columns_type sort columns x y hcol hA hxy

/-! ## C11: order of the phone numbers of a contact -/

/-- C11, the cursor implementation at the failing input: after Bob's mobile
number and then his home number were entered, `list_contacts` of
`phonebook.cpp` emits, in each of the sort modes 0, 1 and 2, the mobile number
(type 1) before the home number (type 0), while `list_contacts` of
`phonebook_sql.cpp` emits them in ascending order of type. -/
theorem cursor_list_contacts_types_unordered :
    mobile_first.phone_number.map PhoneNumber.type = [MOBILE, HOME] ∧
    (emitted_entries (Cursor.list_contacts mobile_first 0)).map
      (fun e => e.2.map PhoneLine.type) = [[MOBILE, HOME]] ∧
    (emitted_entries (Cursor.list_contacts mobile_first 1)).map
      (fun e => e.2.map PhoneLine.type) = [[MOBILE, HOME]] ∧
    (emitted_entries (Cursor.list_contacts mobile_first 2)).map
      (fun e => e.2.map PhoneLine.type) = [[MOBILE, HOME]] ∧
    (emitted_entries (Sql.list_contacts mobile_first 0)).map
      (fun e => e.2.map PhoneLine.type) = [[HOME, MOBILE]] ∧
    ¬ ([MOBILE, HOME].Pairwise (fun a b => a ≤ b)) := by
  decide

/-! ## C12: every contact is listed -/

/-- C12, the SQL implementation at the failing input: for a database that
holds the contact Bob and no phone number, `list_contacts` of
`phonebook_sql.cpp` emits nothing in each of the sort modes 0, 1 and 2, while
`list_contacts` of `phonebook.cpp` emits the entry of Bob. -/
theorem sql_list_contacts_omits_contact :
    no_phone.contact.map Contact.name = ["Bob"] ∧
    no_phone.phone_number = [] ∧
    Sql.list_contacts no_phone 0 = [] ∧
    Sql.list_contacts no_phone 1 = [] ∧
    Sql.list_contacts no_phone 2 = [] ∧
    (emitted_entries (Cursor.list_contacts no_phone 0)).map (fun e => e.1.name) = ["Bob"] := by
  decide

/-! ## C13: the brief listing -/

theorem name_order_ascending (a b : Contact)
    (h : compare_fields Contact.compare_field ["name"] a b ≠ Ordering.gt) :
    a.name ≤ b.name := by
  simp only [compare_fields, Contact.compare_field] at h
  simp only [Ne, Ordering.then_eq_gt] at h
  exact compare_le_iff_le.1 (fun hgt => h (Or.inl hgt))

theorem wcstombs_fits (l : List Char) :
    ∀ n, (∀ c ∈ l, c.toNat ≠ 0 ∧ c.toNat < 128) → l.length < n →
      wcstombs l n = (l, true) := by
  induction l with
  | nil =>
    intro n _ hn
    cases n with
    | zero => simp at hn
    | succ n => rfl
  | cons c l ih =>
    intro n h hn
    cases n with
    | zero => simp at hn
    | succ n =>
      have hc := h c (List.mem_cons_self c l)
      have hl := ih n (fun d hd => h d (List.mem_cons_of_mem c hd))
        (by simpa using hn)
      simp [wcstombs, hc.1, hc.2, hl]

theorem wcstombs_full (l : List Char) :
    ∀ n, (∀ c ∈ l, c.toNat ≠ 0 ∧ c.toNat < 128) → n ≤ l.length →
      (wcstombs l n).2 = false := by
  induction l with
  | nil =>
    intro n _ hn
    have h0 : n = 0 := by simpa using hn
    subst h0
    rfl
  | cons c l ih =>
    intro n h hn
    cases n with
    | zero => rfl
    | succ n =>
      have hc := h c (List.mem_cons_self c l)
      have hl := ih n (fun d hd => h d (List.mem_cons_of_mem c hd))
        (by simpa using hn)
      simp [wcstombs, hc.1, hc.2, hl]

/-- A name of fewer than 50 characters, all of them below 128 and none the
null character, is written as it is. -/
theorem print_name_mbs_fits (name : String)
    (h : ∀ c ∈ name.toList, c.toNat ≠ 0 ∧ c.toNat < 128) (hlen : name.length < 50) :
    print_name_mbs name = some name := by
  have hw := wcstombs_fits name.toList 50 h (by simpa using hlen)
  simp only [print_name_mbs, hw, if_true]
  rfl

/-- For a name of 50 characters or more, all of them below 128 and none the
null character, `wcstombs` fills the 50 bytes of `name_mbs` and stores no
terminating null: the text written is not determined by the program. -/
theorem print_name_mbs_full (name : String)
    (h : ∀ c ∈ name.toList, c.toNat ≠ 0 ∧ c.toNat < 128) (hlen : 50 ≤ name.length) :
    print_name_mbs name = none := by
  have hw := wcstombs_full name.toList 50 h (by simpa using hlen)
  simp only [print_name_mbs, hw, Bool.false_eq_true, if_false]

/-- Function `list_contacts_brief`, both implementations, for every database: one
line is written for each row of `contact`, the lines follow the rows in
ascending order of name, and each line has the id of its row and the text
written for its name. -/
theorem list_contacts_brief_rows (db : Database) :
    ∃ rows : List Contact, rows.Perm db.contact ∧
      rows.Pairwise (fun a b => a.name ≤ b.name) ∧
      Cursor.list_contacts_brief db = rows.map (fun c => (c.id, print_name_mbs c.name)) ∧
      Sql.list_contacts_brief db = rows.map (fun c => (c.id, print_name_mbs c.name)) := by
  have hperm := order_by_perm (compare_fields Contact.compare_field ["name"]) db.contact
  have hsorted := order_by_sorted (compare_fields Contact.compare_field ["name"])
    (compare_fields_trans _ contact_compare_field_trans _) db.contact
  exact ⟨_, hperm, hsorted.imp (fun {a b} h => name_order_ascending a b h), rfl, rfl⟩

/-- Function `list_contacts_brief`, both implementations, on a database in which
every name has fewer than 50 characters, all below 128 and none the null
character: the lines written are the (id, name) pairs of the rows, one for
each row, in ascending order of name. -/
theorem list_contacts_brief_short_names (db : Database)
    (h : ∀ c ∈ db.contact, c.name.length < 50 ∧
      ∀ ch ∈ c.name.toList, ch.toNat ≠ 0 ∧ ch.toNat < 128) :
    ∃ rows : List Contact, rows.Perm db.contact ∧
      rows.Pairwise (fun a b => a.name ≤ b.name) ∧
      Cursor.list_contacts_brief db = rows.map (fun c => (c.id, some c.name)) ∧
      Sql.list_contacts_brief db = rows.map (fun c => (c.id, some c.name)) := by
  obtain ⟨rows, hperm, hsorted, hc, hs⟩ := list_contacts_brief_rows db
  have hmap : rows.map (fun c => (c.id, print_name_mbs c.name))
      = rows.map (fun c => (c.id, some c.name)) := by
    apply List.map_congr_left
    intro c hc
    have hmem := hperm.mem_iff.1 hc
    rw [print_name_mbs_fits c.name (h c hmem).2 (h c hmem).1]
  exact ⟨rows, hperm, hsorted, hc.trans hmap, hs.trans hmap⟩

/-- C13, the failing case: in the database reached from a new one by entering
one contact whose name has 50 characters, the length declared for the field,
`wcstombs` stores the 50 characters in `name_mbs` and no terminating null, so
the text `list_contacts_brief` writes after the id is not determined by the
program (`cout` reads past the array): the line written is not the pair (1,
name), in `phonebook.cpp` and in `phonebook_sql.cpp`.  A name of 49 characters
is written as it is, and a name with a character from 128 on leaves the buffer
without terminating null as well. -/
theorem list_contacts_brief_long_name :
    long_name.length = 50 ∧
    long_name_database.contact.map (fun c => (c.id, c.name)) = [(1, long_name)] ∧
    wcstombs long_name.toList 50 = (long_name.toList, false) ∧
    Cursor.list_contacts_brief long_name_database = [(1, none)] ∧
    Sql.list_contacts_brief long_name_database = [(1, none)] ∧
    Cursor.list_contacts_brief long_name_database ≠ [(1, some long_name)] ∧
    print_name_mbs (String.mk (List.replicate 49 'a'))
      = some (String.mk (List.replicate 49 'a')) ∧
    print_name_mbs "Zoë" = none := by
  decide

/-- The brief listing of the sample database: Bob, Fred, Sue. -/
theorem list_contacts_brief_sample :
    Cursor.list_contacts_brief sample = [(1, some "Bob"), (3, some "Fred"), (2, some "Sue")] ∧
    Sql.list_contacts_brief sample = [(1, some "Bob"), (3, some "Fred"), (2, some "Sue")] := by
  decide

/-! ## C14: the line printed for a phone number -/

/-- C14: for every phone number string, every type code from 0 to 4 and every
stored speed-dial value `s`, the line `list_contacts` prints for the phone
number is "Phone number: <number> (<Type>, speed dial <s>)" when `s` is at
least 0 and "Phone number: <number> (<Type>)" when `s` is negative, where
<Type> is Home, Mobile, Work, Fax, Pager for the codes 0, 1, 2, 3, 4. -/
theorem phone_number_rendered (number : String) (type : Nat) (s : Int) (htype : type ≤ 4) :
    (Out.phone_number number type (some s)).render =
      some [if 0 ≤ s then
          "Phone number: " ++ number ++ " (" ++
            ["Home", "Mobile", "Work", "Fax", "Pager"].getD type "" ++
            ", speed dial " ++ toString s ++ ")"
        else
          "Phone number: " ++ number ++ " (" ++
            ["Home", "Mobile", "Work", "Fax", "Pager"].getD type "" ++ ")"] := by
  have hname : type_name type = ["Home", "Mobile", "Work", "Fax", "Pager"].getD type "" := by
    interval_cases type <;> rfl
  simp only [Out.render, phone_number_line, as_int, Option.getD_some, hname, ge_iff_le]
  split <;> simp [String.append_assoc]

/-- Witness for C14: a mobile number without speed dial (`s` is -1) and a home
number with speed dial 5, as `populate_tables` enters them. -/
theorem phone_number_rendered_witness :
    MOBILE ≤ 4 ∧
    (Out.phone_number "206-555-1000" MOBILE (some (-1))).render =
      some [if (0 : Int) ≤ -1 then
          "Phone number: " ++ "206-555-1000" ++ " (" ++
            ["Home", "Mobile", "Work", "Fax", "Pager"].getD MOBILE "" ++
            ", speed dial " ++ toString (-1 : Int) ++ ")"
        else
          "Phone number: " ++ "206-555-1000" ++ " (" ++
            ["Home", "Mobile", "Work", "Fax", "Pager"].getD MOBILE "" ++ ")"] :=
  ⟨by decide, phone_number_rendered "206-555-1000" MOBILE (-1) (by decide)⟩

/-- The lines printed for the first and the third phone number of the sample
database. -/
theorem phone_number_rendered_sample :
    (Out.phone_number "206-555-1000" MOBILE (some (-1))).render
      = some ["Phone number: 206-555-1000 (Mobile)"] ∧
    (Out.phone_number "206-555-1308" HOME (some 5)).render
      = some ["Phone number: 206-555-1308 (Home, speed dial 5)"] ∧
    (Out.phone_number "206-555-3890" HOME (some 0)).render
      = some ["Phone number: 206-555-3890 (Home, speed dial 0)"] := by
  decide

/-- The lines printed for the header of Bob in the sample database, for a ring
tone id from 2^31 on, which `(int) ring_id` turns negative, and for a header
whose name fills the buffer `name_mbs`. -/
theorem header_rendered_sample :
    (Out.contact 1 "Bob" (some 0) (some "unknown.png")).render
      = some ["Id: 1", "Name: Bob", "Ring tone id: 0", "Picture name: unknown.png"] ∧
    (Out.contact 1 "Bob" none none).render = some ["Id: 1", "Name: Bob"] ∧
    int_of_uint 2147483648 = -2147483648 ∧
    int_of_uint 7 = 7 ∧
    (Out.contact 1 long_name (some 0) none).render = none := by
  decide

/-! ## The `write_blob` calls of `insert_contact` -/

/-- The database `insert_contact` of `phonebook.cpp` delivers is the one the
engine reaches from the database after `post` by the `write_blob` calls
listed by `insert_contact_writes`. -/
theorem cursor_insert_contact_applies_writes (db : Database) (fs : FileSystem) (id₀ : Nat)
    (name : String) (ring_id : Nat) (picture_name : String) :
    (Cursor.insert_contact db fs id₀ name ring_id picture_name).2.1 =
      (Cursor.insert_contact_writes fs picture_name).foldl
        (fun d w => Table.write_blob d
          (if DB_FAILED (Table.post_contact (Sequence.get_next_value db id₀).2.2
              { id := (Sequence.get_next_value db id₀).2.1, name := name,
                ring_id := some ring_id, picture_name := some picture_name,
                picture := [] }).1
            then none else some (Sequence.get_next_value db id₀).2.1) w.1 w.2)
        (Table.post_contact (Sequence.get_next_value db id₀).2.2
          { id := (Sequence.get_next_value db id₀).2.1, name := name,
            ring_id := some ring_id, picture_name := some picture_name,
            picture := [] }).2 := by
  simp only [Cursor.insert_contact, Cursor.insert_contact_writes]
  cases fs.content picture_name with
  | none => rfl
  | some file => rfl

/-- The database `update_contact_picture` delivers is the one the engine
reaches by the `write_blob` calls listed by `update_contact_picture_writes`. -/
theorem sql_update_contact_picture_applies_writes (db : Database) (fs : FileSystem)
    (contact_id : Nat) (picture_name : String) :
    (Sql.update_contact_picture db fs contact_id picture_name).1 =
      (Sql.update_contact_picture_writes db fs contact_id picture_name).foldl
        (fun d w => Table.write_blob d (some contact_id) w.1 w.2) db := by
  simp only [Sql.update_contact_picture, Sql.update_contact_picture_writes]
  cases Table.seek_contact db contact_id with
  | none => rfl
  | some row =>
    cases fs.content picture_name with
    | none => rfl
    | some file => rfl

/-- The database `insert_contact` of `phonebook_sql.cpp` delivers is the one
the engine reaches from the database after the insert statement by the
`write_blob` calls listed by `insert_contact_writes`. -/
theorem sql_insert_contact_applies_writes (db : Database) (fs : FileSystem) (id₀ : Nat)
    (name : String) (ring_id : Nat) (picture_name : String) :
    (Sql.insert_contact db fs id₀ name ring_id picture_name).2.1 =
      (Sql.insert_contact_writes db fs id₀ name ring_id picture_name).foldl
        (fun d w => Table.write_blob d (some (Sequence.get_next_value db id₀).2.1) w.1 w.2)
        (Table.post_contact (Sequence.get_next_value db id₀).2.2
          { id := (Sequence.get_next_value db id₀).2.1, name := name,
            ring_id := some ring_id, picture_name := some picture_name,
            picture := [] }).2 := by
  simp only [Sql.insert_contact, Sql.insert_contact_writes]
  split
  · exact sql_update_contact_picture_applies_writes _ fs _ picture_name
  · rfl

/-! ## C15: a picture file that cannot be opened -/

/-- C15: when the picture file cannot be opened, the sequence delivers the id
`n`, at least 1, and no row has that id yet, `insert_contact` writes the
contact row (`n`, name, ring_id, picture_name) with an empty picture, issues
no `write_blob` call, reports that the file cannot be opened, and returns `n`,
which is not 0; this holds for the cursor implementation and for the SQL
implementation. -/
theorem insert_contact_unreadable_picture (db : Database) (fs : FileSystem) (id₀ n : Nat)
    (name : String) (ring_id : Nat) (picture_name : String)
    (hfile : fs.content picture_name = none) (hseq : db.contact_id = some n) (hn : 1 ≤ n)
    (hnew : ∀ c ∈ db.contact, c.id ≠ n) :
    (Cursor.insert_contact db fs id₀ name ring_id picture_name =
        (n,
          { db with
            contact := db.contact ++
              [{ id := n, name := name, ring_id := some ring_id,
                 picture_name := some picture_name, picture := [] }]
            contact_id := some (n + 1) },
          [Msg.text ("Cannot open " ++ picture_name)]) ∧
      Cursor.insert_contact_writes fs picture_name = []) ∧
    (Sql.insert_contact db fs id₀ name ring_id picture_name =
        (n,
          { db with
            contact := db.contact ++
              [{ id := n, name := name, ring_id := some ring_id,
                 picture_name := some picture_name, picture := [] }]
            contact_id := some (n + 1) },
          [Msg.text ("Cannot open " ++ picture_name)]) ∧
      Sql.insert_contact_writes db fs id₀ name ring_id picture_name = []) ∧
    n ≠ 0 := by
  have hany := any_id_eq_false hnew
  have hfind := find_append_new db.contact
    { id := n, name := name, ring_id := some ring_id,
      picture_name := some picture_name, picture := [] } n hnew rfl
  refine ⟨⟨?_, ?_⟩, ⟨?_, ?_⟩, by omega⟩
  · simp [Cursor.insert_contact, Sequence.get_next_value, hseq, Table.post_contact, hany,
      DB_FAILED, DB_SUCCESS, print_error, hfile]
  · simp [Cursor.insert_contact_writes, hfile]
  · simp [Sql.insert_contact, Sequence.get_next_value, hseq, Table.post_contact, hany,
      DB_SUCCESS, DB_FAILED, print_error, Sql.update_contact_picture, Table.seek_contact, hfind,
      hfile]
  · simp [Sql.insert_contact_writes, Sequence.get_next_value, hseq, Table.post_contact, hany,
      DB_SUCCESS, Sql.update_contact_picture_writes, Table.seek_contact, hfind, hfile]

/-- Witness for C15: a fourth contact entered into the sample database while
no file can be read. -/
theorem insert_contact_unreadable_picture_witness :
    no_files.content DEFAULT_PICTURE = none ∧ sample.contact_id = some 4 ∧ 1 ≤ 4 ∧
    (∀ c ∈ sample.contact, c.id ≠ 4) ∧
    (Cursor.insert_contact sample no_files 0 "Ann" 1 DEFAULT_PICTURE =
        (4,
          { sample with
            contact := sample.contact ++
              [{ id := 4, name := "Ann", ring_id := some 1,
                 picture_name := some DEFAULT_PICTURE, picture := [] }]
            contact_id := some (4 + 1) },
          [Msg.text ("Cannot open " ++ DEFAULT_PICTURE)]) ∧
      Cursor.insert_contact_writes no_files DEFAULT_PICTURE = []) ∧
    (Sql.insert_contact sample no_files 0 "Ann" 1 DEFAULT_PICTURE =
        (4,
          { sample with
            contact := sample.contact ++
              [{ id := 4, name := "Ann", ring_id := some 1,
                 picture_name := some DEFAULT_PICTURE, picture := [] }]
            contact_id := some (4 + 1) },
          [Msg.text ("Cannot open " ++ DEFAULT_PICTURE)]) ∧
      Sql.insert_contact_writes sample no_files 0 "Ann" 1 DEFAULT_PICTURE = []) ∧
    4 ≠ 0 :=
  ⟨rfl, rfl, by decide, by decide,
    insert_contact_unreadable_picture sample no_files 0 4 "Ann" 1 DEFAULT_PICTURE rfl rfl
      (by decide) (by decide)⟩

/-! ## C17: the chunks of the picture-writing loop -/

theorem write_blob_calls_eq (n : Nat) :
    ∀ (file : Bytes) (k : Nat), file.length = n →
      write_blob_calls file k =
        (List.range ((n + 255) / 256)).map
          (fun i => (256 * (k + i), (file.drop (256 * i)).take 256)) := by
  induction n using Nat.strong_induction_on with
  | _ n ih =>
    intro file k hn
    rw [write_blob_calls]
    split
    · rename_i h
      have hpos : 0 < n := by
        simp only [List.length_take] at h
        omega
      have hlen : (file.drop 256).length = n - 256 := by
        simp only [List.length_drop, hn]
      rw [ih (n - 256) (by omega) (file.drop 256) (k + 1) hlen]
      have hcount : (n + 255) / 256 = (n - 256 + 255) / 256 + 1 := by omega
      rw [hcount, List.range_succ_eq_map, List.map_cons, List.map_map]
      simp only [Nat.mul_zero, Nat.add_zero, List.drop_zero]
      congr 1
      apply List.map_congr_left
      intro i _
      simp only [Function.comp, List.drop_drop]
      have e₁ : 256 * (k + 1 + i) = 256 * (k + (i + 1)) := by omega
      have e₂ : 256 + 256 * i = 256 * (i + 1) := by omega
      have e₃ : 256 * i + 256 = 256 * (i + 1) := by omega
      simp only [e₁, e₂, e₃, Nat.succ_eq_add_one]
    · rename_i h
      have hz : n = 0 := by
        simp only [List.length_take, not_lt, Nat.le_zero] at h
        omega
      subst hz
      rfl

theorem flatten_chunks (n : Nat) :
    ∀ (file : Bytes), file.length = n →
      ((List.range ((n + 255) / 256)).map
        (fun i => (file.drop (256 * i)).take 256)).flatten = file := by
  induction n using Nat.strong_induction_on with
  | _ n ih =>
    intro file hn
    by_cases hz : n = 0
    · subst hz
      have : file = [] := List.eq_nil_of_length_eq_zero hn
      subst this
      rfl
    · have hcount : (n + 255) / 256 = (n - 256 + 255) / 256 + 1 := by omega
      have hlen : (file.drop 256).length = n - 256 := by
        simp only [List.length_drop, hn]
      have := ih (n - 256) (by omega) (file.drop 256) hlen
      rw [hcount, List.range_succ_eq_map, List.map_cons, List.map_map, List.flatten_cons]
      simp only [Nat.mul_zero, List.drop_zero]
      have hmap : List.map ((fun i => List.take 256 (List.drop (256 * i) file)) ∘ Nat.succ)
          (List.range ((n - 256 + 255) / 256))
          = List.map (fun i => List.take 256 (List.drop (256 * i) (List.drop 256 file)))
            (List.range ((n - 256 + 255) / 256)) := by
        apply List.map_congr_left
        intro i _
        simp only [Function.comp, List.drop_drop]
        have e : 256 + 256 * i = 256 * i.succ := by omega
        have e' : 256 * i + 256 = 256 * i.succ := by omega
        simp only [e, e']
      rw [hmap, this, List.take_append_drop]

/-- C17: for a readable picture file of `n` bytes the picture-writing loop of
`insert_contact` (cursor implementation) and of `update_contact_picture` (SQL
implementation, for a contact that exists) ends after issuing exactly
ceil(n / 256) `write_blob` calls, the `k`-th (from 0) at offset `256 * k`
carrying the `min 256 (n - 256 * k)` file bytes found at that offset, so that
the data written, put end to end, are the file.  The number of calls
`(n + 255) / 256` is the ceiling: `n ≤ 256 * count < n + 256`. -/
theorem picture_write_chunks (db : Database) (fs : FileSystem) (contact_id : Nat)
    (picture_name : String) (file : Bytes)
    (hfile : fs.content picture_name = some file)
    (hfound : ∃ c ∈ db.contact, c.id = contact_id) :
    Cursor.insert_contact_writes fs picture_name =
      (List.range ((file.length + 255) / 256)).map
        (fun k => (256 * k, (file.drop (256 * k)).take 256)) ∧
    Sql.update_contact_picture_writes db fs contact_id picture_name =
      (List.range ((file.length + 255) / 256)).map
        (fun k => (256 * k, (file.drop (256 * k)).take 256)) ∧
    (file.length ≤ 256 * ((file.length + 255) / 256) ∧
      256 * ((file.length + 255) / 256) < file.length + 256) ∧
    (∀ k, k < (file.length + 255) / 256 →
      ((file.drop (256 * k)).take 256).length = min 256 (file.length - 256 * k) ∧
      0 < ((file.drop (256 * k)).take 256).length) ∧
    ((Cursor.insert_contact_writes fs picture_name).map Prod.snd).flatten = file := by
  have hcalls : write_blob_calls file 0 =
      (List.range ((file.length + 255) / 256)).map
        (fun k => (256 * k, (file.drop (256 * k)).take 256)) := by
    rw [write_blob_calls_eq file.length file 0 rfl]
    apply List.map_congr_left
    intro i _
    simp
  have hseek : ∃ row, Table.seek_contact db contact_id = some row := by
    cases h : Table.seek_contact db contact_id with
    | some row => exact ⟨row, rfl⟩
    | none =>
      obtain ⟨c, hc, hcid⟩ := hfound
      exact absurd hcid (seek_contact_eq_none.1 h c hc)
  obtain ⟨row, hrow⟩ := hseek
  have hcursor : Cursor.insert_contact_writes fs picture_name = write_blob_calls file 0 := by
    simp [Cursor.insert_contact_writes, hfile]
  refine ⟨by rw [hcursor, hcalls], ?_, ⟨by omega, by omega⟩, ?_, ?_⟩
  · simp only [Sql.update_contact_picture_writes, hrow, hfile, hcalls]
  · intro k hk
    simp only [List.length_take, List.length_drop]
    have hlt : 256 * k < file.length := by omega
    exact ⟨trivial, by omega⟩
  · rw [hcursor, hcalls, List.map_map]
    exact flatten_chunks file.length file rfl

/-- Witness for C17: the file of 257 bytes of `sample_files`, stored for
contact 3 of the sample database, is written by two calls, at offsets 0 and
256. -/
theorem picture_write_chunks_witness :
    sample_files.content DEFAULT_PICTURE = some (List.range 257) ∧
    (∃ c ∈ sample.contact, c.id = 3) ∧
    (List.range 257).length = 257 ∧ (257 + 255) / 256 = 2 ∧
    (Cursor.insert_contact_writes sample_files DEFAULT_PICTURE =
      (List.range (((List.range 257).length + 255) / 256)).map
        (fun k => (256 * k, ((List.range 257).drop (256 * k)).take 256)) ∧
    Sql.update_contact_picture_writes sample sample_files 3 DEFAULT_PICTURE =
      (List.range (((List.range 257).length + 255) / 256)).map
        (fun k => (256 * k, ((List.range 257).drop (256 * k)).take 256)) ∧
    ((List.range 257).length ≤ 256 * (((List.range 257).length + 255) / 256) ∧
      256 * (((List.range 257).length + 255) / 256) < (List.range 257).length + 256) ∧
    (∀ k, k < ((List.range 257).length + 255) / 256 →
      (((List.range 257).drop (256 * k)).take 256).length
        = min 256 ((List.range 257).length - 256 * k) ∧
      0 < (((List.range 257).drop (256 * k)).take 256).length) ∧
    ((Cursor.insert_contact_writes sample_files DEFAULT_PICTURE).map Prod.snd).flatten
      = List.range 257) :=
  ⟨by simp [sample_files], by decide, by simp, by decide,
    picture_write_chunks sample sample_files 3 DEFAULT_PICTURE (List.range 257)
      (by simp [sample_files]) (by decide)⟩

/-! ## C16: the picture name stored -/

theorem basename_eq_self_iff (path : String) :
    basename path = path ↔ '/' ∉ path.toList := by
  unfold basename
  constructor
  · intro h hmem
    have hdata : (path.toList.reverse.takeWhile (fun c => c ≠ '/')).reverse = path.toList := by
      have := congrArg String.toList h
      simpa using this
    rw [← hdata] at hmem
    have hmem' := List.mem_reverse.1 hmem
    have := List.mem_takeWhile_imp hmem'
    simp at this
  · intro h
    have hall : ∀ c ∈ path.toList.reverse, (decide (c ≠ '/')) = true := by
      intro c hc
      have hc' := List.mem_reverse.1 hc
      have : c ≠ '/' := fun e => h (e ▸ hc')
      simpa using this
    rw [List.takeWhile_eq_self_iff.2 hall, List.reverse_reverse]
    rfl

/-- C16, the claim at a path with a directory component: `insert_contact`
called with the picture path `pictures/bob.png` stores `pictures/bob.png` as
`picture_name`, in both implementations, and not the basename `bob.png`. -/
theorem picture_name_not_basename :
    basename "pictures/bob.png" = "bob.png" ∧
    (Cursor.insert_contact new_database no_files 0 "Bob" 0 "pictures/bob.png").2.1.contact.map
      Contact.picture_name = [some "pictures/bob.png"] ∧
    (Sql.insert_contact new_database no_files 0 "Bob" 0 "pictures/bob.png").2.1.contact.map
      Contact.picture_name = [some "pictures/bob.png"] ∧
    (Cursor.insert_contact new_database no_files 0 "Bob" 0 "pictures/bob.png").2.1.contact.map
      Contact.picture_name ≠ [some (basename "pictures/bob.png")] ∧
    (Sql.insert_contact new_database no_files 0 "Bob" 0 "pictures/bob.png").2.1.contact.map
      Contact.picture_name ≠ [some (basename "pictures/bob.png")] := by
  decide

/-- C16 as amended: when the sequence delivers an id that no row has yet, the
`picture_name` stored in the contact row written by `insert_contact` is the
picture path itself, as passed, in both implementations; it is the basename
of the path exactly when the path has no directory component. -/
theorem picture_name_stored_as_given (db : Database) (fs : FileSystem) (id₀ n : Nat)
    (name : String) (ring_id : Nat) (picture_path : String)
    (hseq : db.contact_id = some n) (hnew : ∀ c ∈ db.contact, c.id ≠ n) :
    ((Cursor.insert_contact db fs id₀ name ring_id picture_path).2.1.contact.getLast?.map
      Contact.picture_name = some (some picture_path)) ∧
    ((Sql.insert_contact db fs id₀ name ring_id picture_path).2.1.contact.getLast?.map
      Contact.picture_name = some (some picture_path)) ∧
    (some (basename picture_path) = some picture_path ↔ '/' ∉ picture_path.toList) := by
  have hv : (Sequence.get_next_value db id₀).2.1 = n := by
    simp [Sequence.get_next_value, hseq]
  have hc := (cursor_insert_contact_ok db fs id₀ name ring_id picture_path
    (by rw [hv]; exact hnew)).2
  have hs := (sql_insert_contact_ok db fs id₀ name ring_id picture_path
    (by rw [hv]; exact hnew)).2
  refine ⟨?_, ?_, ?_⟩
  · rw [hc]
    simp
  · rw [hs]
    simp
  · rw [Option.some.injEq]
    exact basename_eq_self_iff picture_path

/-- Witness for C16 as amended: a contact entered into the sample database
with the picture path `pictures/ann.png`. -/
theorem picture_name_stored_as_given_witness :
    sample.contact_id = some 4 ∧ (∀ c ∈ sample.contact, c.id ≠ 4) ∧
    ((Cursor.insert_contact sample no_files 0 "Ann" 1 "pictures/ann.png").2.1.contact.getLast?.map
      Contact.picture_name = some (some "pictures/ann.png")) ∧
    ((Sql.insert_contact sample no_files 0 "Ann" 1 "pictures/ann.png").2.1.contact.getLast?.map
      Contact.picture_name = some (some "pictures/ann.png")) ∧
    (some (basename "pictures/ann.png") = some "pictures/ann.png"
      ↔ '/' ∉ ("pictures/ann.png" : String).toList) :=
  ⟨rfl, by decide,
    picture_name_stored_as_given sample no_files 0 4 "Ann" 1 "pictures/ann.png" rfl
      (by decide)⟩

/-! ## C18: `get_picture_name` -/

theorem seek_contact_of_mem {db : Database} {id : Nat} {c : Contact} (hpk : db.PrimaryKey)
    (hc : c ∈ db.contact) (hid : c.id = id) : Table.seek_contact db id = some c := by
  cases h : Table.seek_contact db id with
  | none => exact absurd hid (seek_contact_eq_none.1 h c hc)
  | some row =>
    have hrid := seek_contact_some_id h
    have hrow : row ∈ db.contact := List.mem_of_find?_eq_some h
    have : row = c :=
      List.inj_on_of_nodup_map hpk hrow hc (by rw [hrid, hid])
    rw [this]

/-- C18: in a database that satisfies the primary key of `contact`,
`get_picture_name(id)` returns the `picture_name` stored in the contact row
with that id when there is such a row (a null `picture_name` reading as the
empty string), and the empty string when no row has the id; this holds for
the cursor implementation and for the SQL implementation. -/
theorem get_picture_name_result (db : Database) (id : Nat) (hpk : db.PrimaryKey) :
    (∀ c ∈ db.contact, c.id = id →
      (Cursor.get_picture_name db id).1 = c.picture_name.getD "" ∧
      (Sql.get_picture_name db id).1 = c.picture_name.getD "") ∧
    ((∀ c ∈ db.contact, c.id ≠ id) →
      (Cursor.get_picture_name db id).1 = "" ∧ (Sql.get_picture_name db id).1 = "") := by
  constructor
  · intro c hc hid
    have hs := seek_contact_of_mem hpk hc hid
    simp [Cursor.get_picture_name, Sql.get_picture_name, hs, as_string]
  · intro habs
    have hs := seek_contact_eq_none.2 habs
    simp [Cursor.get_picture_name, Sql.get_picture_name, hs, as_string]

/-- Witness for C18 on the sample database: the picture name of Sue (id 2)
and that of the absent id 9. -/
theorem get_picture_name_result_witness :
    sample.PrimaryKey ∧
    (Cursor.get_picture_name sample 2).1 = "unknown.png" ∧
    (Sql.get_picture_name sample 9).1 = "" ∧
    (∀ c ∈ sample.contact, c.id = 2 →
      (Cursor.get_picture_name sample 2).1 = c.picture_name.getD "" ∧
      (Sql.get_picture_name sample 2).1 = c.picture_name.getD "") ∧
    ((∀ c ∈ sample.contact, c.id ≠ 2) →
      (Cursor.get_picture_name sample 2).1 = "" ∧ (Sql.get_picture_name sample 2).1 = "") :=
  ⟨by decide, by decide, by decide, get_picture_name_result sample 2 (by decide)⟩

/-! ## C19: `export_picture` for a contact that does not exist -/

/-- C19, the claim at a database without `picture` field: for the id 9, which
matches no contact of `memory_sample`, `export_picture` of `phonebook_sql.cpp`
reports the failure of its select statement, twice, and not that the contact
was not found. -/
theorem sql_export_picture_reports_statement :
    (∀ c ∈ memory_sample.contact, c.id ≠ 9) ∧
    (Sql.export_picture memory_sample no_files 9 "out.png").2
      = [Msg.error (DB_FAILURE 0), Msg.error (DB_FAILURE 0)] ∧
    (Sql.export_picture memory_sample no_files 9 "out.png").2
      ≠ [Msg.text ("Could not find contact with id " ++ toString 9)] := by
  decide

/-- C19 as amended: when no contact row has the id, `export_picture` leaves
the file system unchanged (the output file is not opened, created or
written), in both implementations.  The cursor implementation reports only
that the contact was not found, and so does the SQL implementation when table
`contact` has the `picture` field. -/
theorem export_picture_absent (db : Database) (fs : FileSystem) (id : Nat)
    (file_name : String) (hid : ∀ c ∈ db.contact, c.id ≠ id) :
    Cursor.export_picture db fs id file_name =
      (fs, [Msg.error DB_ENOTFOUND,
        Msg.text ("Could not find contact with id " ++ toString id)]) ∧
    (Sql.export_picture db fs id file_name).1 = fs ∧
    (db.with_picture = true →
      (Sql.export_picture db fs id file_name).2 =
        [Msg.text ("Could not find contact with id " ++ toString id)]) := by
  have hs := seek_contact_eq_none.2 hid
  refine ⟨?_, ?_, ?_⟩
  · simp [Cursor.export_picture, hs, print_error, DB_FAILED, DB_SUCCESS]
  · simp only [Sql.export_picture, hs]
    split <;> rfl
  · intro hp
    simp [Sql.export_picture, hs, hp]

/-- Witness for C19 as amended on the sample database and the absent id 9. -/
theorem export_picture_absent_witness :
    (∀ c ∈ sample.contact, c.id ≠ 9) ∧ sample.with_picture = true ∧
    Cursor.export_picture sample sample_files 9 "out.png" =
      (sample_files, [Msg.error DB_ENOTFOUND,
        Msg.text ("Could not find contact with id " ++ toString 9)]) ∧
    (Sql.export_picture sample sample_files 9 "out.png").1 = sample_files ∧
    (sample.with_picture = true →
      (Sql.export_picture sample sample_files 9 "out.png").2 =
        [Msg.text ("Could not find contact with id " ++ toString 9)]) :=
  ⟨by decide, rfl, export_picture_absent sample sample_files 9 "out.png" (by decide)⟩

/-! ## C20: the status of `create_tables` -/

/-- C20: `create_tables(with_picture)` returns `DB_NOERROR` exactly when the
creation of table `contact` and the creation of table `phone_number` both
succeed, and `DB_ETABLE` in every other case, whatever the status of the
creation that failed; this holds for the cursor implementation and for the
SQL implementation, where a creation succeeds when the table and its index
are both created. -/
theorem create_tables_status (e : SchemaReplies) (with_picture : Bool) :
    (((Cursor.create_tables e with_picture).1 = DB_NOERROR ↔
        DB_SUCCESS (Cursor.create_table_contact e with_picture).1 = true ∧
        DB_SUCCESS (Cursor.create_table_phone_number e) = true) ∧
      ((Cursor.create_tables e with_picture).1 ≠ DB_NOERROR →
        (Cursor.create_tables e with_picture).1 = DB_ETABLE) ∧
      ((Cursor.create_tables e with_picture).1 = DB_NOERROR ↔
        e.table_contact = DB_NOERROR ∧ e.table_phone_number = DB_NOERROR)) ∧
    (((Sql.create_tables e with_picture).1 = DB_NOERROR ↔
        DB_SUCCESS (Sql.create_table_contact e with_picture).1 = true ∧
        DB_SUCCESS (Sql.create_table_phone_number e) = true) ∧
      ((Sql.create_tables e with_picture).1 ≠ DB_NOERROR →
        (Sql.create_tables e with_picture).1 = DB_ETABLE) ∧
      ((Sql.create_tables e with_picture).1 = DB_NOERROR ↔
        e.table_contact = DB_NOERROR ∧ e.index_by_name = DB_NOERROR ∧
        e.table_phone_number = DB_NOERROR ∧ e.index_by_contact_id = DB_NOERROR)) := by
  have hsucc : ∀ rc : Status, DB_SUCCESS rc = true ↔ rc = DB_NOERROR := by
    intro rc
    cases rc <;> simp [DB_SUCCESS]
  refine ⟨⟨?_, ?_, ?_⟩, ⟨?_, ?_, ?_⟩⟩
  · simp only [Cursor.create_tables]
    split <;> simp_all
  · simp only [Cursor.create_tables]
    split <;> simp_all
  · simp only [Cursor.create_tables, Cursor.create_table_contact,
      Cursor.create_table_phone_number]
    split <;> simp_all
  · simp only [Sql.create_tables]
    split <;> simp_all
  · simp only [Sql.create_tables]
    split <;> simp_all
  · simp only [Sql.create_tables, Sql.create_table_contact, Sql.create_table_phone_number]
    by_cases h₁ : e.table_contact = DB_NOERROR <;>
      by_cases h₂ : e.table_phone_number = DB_NOERROR <;>
      by_cases h₃ : e.index_by_name = DB_NOERROR <;>
      by_cases h₄ : e.index_by_contact_id = DB_NOERROR <;>
      simp_all [DB_SUCCESS]

/-- Two failing creations with different engine codes both give `DB_ETABLE`,
and the success of every creation gives `DB_NOERROR`. -/
theorem create_tables_examples :
    (Cursor.create_tables contact_table_fails true).1 = DB_ETABLE ∧
    (Sql.create_tables contact_table_fails true).1 = DB_ETABLE ∧
    (Cursor.create_tables phone_index_fails false).1 = DB_NOERROR ∧
    (Sql.create_tables phone_index_fails false).1 = DB_ETABLE ∧
    (Cursor.create_tables all_succeed true).1 = DB_NOERROR ∧
    (Sql.create_tables all_succeed true).1 = DB_NOERROR := by
  decide

/-! ## C21: the `picture` field of the table definition -/

theorem create_tables_fields (e : SchemaReplies) (with_picture : Bool) :
    (Cursor.create_tables e with_picture).2 =
      (if with_picture then ["id", "name", "ring_id", "picture_name", "picture"]
       else ["id", "name", "ring_id", "picture_name"]) ∧
    (Sql.create_tables e with_picture).2 =
      (if with_picture then ["id", "name", "ring_id", "picture_name", "picture"]
       else ["id", "name", "ring_id", "picture_name"]) := by
  constructor
  · cases with_picture <;>
      simp [Cursor.create_tables, Cursor.create_table_contact, apply_ite Prod.snd]
  · cases with_picture <;>
      simp [Sql.create_tables, Sql.create_table_contact, apply_ite Prod.snd]

/-- The database `create_database` delivers has the `picture` field exactly
when the storage mode is not memory storage. -/
theorem create_database_with_picture (e : SchemaReplies) (file_mode : FileMode)
    (db : Database)
    (h : (Cursor.create_database e file_mode).2 = some db ∨
      (Sql.create_database e file_mode).2 = some db) :
    (db.with_picture = true ↔ file_mode ≠ FileMode.DB_MEMORY_STORAGE) := by
  rcases h with h | h
  · simp only [Cursor.create_database] at h
    split at h
    · simp at h
    · have hf := (create_tables_fields e (file_mode != FileMode.DB_MEMORY_STORAGE)).1
      revert h
      generalize Cursor.create_tables e (file_mode != FileMode.DB_MEMORY_STORAGE) = r at hf ⊢
      obtain ⟨rc, fields⟩ := r
      simp only at hf ⊢
      subst hf
      intro h
      repeat' split at h
      all_goals simp at h
      all_goals subst h
      all_goals cases file_mode <;> simp_all [Database.created]
  · simp only [Sql.create_database] at h
    split at h
    · simp at h
    · have hf := (create_tables_fields e (file_mode != FileMode.DB_MEMORY_STORAGE)).2
      revert h
      generalize Sql.create_tables e (file_mode != FileMode.DB_MEMORY_STORAGE) = r at hf ⊢
      obtain ⟨rc, fields⟩ := r
      simp only at hf ⊢
      subst hf
      intro h
      repeat' split at h
      all_goals simp at h
      all_goals subst h
      all_goals cases file_mode <;> simp_all [Database.created]

/-- C21: when `db.create` succeeds, so that `create_database` goes on to submit
the definition of table `contact`, the fields submitted contain `picture`
exactly when the storage mode is not memory storage, and in memory-storage
mode they are `id`, `name`, `ring_id` and `picture_name` only; this holds for
the cursor implementation and for the SQL implementation. -/
theorem create_database_picture_field (e : SchemaReplies) (file_mode : FileMode)
    (hcreate : DB_SUCCESS e.create = true) :
    (∃ fields, Cursor.create_database_fields e file_mode = some fields ∧
      ("picture" ∈ fields ↔ file_mode ≠ FileMode.DB_MEMORY_STORAGE) ∧
      (file_mode = FileMode.DB_MEMORY_STORAGE →
        fields = ["id", "name", "ring_id", "picture_name"])) ∧
    (∃ fields, Sql.create_database_fields e file_mode = some fields ∧
      ("picture" ∈ fields ↔ file_mode ≠ FileMode.DB_MEMORY_STORAGE) ∧
      (file_mode = FileMode.DB_MEMORY_STORAGE →
        fields = ["id", "name", "ring_id", "picture_name"])) := by
  have hf : DB_FAILED e.create = false := (db_success_iff _).1 hcreate
  obtain ⟨hc, hs⟩ := create_tables_fields e (file_mode != FileMode.DB_MEMORY_STORAGE)
  constructor
  · refine ⟨_, by simp only [Cursor.create_database_fields, hf]; rfl, ?_⟩
    rw [hc]
    cases file_mode <;> simp
  · refine ⟨_, by simp only [Sql.create_database_fields, hf]; rfl, ?_⟩
    rw [hs]
    cases file_mode <;> simp

theorem create_database_picture_field_witness :
    DB_SUCCESS all_succeed.create = true ∧
    ((∃ fields, Cursor.create_database_fields all_succeed FileMode.DB_MEMORY_STORAGE
        = some fields ∧
      ("picture" ∈ fields ↔ FileMode.DB_MEMORY_STORAGE ≠ FileMode.DB_MEMORY_STORAGE) ∧
      (FileMode.DB_MEMORY_STORAGE = FileMode.DB_MEMORY_STORAGE →
        fields = ["id", "name", "ring_id", "picture_name"])) ∧
    (∃ fields, Sql.create_database_fields all_succeed FileMode.DB_MEMORY_STORAGE
        = some fields ∧
      ("picture" ∈ fields ↔ FileMode.DB_MEMORY_STORAGE ≠ FileMode.DB_MEMORY_STORAGE) ∧
      (FileMode.DB_MEMORY_STORAGE = FileMode.DB_MEMORY_STORAGE →
        fields = ["id", "name", "ring_id", "picture_name"]))) :=
  ⟨by decide, create_database_picture_field all_succeed FileMode.DB_MEMORY_STORAGE (by decide)⟩

/-- The fields submitted in the two storage modes when the engine accepts
every schema call, and the `picture` support of the databases delivered. -/
theorem create_database_fields_examples :
    Cursor.create_database_fields all_succeed FileMode.DB_FILE_STORAGE =
      some ["id", "name", "ring_id", "picture_name", "picture"] ∧
    Sql.create_database_fields all_succeed FileMode.DB_FILE_STORAGE =
      some ["id", "name", "ring_id", "picture_name", "picture"] ∧
    Cursor.create_database_fields all_succeed FileMode.DB_MEMORY_STORAGE =
      some ["id", "name", "ring_id", "picture_name"] ∧
    Sql.create_database_fields all_succeed FileMode.DB_MEMORY_STORAGE =
      some ["id", "name", "ring_id", "picture_name"] ∧
    (Cursor.create_database all_succeed FileMode.DB_FILE_STORAGE).2 = some new_database ∧
    (Sql.create_database all_succeed FileMode.DB_MEMORY_STORAGE).2 = some memory_database := by
  decide

/-! ## C22: the status of `create_database` when the sequence fails -/

/-- Function `create_database` of `phonebook.cpp` when `db.create` and `create_tables`
succeed and the creation of the sequence fails: `DB_ESEQ` is returned, a
failed status different from `DB_ETABLE`, whatever the engine reported. -/
theorem cursor_create_database_sequence_fails (e : SchemaReplies) (file_mode : FileMode)
    (hcreate : DB_SUCCESS e.create = true)
    (htables : DB_SUCCESS
      (Cursor.create_tables e (file_mode != FileMode.DB_MEMORY_STORAGE)).1 = true)
    (hseq : DB_FAILED e.sequence = true) :
    (Cursor.create_database e file_mode).1 = DB_ESEQ ∧
    DB_FAILED (Cursor.create_database e file_mode).1 = true ∧
    (Cursor.create_database e file_mode).1 ≠ DB_ETABLE := by
  have h : (Cursor.create_database e file_mode).1 = DB_ESEQ := by
    have hf : DB_FAILED e.create = false := (db_success_iff _).1 hcreate
    have hs : DB_SUCCESS e.sequence = false := by
      cases hx : DB_SUCCESS e.sequence
      · rfl
      · rw [(db_success_iff _).1 hx] at hseq; cases hseq
    simp only [Cursor.create_database, hf]
    revert htables
    generalize Cursor.create_tables e (file_mode != FileMode.DB_MEMORY_STORAGE) = r
    obtain ⟨rc, fields⟩ := r
    intro htables
    have hrc : DB_FAILED rc = false := (db_success_iff _).1 htables
    simp only [hrc, Cursor.create_sequences, hs]
    simp [DB_FAILED, DB_SUCCESS]
  rw [h]
  exact ⟨rfl, by decide, by decide⟩

/-- Function `create_database` of `phonebook_sql.cpp` when `db.create` and
`create_tables` succeed and the creation of the sequence fails: the status
returned is the one the engine reported for the sequence, a failed status. -/
theorem sql_create_database_sequence_fails (e : SchemaReplies) (file_mode : FileMode)
    (hcreate : DB_SUCCESS e.create = true)
    (htables : DB_SUCCESS
      (Sql.create_tables e (file_mode != FileMode.DB_MEMORY_STORAGE)).1 = true)
    (hseq : DB_FAILED e.sequence = true) :
    (Sql.create_database e file_mode).1 = e.sequence ∧
    DB_FAILED (Sql.create_database e file_mode).1 = true := by
  have h : (Sql.create_database e file_mode).1 = e.sequence := by
    have hf : DB_FAILED e.create = false := (db_success_iff _).1 hcreate
    simp only [Sql.create_database, hf]
    revert htables
    generalize Sql.create_tables e (file_mode != FileMode.DB_MEMORY_STORAGE) = r
    obtain ⟨rc, fields⟩ := r
    intro htables
    have hrc : DB_FAILED rc = false := (db_success_iff _).1 htables
    simp only [hrc, Sql.create_sequences, hseq]
    simp
  rw [h]
  exact ⟨rfl, hseq⟩

/-- C22, the failing case: with the engine accepting `db.create` and every
table and index and reporting `DB_ETABLE` for the creation of the sequence,
`create_database` of `phonebook_sql.cpp` returns `DB_ETABLE`, the status of a
table-creation failure, where `create_database` of `phonebook.cpp` returns
`DB_ESEQ`. -/
theorem sql_create_database_sequence_as_table :
    DB_SUCCESS sequence_fails_as_table.create = true ∧
    (Sql.create_tables sequence_fails_as_table true).1 = DB_NOERROR ∧
    DB_FAILED sequence_fails_as_table.sequence = true ∧
    (Sql.create_database sequence_fails_as_table FileMode.DB_FILE_STORAGE).1 = DB_ETABLE ∧
    (Sql.create_database sequence_fails_as_table FileMode.DB_MEMORY_STORAGE).1 = DB_ETABLE ∧
    (Cursor.create_database sequence_fails_as_table FileMode.DB_FILE_STORAGE).1 = DB_ESEQ ∧
    (Sql.create_database sequence_fails FileMode.DB_FILE_STORAGE).1 = DB_FAILURE 3 ∧
    (Cursor.create_database sequence_fails FileMode.DB_FILE_STORAGE).1 = DB_ESEQ := by
  decide

/-! ## C25: the two implementations of `remove_contact` -/

/-- C25: on a database that satisfies the primary key of `contact` and in
which every phone-number row references an existing contact, and for every id,
present or absent, `remove_contact` of `phonebook.cpp` and `remove_contact` of
`phonebook_sql.cpp` leave the same contact rows and the same phone-number
rows; the databases they leave are equal. -/
theorem remove_contact_equivalent (db : Database) (id : Nat)
    (hpk : db.PrimaryKey) (hfk : db.ForeignKey) :
    (Cursor.remove_contact db id).1.contact = (Sql.remove_contact db id).1.contact ∧
    (Cursor.remove_contact db id).1.phone_number
      = (Sql.remove_contact db id).1.phone_number ∧
    (Cursor.remove_contact db id).1 = (Sql.remove_contact db id).1 := by
  have h : (Cursor.remove_contact db id).1 = (Sql.remove_contact db id).1 :=
    (remove_contact_eq Impl.cursor db id hpk hfk).trans
      (remove_contact_eq Impl.sql db id hpk hfk).symm
  exact ⟨by rw [h], by rw [h], h⟩

/-- Witness for C25: Fred (id 3) and his three phone numbers removed from the
sample database. -/
theorem remove_contact_equivalent_witness :
    sample.PrimaryKey ∧ sample.ForeignKey ∧
    (Cursor.remove_contact sample 3).1.contact.map Contact.id = [1, 2] ∧
    (Cursor.remove_contact sample 3).1.contact = (Sql.remove_contact sample 3).1.contact ∧
    (Cursor.remove_contact sample 3).1.phone_number
      = (Sql.remove_contact sample 3).1.phone_number ∧
    (Cursor.remove_contact sample 3).1 = (Sql.remove_contact sample 3).1 :=
  ⟨by decide, by decide, by decide,
    remove_contact_equivalent sample 3 (by decide) (by decide)⟩

/-- In every database reached from a newly created one by a session, whatever
the id, the two implementations of `remove_contact` leave the same
database. -/
theorem reachable_remove_contact_same (db : Database) (hdb : fresh db)
    (calls : List (Impl × Call)) (id : Nat) :
    (Cursor.remove_contact (run db calls).1 id).1
      = (Sql.remove_contact (run db calls).1 id).1 := by
  obtain ⟨hpk, hfk, -⟩ := fresh_run hdb calls
  exact (remove_contact_eq Impl.cursor _ id hpk hfk).trans
    (remove_contact_eq Impl.sql _ id hpk hfk).symm

/-- An absent id: the two implementations leave the sample database as it
is. -/
theorem absent_id_removal_example :
    (Cursor.remove_contact sample 9).1 = sample ∧
    (Sql.remove_contact sample 9).1 = sample := by
  decide

/-! ## C26: the headers `list_contacts` of `phonebook_sql.cpp` prints -/

/-- C26, the failing case: in the database reached from a new one by entering
two contacts named Bob (ids 1 and 2) and then a home number for the first, a
mobile number for the second and a work number for the first, `list_contacts`
of `phonebook_sql.cpp` in sort mode 1 and in sort mode 2 prints the header of
contact 1 twice, once before its home number and once more before its work
number, with the entry of contact 2 in between; in sort mode 0, and in
`list_contacts` of `phonebook.cpp`, each header is printed once. -/
theorem sql_list_contacts_header_repeated :
    same_name.contact.map (fun c => (c.id, c.name)) = [(1, "Bob"), (2, "Bob")] ∧
    same_name.phone_number.map (fun p => (p.contact_id, p.type))
      = [(1, HOME), (2, MOBILE), (1, WORK)] ∧
    same_name.PrimaryKey ∧ same_name.ForeignKey ∧
    (emitted_entries (Sql.list_contacts same_name 1)).map
      (fun e => (e.1.id, e.2.map PhoneLine.type))
      = [(1, [HOME]), (2, [MOBILE]), (1, [WORK])] ∧
    (emitted_entries (Sql.list_contacts same_name 2)).map
      (fun e => (e.1.id, e.2.map PhoneLine.type))
      = [(1, [HOME]), (2, [MOBILE]), (1, [WORK])] ∧
    (emitted_entries (Sql.list_contacts same_name 0)).map
      (fun e => (e.1.id, e.2.map PhoneLine.type))
      = [(1, [HOME, WORK]), (2, [MOBILE])] ∧
    (emitted_entries (Cursor.list_contacts same_name 1)).map
      (fun e => (e.1.id, e.2.map PhoneLine.type))
      = [(1, [HOME, WORK]), (2, [MOBILE])] := by
  decide

/-! ## C27: `insert_contact` when the sequence cannot be read -/

theorem get_next_value_failed {db : Database} {id₀ : Nat}
    (h : DB_FAILED (Sequence.get_next_value db id₀).1 = true) :
    Sequence.get_next_value db id₀ = (DB_ENOTFOUND, id₀, db) := by
  cases hseq : db.contact_id with
  | none => simp [Sequence.get_next_value, hseq]
  | some n => simp [Sequence.get_next_value, hseq, DB_FAILED, DB_SUCCESS] at h

/-- C27, amended: when obtaining the next value of the sequence fails,
`insert_contact` still hands the row to the engine with the value `id₀` its
variable `id` holds.  When the engine accepts the row, the row is in the table
and `id₀` is returned; when the engine rejects it, 0 is returned and the
database is as before.  So 0 is returned exactly when the write fails or `id₀`
is 0.  The first three parts are about `phonebook.cpp`, the last three about
`phonebook_sql.cpp`. -/
theorem insert_contact_sequence_fails (db : Database) (fs : FileSystem) (id₀ : Nat)
    (name : String) (ring_id : Nat) (picture_name : String)
    (hseq : DB_FAILED (Sequence.get_next_value db id₀).1 = true) :
    (DB_FAILED (Table.post_contact db (Contact.entered id₀ name ring_id picture_name)).1
        = false →
      (Cursor.insert_contact db fs id₀ name ring_id picture_name).1 = id₀ ∧
      (Cursor.insert_contact db fs id₀ name ring_id picture_name).2.1.contact =
        db.contact ++ [{ Contact.entered id₀ name ring_id picture_name with
          picture := if db.with_picture then (fs.content picture_name).getD [] else [] }]) ∧
    (DB_FAILED (Table.post_contact db (Contact.entered id₀ name ring_id picture_name)).1
        = true →
      (Cursor.insert_contact db fs id₀ name ring_id picture_name).1 = 0 ∧
      (Cursor.insert_contact db fs id₀ name ring_id picture_name).2.1 = db) ∧
    ((Cursor.insert_contact db fs id₀ name ring_id picture_name).1 = 0 ↔
      DB_FAILED (Table.post_contact db (Contact.entered id₀ name ring_id picture_name)).1
        = true ∨ id₀ = 0) ∧
    (DB_FAILED (Table.post_contact db (Contact.entered id₀ name ring_id picture_name)).1
        = false →
      (Sql.insert_contact db fs id₀ name ring_id picture_name).1 = id₀ ∧
      (Sql.insert_contact db fs id₀ name ring_id picture_name).2.1.contact =
        db.contact ++ [{ Contact.entered id₀ name ring_id picture_name with
          picture := if db.with_picture then (fs.content picture_name).getD [] else [] }]) ∧
    (DB_FAILED (Table.post_contact db (Contact.entered id₀ name ring_id picture_name)).1
        = true →
      (Sql.insert_contact db fs id₀ name ring_id picture_name).1 = 0 ∧
      (Sql.insert_contact db fs id₀ name ring_id picture_name).2.1 = db) ∧
    ((Sql.insert_contact db fs id₀ name ring_id picture_name).1 = 0 ↔
      DB_FAILED (Table.post_contact db (Contact.entered id₀ name ring_id picture_name)).1
        = true ∨ id₀ = 0) := by
  have hg := get_next_value_failed hseq
  have hv : (Sequence.get_next_value db id₀).2.1 = id₀ := by rw [hg]
  have hd : (Sequence.get_next_value db id₀).2.2 = db := by rw [hg]
  have hfail := post_contact_failed_iff db (Contact.entered id₀ name ring_id picture_name)
  have hid : (Contact.entered id₀ name ring_id picture_name).id = id₀ := rfl
  rw [hid] at hfail
  have hok : DB_FAILED (Table.post_contact db
      (Contact.entered id₀ name ring_id picture_name)).1 = false →
      ∀ c ∈ db.contact, c.id ≠ (Sequence.get_next_value db id₀).2.1 := by
    intro h c hc he
    rw [hv] at he
    have := hfail.2 ⟨c, hc, he⟩
    rw [h] at this
    cases this
  have hdup : DB_FAILED (Table.post_contact db
      (Contact.entered id₀ name ring_id picture_name)).1 = true →
      ∃ c ∈ db.contact, c.id = (Sequence.get_next_value db id₀).2.1 := by
    intro h
    rw [hv]
    exact hfail.1 h
  have c₁ := fun h => cursor_insert_contact_ok db fs id₀ name ring_id picture_name (hok h)
  have c₂ := fun h => cursor_insert_contact_dup db fs id₀ name ring_id picture_name (hdup h)
  have s₁ := fun h => sql_insert_contact_ok db fs id₀ name ring_id picture_name (hok h)
  have s₂ := fun h => sql_insert_contact_dup db fs id₀ name ring_id picture_name (hdup h)
  simp only [hv, hd] at c₁ c₂ s₁ s₂
  refine ⟨fun h => ⟨(c₁ h).1, by rw [(c₁ h).2]; rfl⟩, c₂, ?_,
    fun h => ⟨(s₁ h).1, by rw [(s₁ h).2]; rfl⟩, s₂, ?_⟩
  · cases hp : DB_FAILED (Table.post_contact db
        (Contact.entered id₀ name ring_id picture_name)).1 with
    | true => simp [(c₂ hp).1]
    | false => simp [(c₁ hp).1]
  · cases hp : DB_FAILED (Table.post_contact db
        (Contact.entered id₀ name ring_id picture_name)).1 with
    | true => simp [(s₂ hp).1]
    | false => simp [(s₁ hp).1]

/-- Witness for C27: the sample database with an unreadable sequence, the
variable `id` holding 7: the row is written with id 7 and 7 is returned. -/
theorem insert_contact_sequence_fails_witness :
    DB_FAILED (Sequence.get_next_value unreadable_sequence 7).1 = true ∧
    (Cursor.insert_contact unreadable_sequence no_files 7 "Ann" 1 DEFAULT_PICTURE).1 = 7 ∧
    (Sql.insert_contact unreadable_sequence no_files 7 "Ann" 1 DEFAULT_PICTURE).1 = 7 ∧
    ((Cursor.insert_contact unreadable_sequence no_files 7 "Ann" 1 DEFAULT_PICTURE).1 = 0 ↔
      DB_FAILED (Table.post_contact unreadable_sequence
        (Contact.entered 7 "Ann" 1 DEFAULT_PICTURE)).1 = true ∨ 7 = 0) ∧
    ((Sql.insert_contact unreadable_sequence no_files 7 "Ann" 1 DEFAULT_PICTURE).1 = 0 ↔
      DB_FAILED (Table.post_contact unreadable_sequence
        (Contact.entered 7 "Ann" 1 DEFAULT_PICTURE)).1 = true ∨ 7 = 0) :=
  have h := insert_contact_sequence_fails unreadable_sequence no_files 7 "Ann" 1
    DEFAULT_PICTURE (by decide)
  ⟨by decide, by decide, by decide, h.2.2.1, h.2.2.2.2.2⟩

/-- C27, the case the claim misses: in the sample database with an unreadable
sequence, the variable `id` holding 0, the engine accepts the row (no row has
id 0), the row is in the table afterwards, and `insert_contact` returns 0
although the write did not fail; so in both implementations.  With the variable
holding 3, the id of Fred, the write fails and 0 is returned. -/
theorem insert_contact_zero_after_write :
    DB_FAILED (Sequence.get_next_value unreadable_sequence 0).1 = true ∧
    DB_FAILED (Table.post_contact unreadable_sequence
      (Contact.entered 0 "Ann" 1 DEFAULT_PICTURE)).1 = false ∧
    (Cursor.insert_contact unreadable_sequence no_files 0 "Ann" 1 DEFAULT_PICTURE).1 = 0 ∧
    (Cursor.insert_contact unreadable_sequence no_files 0 "Ann" 1 DEFAULT_PICTURE).2.1.contact
      = unreadable_sequence.contact ++ [Contact.entered 0 "Ann" 1 DEFAULT_PICTURE] ∧
    (Sql.insert_contact unreadable_sequence no_files 0 "Ann" 1 DEFAULT_PICTURE).1 = 0 ∧
    (Sql.insert_contact unreadable_sequence no_files 0 "Ann" 1 DEFAULT_PICTURE).2.1.contact
      = unreadable_sequence.contact ++ [Contact.entered 0 "Ann" 1 DEFAULT_PICTURE] ∧
    ¬ ((Cursor.insert_contact unreadable_sequence no_files 0 "Ann" 1 DEFAULT_PICTURE).1 = 0 →
      DB_FAILED (Table.post_contact unreadable_sequence
        (Contact.entered 0 "Ann" 1 DEFAULT_PICTURE)).1 = true) ∧
    DB_FAILED (Table.post_contact unreadable_sequence
      (Contact.entered 3 "Ann" 1 DEFAULT_PICTURE)).1 = true ∧
    (Cursor.insert_contact unreadable_sequence no_files 3 "Ann" 1 DEFAULT_PICTURE).1 = 0 := by
  decide

/-! ## The calls of the console on `pbook` -/

theorem bracket_append (opened : Bool) (u v : List Event) :
    bracket opened (u ++ v) = (bracket opened u).bind (fun o => bracket o v) := by
  induction u generalizing opened with
  | nil => simp [bracket]
  | cons e u ih =>
    cases e <;> cases opened <;> simp [bracket, ih, Event.is_data_operation]

theorem pbook_log_calls (s : Console) (e : Event) :
    (Pbook.log s e).calls = s.calls ++ [e] := rfl

theorem pbook_open_database_calls (s : Console) (rc : Status) (existing : Database)
    (file_mode : FileMode) (database_name : String) :
    (Pbook.open_database s rc existing file_mode database_name).2.calls =
      s.calls ++ [Event.open_database file_mode database_name] := by
  obtain ⟨impl, db, fs, id₀, calls⟩ := s
  cases impl <;> cases h : DB_SUCCESS rc <;> simp [Pbook.open_database, Pbook.log, h]

theorem pbook_create_database_calls (s : Console) (e : SchemaReplies)
    (file_mode : FileMode) (database_name : String) :
    (Pbook.create_database s e file_mode database_name).2.calls =
      s.calls ++ [Event.create_database file_mode database_name] := by
  simp only [Pbook.create_database]
  split <;> rfl

theorem pbook_insert_contact_calls (s : Console) (name : String) (ring_id : Nat)
    (picture_name : String) :
    (Pbook.insert_contact s name ring_id picture_name).2.calls =
      s.calls ++ [Event.insert_contact name ring_id picture_name] := rfl

theorem pbook_insert_contact_exec (s : Console) (name : String) (ring_id : Nat)
    (picture_name : String) :
    some (Pbook.insert_contact s name ring_id picture_name).1 =
      ((Call.insert_contact s.fs s.id₀ name ring_id picture_name).exec s.impl s.db).2 ∧
    (Pbook.insert_contact s name ring_id picture_name).2.db =
      ((Call.insert_contact s.fs s.id₀ name ring_id picture_name).exec s.impl s.db).1 ∧
    (Pbook.insert_contact s name ring_id picture_name).2.impl = s.impl ∧
    (Pbook.insert_contact s name ring_id picture_name).2.fs = s.fs ∧
    (Pbook.insert_contact s name ring_id picture_name).2.id₀ = s.id₀ := by
  obtain ⟨impl, db, fs, id₀, calls⟩ := s
  cases impl <;> exact ⟨rfl, rfl, rfl, rfl, rfl⟩

theorem pbook_insert_phone_number_calls (s : Console) (contact_id : Nat) (number : String)
    (type : Nat) (speed_dial : Int) :
    (Pbook.insert_phone_number s contact_id number type speed_dial).calls =
      s.calls ++ [Event.insert_phone_number contact_id number type speed_dial] := by
  obtain ⟨impl, db, fs, id₀, calls⟩ := s
  cases impl <;> rfl

theorem pbook_insert_phone_number_exec (s : Console) (contact_id : Nat) (number : String)
    (type : Nat) (speed_dial : Int) :
    (Pbook.insert_phone_number s contact_id number type speed_dial).db =
      ((Call.insert_phone_number contact_id number type speed_dial).exec s.impl s.db).1 ∧
    (Pbook.insert_phone_number s contact_id number type speed_dial).impl = s.impl := by
  obtain ⟨impl, db, fs, id₀, calls⟩ := s
  cases impl <;> exact ⟨rfl, rfl⟩

theorem pbook_update_contact_name_calls (s : Console) (id : Nat) (newname : String) :
    (Pbook.update_contact_name s id newname).calls =
      s.calls ++ [Event.update_contact_name id newname] := by
  obtain ⟨impl, db, fs, id₀, calls⟩ := s
  cases impl <;> rfl

theorem pbook_remove_contact_calls (s : Console) (id : Nat) :
    (Pbook.remove_contact s id).calls = s.calls ++ [Event.remove_contact id] := by
  obtain ⟨impl, db, fs, id₀, calls⟩ := s
  cases impl <;> rfl

theorem pbook_get_picture_name_calls (s : Console) (id : Nat) :
    (Pbook.get_picture_name s id).2.calls = s.calls ++ [Event.get_picture_name id] := by
  obtain ⟨impl, db, fs, id₀, calls⟩ := s
  cases impl <;> rfl

theorem pbook_export_picture_calls (s : Console) (id : Nat) (file_name : String) :
    (Pbook.export_picture s id file_name).calls =
      s.calls ++ [Event.export_picture id file_name] := by
  obtain ⟨impl, db, fs, id₀, calls⟩ := s
  cases impl <;> rfl

/-- Function `select_contact`: the id entered is returned, after a brief
listing in a transaction of its own; no row changes. -/
theorem select_contact_spec (s : Console) (id : Nat) :
    (PhoneBookConsoleApp.select_contact s id).1 = id ∧
    (PhoneBookConsoleApp.select_contact s id).2.calls =
      s.calls ++ [Event.tx_start, Event.list_contacts_brief, Event.tx_commit] ∧
    (PhoneBookConsoleApp.select_contact s id).2.db = s.db ∧
    (PhoneBookConsoleApp.select_contact s id).2.impl = s.impl := by
  refine ⟨rfl, ?_, rfl, rfl⟩
  simp [PhoneBookConsoleApp.select_contact, Pbook.tx_start, Pbook.tx_commit,
    Pbook.list_contacts_brief, Pbook.log]

/-- Function `add_phone_number(contact_id)`: the calls it makes.  With the
argument 0 the contact is asked for and the number is entered for the id the
user types; with another argument no contact is asked for and the number is
entered for that id. -/
theorem add_phone_number_calls (s : Console) (a : Answers) (contact_id : Nat) :
    (PhoneBookConsoleApp.add_phone_number s a contact_id).calls =
      s.calls ++
        (if contact_id = 0 then
          [Event.tx_start, Event.list_contacts_brief, Event.tx_commit, Event.tx_start,
            Event.insert_phone_number a.id a.number (PhoneNumberType.cast a.type)
              a.speed_dial,
            Event.tx_commit]
        else
          [Event.tx_start,
            Event.insert_phone_number contact_id a.number (PhoneNumberType.cast a.type)
              a.speed_dial,
            Event.tx_commit]) := by
  by_cases h : contact_id = 0
  · simp [PhoneBookConsoleApp.add_phone_number, h, PhoneBookConsoleApp.select_contact,
      pbook_insert_phone_number_calls, Pbook.tx_start, Pbook.tx_commit,
      Pbook.list_contacts_brief, Pbook.log]
  · simp [PhoneBookConsoleApp.add_phone_number, h,
      pbook_insert_phone_number_calls, Pbook.tx_start, Pbook.tx_commit, Pbook.log]

/-- Function `add_phone_number(contact_id)`: the database afterwards is the one
`insert_phone_number` leaves for the contact id used, the number entered and
the type entered converted to `PhoneNumberType`. -/
theorem add_phone_number_db (s : Console) (a : Answers) (contact_id : Nat) :
    (PhoneBookConsoleApp.add_phone_number s a contact_id).db =
      ((Call.insert_phone_number (if contact_id = 0 then a.id else contact_id) a.number
        (PhoneNumberType.cast a.type) a.speed_dial).exec s.impl s.db).1 := by
  by_cases h : contact_id = 0
  · simp only [PhoneBookConsoleApp.add_phone_number, h, if_true]
    exact (pbook_insert_phone_number_exec _ _ _ _ _).1
  · simp only [PhoneBookConsoleApp.add_phone_number, h, if_false]
    exact (pbook_insert_phone_number_exec _ _ _ _ _).1

/-! ## C24: the type code stored by the console -/

/-- The conversion of the type entered keeps the codes 0 to 4, and every code
from 0 on below 2^32; nothing brings a code above 4 into the range. -/
theorem phone_number_type_cast (type : Int) (h₀ : 0 ≤ type) (h₁ : type < 4294967296) :
    (PhoneNumberType.cast type : Int) = type ∧
    (PhoneNumberType.cast type ≤ 4 ↔ type ≤ 4) := by
  have h : (PhoneNumberType.cast type : Int) = type := by
    unfold PhoneNumberType.cast
    rw [Int.emod_eq_of_lt h₀ h₁]
    exact Int.toNat_of_nonneg h₀
  exact ⟨h, by omega⟩

/-- Function `add_phone_number` for a contact that exists: the row stored is
the last row of `phone_number` afterwards, and its type code is the number
entered, converted, whatever that number is. -/
theorem add_phone_number_stores (s : Console) (a : Answers) (contact_id : Nat)
    (hc : ∃ c ∈ s.db.contact, c.id = (if contact_id = 0 then a.id else contact_id)) :
    (PhoneBookConsoleApp.add_phone_number s a contact_id).db.phone_number =
      s.db.phone_number ++
        [{ contact_id := if contact_id = 0 then a.id else contact_id, number := a.number,
           type := PhoneNumberType.cast a.type, speed_dial := some a.speed_dial }] := by
  rw [add_phone_number_db, insert_phone_number_exec]
  have hany : s.db.contact.any
      (fun c => c.id == (if contact_id = 0 then a.id else contact_id)) = true := by
    simpa using hc
  simp only [Table.post_phone_number, hany, if_true]

/-- C24, the failing case: on the sample database, the user chooses `Add phone
number to existing contact`, selects Bob (id 1) and enters 7 as the phone
number type: a row with type code 7 is stored, in the program built on
`phonebook.cpp` and in the one built on `phonebook_sql.cpp`; 7 is not in the
range 0 to 4.  The same row is stored when 7 is entered in the `Add contact`
command. -/
theorem add_phone_number_type_out_of_range :
    type_seven.type = 7 ∧
    (PhoneBookConsoleApp.run (console_on Impl.cursor sample)
        [(3, type_seven)]).db.phone_number =
      sample.phone_number ++
        [{ contact_id := 1, number := "206-555-7000", type := 7, speed_dial := some (-1) }] ∧
    (PhoneBookConsoleApp.run (console_on Impl.sql sample)
        [(3, type_seven)]).db.phone_number =
      sample.phone_number ++
        [{ contact_id := 1, number := "206-555-7000", type := 7, speed_dial := some (-1) }] ∧
    (PhoneBookConsoleApp.run (console_on Impl.cursor sample)
        [(1, type_seven)]).db.phone_number =
      sample.phone_number ++
        [{ contact_id := 4, number := "206-555-7000", type := 7, speed_dial := some (-1) }] ∧
    ¬ ((7 : Nat) ≤ 4) ∧
    type_name 7 = "" := by
  decide

/-! ## C29: `add_contact` after `insert_contact` -/

/-- Function `add_contact`: the calls it makes, `id` being what `insert_contact`
returns. -/
theorem add_contact_calls (s : Console) (a : Answers) :
    (PhoneBookConsoleApp.add_contact s a).calls =
      s.calls ++
        ([Event.tx_start, Event.insert_contact a.name a.ring_id a.picture, Event.tx_commit]
          ++ (if (Pbook.insert_contact (Pbook.tx_start s) a.name a.ring_id a.picture).1 = 0
            then
              [Event.tx_start, Event.list_contacts_brief, Event.tx_commit, Event.tx_start,
                Event.insert_phone_number a.id a.number (PhoneNumberType.cast a.type)
                  a.speed_dial,
                Event.tx_commit]
            else
              [Event.tx_start,
                Event.insert_phone_number
                  (Pbook.insert_contact (Pbook.tx_start s) a.name a.ring_id a.picture).1
                  a.number (PhoneNumberType.cast a.type) a.speed_dial,
                Event.tx_commit])) := by
  simp only [PhoneBookConsoleApp.add_contact, add_phone_number_calls]
  simp [Answers.picture, Pbook.tx_commit, Pbook.tx_start, Pbook.log,
    pbook_insert_contact_calls]

/-- C29: in `add_contact`, `id` being the value `insert_contact` returns and
`db` the database it leaves.  When `id` is 0, `add_contact` goes on: it lists
the contacts and asks for an id (`select_contact`), and then calls
`insert_phone_number` for the id the user typed, with the number, type and
speed dial entered.  When `id` is not 0, no contact is asked for and
`insert_phone_number` is called for `id`.  In both cases the database
afterwards is the one this `insert_phone_number` leaves. -/
theorem add_contact_after_insert (s : Console) (a : Answers) (id : Nat) (db : Database)
    (hid : (Call.insert_contact s.fs s.id₀ a.name a.ring_id a.picture).exec s.impl s.db
      = (db, some id)) :
    (id = 0 →
      (PhoneBookConsoleApp.add_contact s a).calls =
        s.calls ++
          [Event.tx_start, Event.insert_contact a.name a.ring_id a.picture, Event.tx_commit,
            Event.tx_start, Event.list_contacts_brief, Event.tx_commit,
            Event.tx_start,
            Event.insert_phone_number a.id a.number (PhoneNumberType.cast a.type)
              a.speed_dial,
            Event.tx_commit] ∧
      (PhoneBookConsoleApp.add_contact s a).db =
        ((Call.insert_phone_number a.id a.number (PhoneNumberType.cast a.type)
          a.speed_dial).exec s.impl db).1) ∧
    (id ≠ 0 →
      (PhoneBookConsoleApp.add_contact s a).calls =
        s.calls ++
          [Event.tx_start, Event.insert_contact a.name a.ring_id a.picture, Event.tx_commit,
            Event.tx_start,
            Event.insert_phone_number id a.number (PhoneNumberType.cast a.type)
              a.speed_dial,
            Event.tx_commit] ∧
      (PhoneBookConsoleApp.add_contact s a).db =
        ((Call.insert_phone_number id a.number (PhoneNumberType.cast a.type)
          a.speed_dial).exec s.impl db).1) := by
  obtain ⟨h₁, h₂, h₃, -, -⟩ :=
    pbook_insert_contact_exec (Pbook.tx_start s) a.name a.ring_id a.picture
  have e₁ : (Pbook.tx_start s).fs = s.fs := rfl
  have e₂ : (Pbook.tx_start s).id₀ = s.id₀ := rfl
  have e₃ : (Pbook.tx_start s).impl = s.impl := rfl
  have e₄ : (Pbook.tx_start s).db = s.db := rfl
  rw [e₁, e₂, e₃, e₄, hid] at h₁ h₂
  rw [e₃] at h₃
  simp only [Option.some.injEq] at h₁
  have hdb : (PhoneBookConsoleApp.add_contact s a).db =
      ((Call.insert_phone_number (if id = 0 then a.id else id) a.number
        (PhoneNumberType.cast a.type) a.speed_dial).exec s.impl db).1 := by
    have := add_phone_number_db
      (Pbook.tx_commit (Pbook.insert_contact (Pbook.tx_start s) a.name a.ring_id a.picture).2)
      a (Pbook.insert_contact (Pbook.tx_start s) a.name a.ring_id a.picture).1
    rw [h₁] at this
    have e₅ : (Pbook.tx_commit
        (Pbook.insert_contact (Pbook.tx_start s) a.name a.ring_id a.picture).2).db = db := h₂
    have e₆ : (Pbook.tx_commit
        (Pbook.insert_contact (Pbook.tx_start s) a.name a.ring_id a.picture).2).impl
        = s.impl := h₃
    rw [e₅, e₆] at this
    rw [← this, ← h₁]
    rfl
  constructor
  · intro h0
    refine ⟨?_, by rw [hdb, if_pos h0]⟩
    rw [add_contact_calls, h₁, if_pos h0]
    rfl
  · intro h0
    refine ⟨?_, by rw [hdb, if_neg h0]⟩
    rw [add_contact_calls, h₁, if_neg h0]
    rfl

/-- Witness for C29: on the sample database with the sequence set back to 3,
`insert_contact` fails and returns 0; the contact is then asked for, and the
number entered is stored for the id typed, 1. -/
theorem add_contact_after_insert_witness :
    (Call.insert_contact (console_on Impl.cursor stale_sequence).fs
        (console_on Impl.cursor stale_sequence).id₀ type_seven.name type_seven.ring_id
        type_seven.picture).exec Impl.cursor stale_sequence
      = ({ stale_sequence with contact_id := some 4 }, some 0) ∧
    ((0 = 0 →
      (PhoneBookConsoleApp.add_contact (console_on Impl.cursor stale_sequence)
          type_seven).calls =
        (console_on Impl.cursor stale_sequence).calls ++
          [Event.tx_start,
            Event.insert_contact type_seven.name type_seven.ring_id type_seven.picture,
            Event.tx_commit,
            Event.tx_start, Event.list_contacts_brief, Event.tx_commit,
            Event.tx_start,
            Event.insert_phone_number type_seven.id type_seven.number
              (PhoneNumberType.cast type_seven.type) type_seven.speed_dial,
            Event.tx_commit] ∧
      (PhoneBookConsoleApp.add_contact (console_on Impl.cursor stale_sequence)
          type_seven).db =
        ((Call.insert_phone_number type_seven.id type_seven.number
          (PhoneNumberType.cast type_seven.type) type_seven.speed_dial).exec
            (console_on Impl.cursor stale_sequence).impl
            { stale_sequence with contact_id := some 4 }).1) ∧
    (0 ≠ 0 →
      (PhoneBookConsoleApp.add_contact (console_on Impl.cursor stale_sequence)
          type_seven).calls =
        (console_on Impl.cursor stale_sequence).calls ++
          [Event.tx_start,
            Event.insert_contact type_seven.name type_seven.ring_id type_seven.picture,
            Event.tx_commit,
            Event.tx_start,
            Event.insert_phone_number 0 type_seven.number
              (PhoneNumberType.cast type_seven.type) type_seven.speed_dial,
            Event.tx_commit] ∧
      (PhoneBookConsoleApp.add_contact (console_on Impl.cursor stale_sequence)
          type_seven).db =
        ((Call.insert_phone_number 0 type_seven.number
          (PhoneNumberType.cast type_seven.type) type_seven.speed_dial).exec
            (console_on Impl.cursor stale_sequence).impl
            { stale_sequence with contact_id := some 4 }).1)) :=
  ⟨by decide,
    add_contact_after_insert (console_on Impl.cursor stale_sequence) type_seven 0
      { stale_sequence with contact_id := some 4 } (by decide)⟩

/-- The two cases of `add_contact` on examples: with the sequence set back to
3 `insert_contact` returns 0, the contacts are listed and the number goes to
contact 1, the id typed; on the sample database `insert_contact` returns 4 and
the number goes to contact 4 without a listing. -/
theorem add_contact_examples :
    (PhoneBookConsoleApp.add_contact (console_on Impl.sql stale_sequence) type_seven).calls =
      [Event.tx_start, Event.insert_contact "Ann" 1 "unknown.png", Event.tx_commit,
        Event.tx_start, Event.list_contacts_brief, Event.tx_commit,
        Event.tx_start, Event.insert_phone_number 1 "206-555-7000" 7 (-1),
        Event.tx_commit] ∧
    (PhoneBookConsoleApp.add_contact (console_on Impl.sql stale_sequence)
        type_seven).db.phone_number.map PhoneNumber.contact_id = [1, 2, 3, 3, 3, 1] ∧
    (PhoneBookConsoleApp.add_contact (console_on Impl.sql sample) type_seven).calls =
      [Event.tx_start, Event.insert_contact "Ann" 1 "unknown.png", Event.tx_commit,
        Event.tx_start, Event.insert_phone_number 4 "206-555-7000" 7 (-1),
        Event.tx_commit] ∧
    (PhoneBookConsoleApp.add_contact (console_on Impl.sql sample)
        type_seven).db.phone_number.map PhoneNumber.contact_id = [1, 2, 3, 3, 3, 4] := by
  decide

/-! ## C28: the database `connect` opens -/

/-- Function `populate_tables`: the calls it makes, in one transaction; the ids
passed to `insert_phone_number` are those `insert_contact` returned. -/
theorem populate_tables_calls (s : Console) :
    ∃ i₁ i₂ i₃, (PhoneBookConsoleApp.populate_tables s).calls =
      s.calls ++
        [Event.tx_start,
          Event.insert_contact "Bob" 0 DEFAULT_PICTURE,
          Event.insert_phone_number i₁ "206-555-1000" MOBILE (-1),
          Event.insert_contact "Sue" 7 DEFAULT_PICTURE,
          Event.insert_phone_number i₂ "206-555-3890" HOME 0,
          Event.insert_contact "Fred" 7 DEFAULT_PICTURE,
          Event.insert_phone_number i₃ "206-555-1308" HOME 5,
          Event.insert_phone_number i₃ "206-555-2335" MOBILE (-1),
          Event.insert_phone_number i₃ "206-555-5361" PAGER (-1),
          Event.tx_commit] := by
  obtain ⟨impl, db, fs, id₀, calls⟩ := s
  cases impl
  · apply Exists.intro
    apply Exists.intro
    apply Exists.intro
    case h =>
      simp only [PhoneBookConsoleApp.populate_tables, Pbook.insert_contact,
        Pbook.insert_phone_number, Pbook.tx_start, Pbook.tx_commit, Pbook.log,
        List.append_assoc, List.cons_append, List.nil_append]
      rfl
  · apply Exists.intro
    apply Exists.intro
    apply Exists.intro
    case h =>
      simp only [PhoneBookConsoleApp.populate_tables, Pbook.insert_contact,
        Pbook.insert_phone_number, Pbook.tx_start, Pbook.tx_commit, Pbook.log,
        List.append_assoc, List.cons_append, List.nil_append]
      rfl

/-- The part of `connect` after the database was opened or could not be
opened: the calls it adds keep the transaction discipline, none is an
`open_database`, and a `create_database` has the storage mode and the name
given. -/
theorem connect_create_calls (s : Console) (e : SchemaReplies) (result : Status)
    (file_mode : FileMode) (name : String) :
    ∃ u, ((if result = DB_ENOENT then
            match Pbook.create_database s e file_mode name with
            | (rc, s) =>
              if DB_SUCCESS rc = true then (some 0, PhoneBookConsoleApp.populate_tables s)
              else (some 1, s)
          else if (!DB_SUCCESS result) = true then (some 1, s)
          else (some 0, s)) : Option Int × Console).2.calls = s.calls ++ u ∧
      bracket false u = some false ∧
      ∀ mode database_name,
        (Event.open_database mode database_name ∈ u ∨
          Event.create_database mode database_name ∈ u) →
        mode = file_mode ∧ database_name = name := by
  by_cases hr : result = DB_ENOENT
  · simp only [hr, if_true]
    have hc := pbook_create_database_calls s e file_mode name
    generalize Pbook.create_database s e file_mode name = r at hc ⊢
    obtain ⟨rc, s₁⟩ := r
    simp only at hc ⊢
    by_cases hs : DB_SUCCESS rc = true
    · simp only [hs, if_true]
      obtain ⟨i₁, i₂, i₃, hp⟩ := populate_tables_calls s₁
      refine ⟨_, by rw [hp, hc, List.append_assoc], ?_, ?_⟩
      · simp [bracket, Event.is_data_operation]
      · intro mode database_name h
        simpa using h
    · simp only [hs]
      refine ⟨_, hc, ?_, ?_⟩
      · simp [bracket, Event.is_data_operation]
      · intro mode database_name h
        simpa using h
  · simp only [hr, if_false]
    refine ⟨[], ?_, rfl, by simp⟩
    split <;> simp

theorem connection_loop_accepts (standalone : Bool) (m : Int) (choices : List Int)
    (hm : 1 ≤ m ∧ m ≤ 4) (hs : standalone = false ∨ m ≤ 2) :
    PhoneBookConsoleApp.connection_loop standalone (m :: choices) = some m := by
  have h0 : m ≠ 0 := by omega
  have h₁ : ¬ ((m = 3 ∨ m = 4) ∧ standalone = true) := by
    rintro ⟨h, hst⟩
    rcases hs with hs | hs
    · rw [hs] at hst; cases hst
    · omega
  have h₂ : ¬ (m < 1 ∨ m > 4) := by omega
  simp only [PhoneBookConsoleApp.connection_loop, h0, h₁, h₂, if_false]

/-- Function `connect` once the menu loop ends with a connection method `m`
other than 0: the first call is `open_database` with the storage mode and the
database name computed from `m`, the calls that follow keep the transaction
discipline, and every later `open_database` or `create_database` has the same
storage mode and name. -/
theorem connect_calls (s : Console) (h : Host) (choices : List Int) (m : Int)
    (hloop : PhoneBookConsoleApp.connection_loop h.standalone choices = some m)
    (hm : m ≠ 0) :
    ∃ calls, (PhoneBookConsoleApp.connect s h choices).2.calls =
        s.calls ++ Event.open_database (PhoneBookConsoleApp.storage_mode m)
          (PhoneBookConsoleApp.database_name m) :: calls ∧
      bracket false calls = some false ∧
      ∀ mode database_name,
        (Event.open_database mode database_name ∈ calls ∨
          Event.create_database mode database_name ∈ calls) →
        mode = PhoneBookConsoleApp.storage_mode m ∧
          database_name = PhoneBookConsoleApp.database_name m := by
  simp only [PhoneBookConsoleApp.connect, hloop, hm, if_false]
  have c₁ := pbook_open_database_calls s h.open_reply h.existing
    (PhoneBookConsoleApp.storage_mode m) (PhoneBookConsoleApp.database_name m)
  generalize Pbook.open_database s h.open_reply h.existing
    (PhoneBookConsoleApp.storage_mode m) (PhoneBookConsoleApp.database_name m) = r₁ at c₁ ⊢
  obtain ⟨res₁, s₁⟩ := r₁
  simp only at c₁ ⊢
  by_cases hsock : res₁ = DB_ESOCKETOPEN
  · simp only [hsock, if_true]
    have c₂ := pbook_open_database_calls (Pbook.log s₁ Event.db_server_start)
      h.reopen_reply h.existing
      (PhoneBookConsoleApp.storage_mode m) (PhoneBookConsoleApp.database_name m)
    generalize Pbook.open_database (Pbook.log s₁ Event.db_server_start)
      h.reopen_reply h.existing
      (PhoneBookConsoleApp.storage_mode m) (PhoneBookConsoleApp.database_name m) = r₂ at c₂ ⊢
    obtain ⟨res₂, s₂⟩ := r₂
    simp only [pbook_log_calls] at c₂ ⊢
    obtain ⟨u, hu, hb, hp⟩ := connect_create_calls s₂ h.schema res₂
      (PhoneBookConsoleApp.storage_mode m) (PhoneBookConsoleApp.database_name m)
    refine ⟨[Event.db_server_start, Event.open_database (PhoneBookConsoleApp.storage_mode m)
      (PhoneBookConsoleApp.database_name m)] ++ u, hu.trans ?_, ?_, ?_⟩
    · rw [c₂, c₁]; simp
    · simpa [bracket, Event.is_data_operation] using hb
    · intro mode database_name hmem
      simp only [List.cons_append, List.nil_append, List.mem_cons, Event.open_database.injEq,
        reduceCtorEq, false_or] at hmem
      rcases hmem with (⟨h₁, h₂⟩ | h') | h'
      · exact ⟨h₁, h₂⟩
      · exact hp mode database_name (Or.inl h')
      · exact hp mode database_name (Or.inr h')
  · simp only [hsock, if_false]
    obtain ⟨u, hu, hb, hp⟩ := connect_create_calls s₁ h.schema res₁
      (PhoneBookConsoleApp.storage_mode m) (PhoneBookConsoleApp.database_name m)
    refine ⟨u, hu.trans ?_, hb, hp⟩
    rw [c₁]; simp

/-- The menu loop of `connect` ends with 0 or with a connection method from 1
to 4, and on a stand-alone build never with 3 or 4. -/
theorem connection_loop_range (standalone : Bool) (choices : List Int) (m : Int)
    (h : PhoneBookConsoleApp.connection_loop standalone choices = some m) :
    (m = 0 ∨ (1 ≤ m ∧ m ≤ 4)) ∧ (standalone = true → m ≤ 2) := by
  induction choices with
  | nil => simp [PhoneBookConsoleApp.connection_loop] at h
  | cons c choices ih =>
    simp only [PhoneBookConsoleApp.connection_loop] at h
    split_ifs at h with h₀ h₁ h₂ h₂
    · simp only [Option.some.injEq] at h
      subst h
      exact ⟨Or.inl rfl, fun _ => by omega⟩
    · exact ih h
    · simp only [Option.some.injEq] at h
      omega
    · exact ih h
    · simp only [Option.some.injEq] at h
      subst h
      refine ⟨Or.inr (by omega), fun hst => ?_⟩
      by_contra hgt
      exact h₁ ⟨by omega, hst⟩

/-- C28: whenever the connection menu ends with a connection method `m` from
1 to 4 (after any choices the menu loop rejected), `connect` calls
`open_database` with the storage mode and the name that the text of the menu
promises for `m`, and every later `open_database` or `create_database` of
`connect` has the same storage mode and name.  The storage mode is memory
storage exactly when bit 0 of `m - 1` is set, and the name is the server URI
exactly when bit 1 of `m - 1` is set. -/
theorem connect_opens_as_promised (s : Console) (h : Host) (choices : List Int) (m : Int)
    (hloop : PhoneBookConsoleApp.connection_loop h.standalone choices = some m)
    (hm : 1 ≤ m ∧ m ≤ 4) :
    menu_promise m =
      some (PhoneBookConsoleApp.storage_mode m, PhoneBookConsoleApp.database_name m) ∧
    (∃ calls, (PhoneBookConsoleApp.connect s h choices).2.calls =
        s.calls ++ Event.open_database (PhoneBookConsoleApp.storage_mode m)
          (PhoneBookConsoleApp.database_name m) :: calls ∧
      ∀ mode database_name,
        (Event.open_database mode database_name ∈ calls ∨
          Event.create_database mode database_name ∈ calls) →
        mode = PhoneBookConsoleApp.storage_mode m ∧
          database_name = PhoneBookConsoleApp.database_name m) ∧
    (PhoneBookConsoleApp.storage_mode m = FileMode.DB_MEMORY_STORAGE ↔
      (m - 1).testBit 0 = true) ∧
    (PhoneBookConsoleApp.database_name m = DATABASE_NAME_SERVER ↔
      (m - 1).testBit 1 = true) := by
  obtain ⟨calls, hc, -, hp⟩ := connect_calls s h choices m hloop (by omega)
  refine ⟨?_, ⟨calls, hc, hp⟩, ?_, ?_⟩
  · obtain ⟨h₁, h₂⟩ := hm
    interval_cases m <;> decide
  · obtain ⟨h₁, h₂⟩ := hm
    interval_cases m <;> decide
  · obtain ⟨h₁, h₂⟩ := hm
    interval_cases m <;> decide

/-- Witness for C28: on a stand-alone build where no database exists yet, the
user chooses 3, which is refused, and then 2. -/
theorem connect_opens_as_promised_witness :
    PhoneBookConsoleApp.connection_loop standalone_host.standalone [3, 2] = some 2 ∧
    PhoneBookConsoleApp.storage_mode 2 = FileMode.DB_MEMORY_STORAGE ∧
    PhoneBookConsoleApp.database_name 2 = "phone_book.db" ∧
    menu_promise 2 =
      some (PhoneBookConsoleApp.storage_mode 2, PhoneBookConsoleApp.database_name 2) ∧
    (∃ calls, (PhoneBookConsoleApp.connect (console_on Impl.cursor new_database)
          standalone_host [3, 2]).2.calls =
        (console_on Impl.cursor new_database).calls ++
          Event.open_database (PhoneBookConsoleApp.storage_mode 2)
            (PhoneBookConsoleApp.database_name 2) :: calls ∧
      ∀ mode database_name,
        (Event.open_database mode database_name ∈ calls ∨
          Event.create_database mode database_name ∈ calls) →
        mode = PhoneBookConsoleApp.storage_mode 2 ∧
          database_name = PhoneBookConsoleApp.database_name 2) ∧
    (PhoneBookConsoleApp.storage_mode 2 = FileMode.DB_MEMORY_STORAGE ↔
      ((2 : Int) - 1).testBit 0 = true) ∧
    (PhoneBookConsoleApp.database_name 2 = DATABASE_NAME_SERVER ↔
      ((2 : Int) - 1).testBit 1 = true) :=
  ⟨by decide, by decide, by decide,
    connect_opens_as_promised (console_on Impl.cursor new_database) standalone_host [3, 2] 2
      (by decide) (by decide)⟩

/-- The four connection methods, and the calls of `connect` for choice 2 on a
host where no database exists yet (after the choices 7 and 5, which the menu
loop rejects): the memory-storage database with the local name is opened, then
created and populated. -/
theorem connect_examples :
    (PhoneBookConsoleApp.storage_mode 1, PhoneBookConsoleApp.database_name 1)
      = (FileMode.DB_FILE_STORAGE, "phone_book.db") ∧
    (PhoneBookConsoleApp.storage_mode 2, PhoneBookConsoleApp.database_name 2)
      = (FileMode.DB_MEMORY_STORAGE, "phone_book.db") ∧
    (PhoneBookConsoleApp.storage_mode 3, PhoneBookConsoleApp.database_name 3)
      = (FileMode.DB_FILE_STORAGE, "idb+tcp://localhost/phone_book.db") ∧
    (PhoneBookConsoleApp.storage_mode 4, PhoneBookConsoleApp.database_name 4)
      = (FileMode.DB_MEMORY_STORAGE, "idb+tcp://localhost/phone_book.db") ∧
    (PhoneBookConsoleApp.connect (console_on Impl.sql new_database) new_host
        [7, 5, 2]).2.calls =
      [Event.open_database FileMode.DB_MEMORY_STORAGE "phone_book.db",
        Event.create_database FileMode.DB_MEMORY_STORAGE "phone_book.db",
        Event.tx_start,
        Event.insert_contact "Bob" 0 "unknown.png",
        Event.insert_phone_number 1 "206-555-1000" 1 (-1),
        Event.insert_contact "Sue" 7 "unknown.png",
        Event.insert_phone_number 2 "206-555-3890" 0 0,
        Event.insert_contact "Fred" 7 "unknown.png",
        Event.insert_phone_number 3 "206-555-1308" 0 5,
        Event.insert_phone_number 3 "206-555-2335" 1 (-1),
        Event.insert_phone_number 3 "206-555-5361" 4 (-1),
        Event.tx_commit] ∧
    (PhoneBookConsoleApp.connect (console_on Impl.sql new_database) new_host
        [7, 5, 2]).2.db = memory_sample ∧
    (PhoneBookConsoleApp.connect (console_on Impl.sql new_database)
        standalone_host [3, 0]).1 = some 1 := by
  decide

/-! ## C23: the transactions of the console -/

/-- Function `remove_contact` of the console: the calls it makes. -/
theorem console_remove_contact_calls (s : Console) (a : Answers) :
    (PhoneBookConsoleApp.remove_contact s a).calls =
      s.calls ++ [Event.tx_start, Event.list_contacts_brief, Event.tx_commit,
        Event.tx_start, Event.remove_contact a.id, Event.tx_commit] := by
  simp [PhoneBookConsoleApp.remove_contact, PhoneBookConsoleApp.select_contact,
    pbook_remove_contact_calls, Pbook.tx_start, Pbook.tx_commit,
    Pbook.list_contacts_brief, Pbook.log]

/-- Function `rename_contact`: the calls it makes. -/
theorem rename_contact_calls (s : Console) (a : Answers) :
    (PhoneBookConsoleApp.rename_contact s a).calls =
      s.calls ++ [Event.tx_start, Event.list_contacts_brief, Event.tx_commit,
        Event.tx_start, Event.update_contact_name a.id a.name, Event.tx_commit] := by
  simp [PhoneBookConsoleApp.rename_contact, PhoneBookConsoleApp.select_contact,
    pbook_update_contact_name_calls, Pbook.tx_start, Pbook.tx_commit,
    Pbook.list_contacts_brief, Pbook.log]

/-- Function `export_picture` of the console: the calls it makes, for some file
name passed to `pbook.export_picture`. -/
theorem console_export_picture_calls (s : Console) (a : Answers) :
    ∃ file_name, (PhoneBookConsoleApp.export_picture s a).calls =
      s.calls ++ [Event.tx_start, Event.list_contacts_brief, Event.tx_commit,
        Event.tx_start, Event.get_picture_name a.id, Event.tx_commit,
        Event.tx_start, Event.export_picture a.id file_name, Event.tx_commit] := by
  refine ⟨if a.file_name ≠ "" then a.file_name else
    (Pbook.get_picture_name (Pbook.tx_start
      (PhoneBookConsoleApp.select_contact s a.id).2) a.id).1, ?_⟩
  simp [PhoneBookConsoleApp.export_picture, PhoneBookConsoleApp.select_contact,
    pbook_export_picture_calls, pbook_get_picture_name_calls, Pbook.tx_start,
    Pbook.tx_commit, Pbook.list_contacts_brief, Pbook.log]

/-- One menu command adds calls that keep the transaction discipline, from no
open transaction to no open transaction. -/
theorem command_bracketed (s : Console) (choice : Int) (a : Answers) :
    ∃ u, (PhoneBookConsoleApp.command s choice a).calls = s.calls ++ u ∧
      bracket false u = some false := by
  unfold PhoneBookConsoleApp.command
  split_ifs
  · refine ⟨_, add_contact_calls s a, ?_⟩
    split_ifs <;> simp [bracket, Event.is_data_operation]
  · exact ⟨_, console_remove_contact_calls s a, by simp [bracket, Event.is_data_operation]⟩
  · refine ⟨_, add_phone_number_calls s a 0, ?_⟩
    simp [bracket, Event.is_data_operation]
  · exact ⟨_, rename_contact_calls s a, by simp [bracket, Event.is_data_operation]⟩
  · exact ⟨[Event.tx_start, Event.list_contacts 1, Event.tx_commit],
      by simp [Pbook.tx_start, Pbook.tx_commit, Pbook.list_contacts, Pbook.log],
      by simp [bracket, Event.is_data_operation]⟩
  · exact ⟨[Event.tx_start, Event.list_contacts 0, Event.tx_commit],
      by simp [Pbook.tx_start, Pbook.tx_commit, Pbook.list_contacts, Pbook.log],
      by simp [bracket, Event.is_data_operation]⟩
  · exact ⟨[Event.tx_start, Event.list_contacts 2, Event.tx_commit],
      by simp [Pbook.tx_start, Pbook.tx_commit, Pbook.list_contacts, Pbook.log],
      by simp [bracket, Event.is_data_operation]⟩
  · obtain ⟨file_name, h⟩ := console_export_picture_calls s a
    exact ⟨_, h, by simp [bracket, Event.is_data_operation]⟩
  · exact ⟨[], by simp, rfl⟩

theorem bracket_append_closed {u v : List Event} (hu : bracket false u = some false)
    (hv : bracket false v = some false) : bracket false (u ++ v) = some false := by
  rw [bracket_append, hu]
  exact hv

/-- Function `run`: the calls of the menu loop keep the transaction
discipline. -/
theorem run_bracketed (commands : List (Int × Answers)) (s : Console) :
    ∃ u, (PhoneBookConsoleApp.run s commands).calls = s.calls ++ u ∧
      bracket false u = some false := by
  induction commands generalizing s with
  | nil => exact ⟨[], by simp [PhoneBookConsoleApp.run], rfl⟩
  | cons c commands ih =>
    obtain ⟨choice, a⟩ := c
    by_cases h : choice = 0
    · exact ⟨[], by simp [PhoneBookConsoleApp.run, h], rfl⟩
    · obtain ⟨u, hu, hbu⟩ := command_bracketed s choice a
      obtain ⟨v, hv, hbv⟩ := ih (PhoneBookConsoleApp.command s choice a)
      refine ⟨u ++ v, ?_, bracket_append_closed hbu hbv⟩
      simp only [PhoneBookConsoleApp.run, h, if_false]
      rw [hv, hu, List.append_assoc]

/-- Function `connect`: its calls keep the transaction discipline. -/
theorem connect_bracketed (s : Console) (h : Host) (choices : List Int) :
    ∃ u, (PhoneBookConsoleApp.connect s h choices).2.calls = s.calls ++ u ∧
      bracket false u = some false := by
  cases hloop : PhoneBookConsoleApp.connection_loop h.standalone choices with
  | none => exact ⟨[], by simp [PhoneBookConsoleApp.connect, hloop], rfl⟩
  | some m =>
    by_cases hm : m = 0
    · exact ⟨[], by simp [PhoneBookConsoleApp.connect, hloop, hm], rfl⟩
    · obtain ⟨calls, hc, hb, -⟩ := connect_calls s h choices m hloop hm
      exact ⟨_, hc, by simpa [bracket, Event.is_data_operation] using hb⟩

/-- C23: in every run of the console, from a state with no call made, through
`connect` (with `populate_tables` when the database is created) and the menu
loop, for every implementation, database, file system, host, choice and
answer: the calls on `pbook` keep the transaction discipline.  `tx_start` is
called only while no transaction is open, every data operation is called
while one is open, `tx_commit` is called only while one is open, and after
the last call of the run no transaction is left open: each bracket is closed
by its `tx_commit`, whatever the operations in it did. -/
theorem console_transactions_bracketed (impl : Impl) (db : Database) (fs : FileSystem)
    (id₀ : Nat) (h : Host) (choices : List Int) (commands : List (Int × Answers)) :
    bracket false
      (PhoneBookConsoleApp.main
        { impl := impl, db := db, fs := fs, id₀ := id₀, calls := [] }
        h choices commands).calls = some false := by
  obtain ⟨u, hu, hbu⟩ := connect_bracketed
    { impl := impl, db := db, fs := fs, id₀ := id₀, calls := [] } h choices
  simp only [PhoneBookConsoleApp.main]
  generalize PhoneBookConsoleApp.connect
    { impl := impl, db := db, fs := fs, id₀ := id₀, calls := [] } h choices = r at hu ⊢
  obtain ⟨ret, s⟩ := r
  simp only [List.nil_append] at hu ⊢
  split_ifs
  · obtain ⟨v, hv, hbv⟩ := run_bracketed commands s
    rw [hv, hu]
    exact bracket_append_closed hbu hbv
  · rw [hu]
    exact hbu

/-- A run on a host where no database exists yet: memory storage is chosen,
the database is created and populated, then Sue is removed, an unknown choice
is entered, and the contacts are listed by name.  The checker rejects a data
operation outside a transaction, a `tx_start` inside one, and accepts being
left inside one only by reporting it. -/
theorem console_run_example :
    (PhoneBookConsoleApp.main (console_on Impl.cursor new_database) new_host [2]
        [(2, { type_seven with id := 2 }), (9, type_seven), (5, type_seven),
          (0, type_seven), (6, type_seven)]).calls =
      [Event.open_database FileMode.DB_MEMORY_STORAGE "phone_book.db",
        Event.create_database FileMode.DB_MEMORY_STORAGE "phone_book.db",
        Event.tx_start,
        Event.insert_contact "Bob" 0 "unknown.png",
        Event.insert_phone_number 1 "206-555-1000" 1 (-1),
        Event.insert_contact "Sue" 7 "unknown.png",
        Event.insert_phone_number 2 "206-555-3890" 0 0,
        Event.insert_contact "Fred" 7 "unknown.png",
        Event.insert_phone_number 3 "206-555-1308" 0 5,
        Event.insert_phone_number 3 "206-555-2335" 1 (-1),
        Event.insert_phone_number 3 "206-555-5361" 4 (-1),
        Event.tx_commit,
        Event.tx_start, Event.list_contacts_brief, Event.tx_commit,
        Event.tx_start, Event.remove_contact 2, Event.tx_commit,
        Event.tx_start, Event.list_contacts 1, Event.tx_commit] ∧
    (PhoneBookConsoleApp.main (console_on Impl.cursor new_database) new_host [2]
        [(2, { type_seven with id := 2 })]).db.contact.map Contact.name = ["Bob", "Fred"] ∧
    bracket false [Event.list_contacts 1] = none ∧
    bracket false [Event.tx_start, Event.tx_start] = none ∧
    bracket false [Event.tx_commit] = none ∧
    bracket false [Event.tx_start, Event.list_contacts 1] = some true ∧
    bracket false [Event.tx_start, Event.list_contacts 1, Event.tx_commit] = some false := by
  decide

end PhoneBook
